import Mathlib

/-!
# Punch-out video geometry broker and hardware video surface arbiter

A shallow embedding of

* `cobalt/media/service/video_geometry_setter_service.{h,cc}`: the broker that
  keeps the registry `overlay_plane_id -> VideoGeometryChangeClient` and the
  single `VideoGeometrySetter` receiver;
* `starboard/android/shared/video_window.cc`: the globals guarding the single
  hardware video surface and the `VideoSurfaceHolder` entry points;
* `media/renderers/video_overlay_factory.cc` and
  `media/mojo/clients/starboard/starboard_renderer_client.cc`: hole frames,
  geometry forwarding and the rendering mode of the renderer-side client;
* `components/viz/service/display/starboard/overlay_strategy_underlay_starboard.cc`:
  the `Propose`, `Attempt` and `CommitCandidate` steps of the overlay strategy;
* `starboard/shared/starboard/queue_application.cc`: the lifecycle dispatch of
  `QueueApplication` and the ordering of its timed event queue.

Stateful C++ is written as explicit state passing.  Every broker method runs on
the service's sequence, every `VideoSurfaceHolder` entry point runs under
`GetViewSurfaceMutex()`, so each call is one atomic transition.  `LOG(INFO)`
tracing is left out, except the overlay strategy's activation line;
`LOG(WARNING)` and `LOG(ERROR)` diagnostics are recorded as effects.  A failed
`DCHECK` or `SB_DCHECK` is recorded as an effect and the call goes on, as it
does in a build without debug checks.
-/

namespace base

/-- The 128-bit `base::UnguessableToken`, represented by its numeric value. -/
abbrev UnguessableToken := Nat

/-- The container `base::flat_map<base::UnguessableToken, V>`: a vector of
(key, value) pairs kept sorted by key, one pair per key. -/
abbrev flat_map (V : Type) := List (UnguessableToken × V)

namespace flat_map

variable {V : Type}

/-- Lookup `find(key)`: the mapped value of the entry for `key`; `none` stands
for the `end()` iterator. -/
def find : flat_map V → UnguessableToken → Option V
  | [], _ => none
  | (k, v) :: rest, key => if k = key then some v else find rest key

/-- Assignment `m[key] = value`: the entry for `key` is overwritten when there
is one, otherwise a new entry is inserted at its sorted position (the lower
bound of `key`). -/
def assign : flat_map V → UnguessableToken → V → flat_map V
  | [], key, value => [(key, value)]
  | (k, v) :: rest, key, value =>
    if k < key then (k, v) :: assign rest key value
    else if k = key then (key, value) :: rest
    else (key, value) :: (k, v) :: rest

/-- Removal `erase(key)`: removes the entry for `key`, if any. -/
def erase (m : flat_map V) (key : UnguessableToken) : flat_map V :=
  m.filter (fun e => decide (e.1 ≠ key))

/-- Representation invariant of the container: keys strictly increasing. -/
def sorted (m : flat_map V) : Prop := m.Pairwise (fun a b => a.1 < b.1)

end flat_map

end base

namespace gfx

/-- The rectangle `gfx::RectF` (origin and size).  The broker only forwards
it; the components are kept as rationals. -/
structure RectF where
  x : Rat
  y : Rat
  width : Rat
  height : Rat
  deriving DecidableEq, Repr

/-- Modelled from the spec: the enum `gfx::OverlayTransform` is declared
outside the available sources; the spec lists identity, the rotations by 90,
180 and 270 degrees and the flip variants, and an invalid sentinel. -/
inductive OverlayTransform where
  | OVERLAY_TRANSFORM_INVALID
  | OVERLAY_TRANSFORM_NONE
  | OVERLAY_TRANSFORM_FLIP_HORIZONTAL
  | OVERLAY_TRANSFORM_FLIP_VERTICAL
  | OVERLAY_TRANSFORM_ROTATE_90
  | OVERLAY_TRANSFORM_ROTATE_180
  | OVERLAY_TRANSFORM_ROTATE_270
  deriving DecidableEq, Repr

end gfx

namespace mojo

/-- One end of a message pipe, named by its handle. -/
abbrev MessagePipe := Nat

/-- The endpoint `mojo::Remote<mojom::VideoGeometryChangeClient>` as the broker
stores it: the pipe it writes to and the argument bound into its disconnect
handler (`OnVideoGeometryChangeClientGone` bound to an overlay plane id). -/
structure Remote where
  pipe : MessagePipe
  disconnect_handler : Option base.UnguessableToken
  deriving DecidableEq, Repr

/-- The endpoint `mojo::Receiver<mojom::VideoGeometrySetter>`: unbound, or
bound to one pipe. -/
structure Receiver where
  bound_pipe : Option MessagePipe
  deriving DecidableEq, Repr

namespace Receiver

/-- Query `is_bound()`. -/
def is_bound (r : Receiver) : Bool := r.bound_pipe.isSome

/-- Call `reset()`: drops the binding, closing the pipe. -/
def reset (_r : Receiver) : Receiver := { bound_pipe := none }

/-- Call `Bind(pending_receiver)`.  It requires an unbound receiver (mojo
asserts `!is_bound()`); `none` is the violated requirement. -/
def Bind (r : Receiver) (pending_receiver : MessagePipe) : Option Receiver :=
  if r.is_bound then none else some { bound_pipe := some pending_receiver }

end Receiver

end mojo

namespace cobalt.media

open base gfx mojo

/-- Calls that `MAKE_SURE_ON_SEQUENCE` re-posts to the service's sequence. -/
inductive Task where
  | GetVideoGeometrySetter (pending_receiver : MessagePipe)
  deriving DecidableEq, Repr

/-- What a broker call does to the outside world. -/
inductive Effect where
  /-- A message `OnVideoGeometryChange(rect_f, transform)` written to a client pipe. -/
  | OnVideoGeometryChange (client : MessagePipe) (rect_f : RectF)
      (transform : OverlayTransform)
  /-- The reply `std::move(callback).Run()` of a subscription. -/
  | SubscribeCallbackRun
  /-- The setter receiver was reset: its pipe is closed. -/
  | SetterReceiverReset (pipe : MessagePipe)
  /-- The setter receiver was bound to a pipe. -/
  | SetterReceiverBound (pipe : MessagePipe)
  /-- A call re-posted with `task_runner_->PostTask`. -/
  | PostTask (task : Task)
  /-- A `LOG(ERROR)` line. -/
  | LogError
  /-- A `LOG(WARNING)` line. -/
  | LogWarning
  deriving DecidableEq, Repr

/-- The mutable members of `VideoGeometrySetterService`. -/
structure VideoGeometrySetterService where
  video_geometry_change_clients_ : flat_map Remote
  video_geometry_setter_receiver_ : Receiver
  deriving DecidableEq, Repr

namespace VideoGeometrySetterService

/-- The freshly constructed service: no client, setter receiver unbound. -/
def init : VideoGeometrySetterService :=
  { video_geometry_change_clients_ := [],
    video_geometry_setter_receiver_ := { bound_pipe := none } }

/-- Method `GetVideoGeometrySetter(pending_receiver)`.  Off the service's
sequence the call is re-posted and returns.  On it, a bound receiver is reset
(with an error log) and the receiver is then bound to `pending_receiver`.
The result is `none` only if `Bind` is reached with a bound receiver. -/
def GetVideoGeometrySetter (runs_tasks_in_current_sequence : Bool)
    (pending_receiver : MessagePipe) (s : VideoGeometrySetterService) :
    Option (VideoGeometrySetterService × List Effect) :=
  if !runs_tasks_in_current_sequence then
    some (s, [Effect.PostTask (Task.GetVideoGeometrySetter pending_receiver)])
  else
    let dropped : Receiver × List Effect :=
      match s.video_geometry_setter_receiver_.bound_pipe with
      | some old =>
        (s.video_geometry_setter_receiver_.reset,
          [Effect.LogError, Effect.SetterReceiverReset old])
      | none => (s.video_geometry_setter_receiver_, [])
    match dropped.1.Bind pending_receiver with
    | some r =>
      some ({ s with video_geometry_setter_receiver_ := r },
        dropped.2 ++ [Effect.SetterReceiverBound pending_receiver])
    | none => none

/-- Method `SubscribeToVideoGeometryChange(overlay_plane_id,
client_pending_remote, callback)`: wraps the pending remote in a `Remote`
whose disconnect handler is `OnVideoGeometryChangeClientGone` bound to
`overlay_plane_id`, stores it under `overlay_plane_id` and runs the callback. -/
def SubscribeToVideoGeometryChange (overlay_plane_id : UnguessableToken)
    (client_pending_remote : MessagePipe) (s : VideoGeometrySetterService) :
    VideoGeometrySetterService × List Effect :=
  let client : Remote :=
    { pipe := client_pending_remote, disconnect_handler := some overlay_plane_id }
  ({ s with video_geometry_change_clients_ :=
        s.video_geometry_change_clients_.assign overlay_plane_id client },
    [Effect.SubscribeCallbackRun])

/-- Method `SetVideoGeometry(rect_f, transform, overlay_plane_id)`: forwards
the geometry to the client found under `overlay_plane_id`; without one it
logs a warning and drops the update. -/
def SetVideoGeometry (rect_f : RectF) (transform : OverlayTransform)
    (overlay_plane_id : UnguessableToken) (s : VideoGeometrySetterService) :
    VideoGeometrySetterService × List Effect :=
  match s.video_geometry_change_clients_.find overlay_plane_id with
  | some video_geometry_change_client =>
    (s, [Effect.OnVideoGeometryChange video_geometry_change_client.pipe rect_f transform])
  | none => (s, [Effect.LogWarning])

/-- Method `OnVideoGeometryChangeClientGone(overlay_plane_id)`: erases the
entry stored under `overlay_plane_id`. -/
def OnVideoGeometryChangeClientGone (overlay_plane_id : UnguessableToken)
    (s : VideoGeometrySetterService) : VideoGeometrySetterService × List Effect :=
  ({ s with video_geometry_change_clients_ :=
        s.video_geometry_change_clients_.erase overlay_plane_id }, [])

/-- Runs the disconnect handler that `SubscribeToVideoGeometryChange` installed
on `client`, if `client` still exists.  The registry owns the remotes: the
move-assignment `video_geometry_change_clients_[overlay_plane_id] =
std::move(client)` and `erase` destroy the remote stored before, and its
handler with it.  So the handler of `client` runs only while `client` is the
entry stored under the id bound into the handler; it is then the call
`OnVideoGeometryChangeClientGone(overlay_plane_id)`.  For a remote that is
stored no more nothing runs. -/
def run_disconnect_handler (client : Remote) (s : VideoGeometrySetterService) :
    VideoGeometrySetterService × List Effect :=
  match client.disconnect_handler with
  | some overlay_plane_id =>
    if s.video_geometry_change_clients_.find overlay_plane_id = some client then
      s.OnVideoGeometryChangeClientGone overlay_plane_id
    else (s, [])
  | none => (s, [])

end VideoGeometrySetterService

/-- The geometry updates that a list of effects delivers to the pipe `client`,
in order. -/
def deliveries_to (client : MessagePipe) : List Effect → List (RectF × OverlayTransform)
  | [] => []
  | Effect.OnVideoGeometryChange c rect_f transform :: rest =>
    if c = client then (rect_f, transform) :: deliveries_to client rest
    else deliveries_to client rest
  | _ :: rest => deliveries_to client rest

/-- Every geometry update in a list of effects, with the pipe it is written to. -/
def deliveries : List Effect → List (MessagePipe × RectF × OverlayTransform)
  | [] => []
  | Effect.OnVideoGeometryChange c rect_f transform :: rest =>
    (c, rect_f, transform) :: deliveries rest
  | _ :: rest => deliveries rest

/-- No message pipe is held by two registry entries: every stored `Remote`
owns its own pipe endpoint. -/
def pipes_distinct (s : VideoGeometrySetterService) : Prop :=
  (s.video_geometry_change_clients_.map (fun e => e.2.pipe)).Nodup

instance (s : VideoGeometrySetterService) : Decidable (pipes_distinct s) :=
  inferInstanceAs (Decidable (List.Nodup _))

/-- A sample broker state: clients registered for the planes 3 and 8, no
setter bound. -/
def sample_service : VideoGeometrySetterService :=
  { video_geometry_change_clients_ :=
      [(3, { pipe := 9, disconnect_handler := some 3 }),
       (8, { pipe := 4, disconnect_handler := some 8 })],
    video_geometry_setter_receiver_ := { bound_pipe := none } }

/-- A sample rectangle: origin (10, 20), size 100 x 200. -/
def sample_rect : RectF := { x := 10, y := 20, width := 100, height := 200 }

/-- A call arriving at the broker. -/
inductive Call where
  | GetVideoGeometrySetter (runs_tasks_in_current_sequence : Bool)
      (pending_receiver : MessagePipe)
  | SubscribeToVideoGeometryChange (overlay_plane_id : UnguessableToken)
      (client_pending_remote : MessagePipe)
  | SetVideoGeometry (rect_f : RectF) (transform : OverlayTransform)
      (overlay_plane_id : UnguessableToken)
  | OnVideoGeometryChangeClientGone (overlay_plane_id : UnguessableToken)
  deriving DecidableEq, Repr

/-- Executes one call. -/
def Call.exec : Call → VideoGeometrySetterService →
    Option (VideoGeometrySetterService × List Effect)
  | Call.GetVideoGeometrySetter on_sequence p, s => s.GetVideoGeometrySetter on_sequence p
  | Call.SubscribeToVideoGeometryChange id c, s => some (s.SubscribeToVideoGeometryChange id c)
  | Call.SetVideoGeometry r t id, s => some (s.SetVideoGeometry r t id)
  | Call.OnVideoGeometryChangeClientGone id, s => some (s.OnVideoGeometryChangeClientGone id)

/-- Executes calls in order, collecting their effects; `none` if one fails. -/
def run : List Call → VideoGeometrySetterService →
    Option (VideoGeometrySetterService × List Effect)
  | [], s => some (s, [])
  | c :: cs, s =>
    match c.exec s with
    | none => none
    | some (s1, e1) =>
      match run cs s1 with
      | none => none
      | some (s2, e2) => some (s2, e1 ++ e2)

/-- The setter pipes a trace leaves bound: a bind adds its pipe, a reset
removes it.  `live` holds the pipes bound before the trace. -/
def bound_setters (live : List MessagePipe) : List Effect → List MessagePipe
  | [] => live
  | Effect.SetterReceiverBound p :: rest => bound_setters (p :: live) rest
  | Effect.SetterReceiverReset p :: rest =>
    bound_setters (live.filter (fun q => decide (q ≠ p))) rest
  | _ :: rest => bound_setters live rest

end cobalt.media

namespace starboard.android.shared

/-- A non-null JNI object reference; a nullable `jobject` is an `Option`. -/
abbrev jobject := Nat

/-- A non-null `ANativeWindow*`. -/
abbrev ANativeWindow := Nat

/-- The address of a `VideoSurfaceHolder` object, the `this` of its methods. -/
abbrev VideoSurfaceHolder := Nat

/-- The file-level globals of `video_window.cc`, all guarded by
`GetViewSurfaceMutex()`; `none` is `NULL`. -/
structure Globals where
  g_j_video_surface : Option jobject
  g_native_video_window : Option ANativeWindow
  g_video_surface_holder : Option VideoSurfaceHolder
  g_reset_surface_on_clear_window : Bool
  deriving DecidableEq, Repr

namespace VideoSurfaceHolder

/-- Static method `IsVideoSurfaceAvailable()`:
`!g_video_surface_holder && g_j_video_surface`. -/
def IsVideoSurfaceAvailable (g : Globals) : Bool :=
  !g.g_video_surface_holder.isSome && g.g_j_video_surface.isSome

/-- Method `AcquireVideoSurface()`: `NULL` when a holder is recorded, `NULL`
when there is no surface, otherwise `this` becomes the holder and the surface
is returned. -/
def AcquireVideoSurface (this : VideoSurfaceHolder) (g : Globals) :
    Option jobject × Globals :=
  if g.g_video_surface_holder.isSome then (none, g)
  else if !g.g_j_video_surface.isSome then (none, g)
  else (g.g_j_video_surface, { g with g_video_surface_holder := some this })

/-- Method `ReleaseVideoSurface()`: clears the holder when it is `this`. -/
def ReleaseVideoSurface (this : VideoSurfaceHolder) (g : Globals) : Globals :=
  if g.g_video_surface_holder = some this then
    { g with g_video_surface_holder := none }
  else g

/-- A run of `AcquireVideoSurface()` calls, one per listed consumer, in order:
the handles returned and the final globals. -/
def AcquireVideoSurfaceAll : List VideoSurfaceHolder → Globals →
    List (Option jobject) × Globals
  | [], g => ([], g)
  | c :: cs, g =>
    let r := AcquireVideoSurface c g
    let rs := AcquireVideoSurfaceAll cs r.2
    (r.1 :: rs.1, rs.2)

/-- A sample state: surface 5 with native window 6, nobody holding it. -/
def sample_free_surface : Globals :=
  { g_j_video_surface := some 5, g_native_video_window := some 6,
    g_video_surface_holder := none, g_reset_surface_on_clear_window := false }

end VideoSurfaceHolder

end starboard.android.shared

namespace starboard.android.shared

/-- The JNI and NDK entry points used on the video surface: `NewGlobalRef` and
`ANativeWindow_fromSurface` may return `NULL` (`none`). -/
structure JNIEnv where
  NewGlobalRef : jobject → Option jobject
  ANativeWindow_fromSurface : jobject → Option ANativeWindow
  ANativeWindow_getWidth : ANativeWindow → Int
  ANativeWindow_getHeight : ANativeWindow → Int

/-- What a surface-changed notification does to the outside world. -/
inductive SurfaceEffect where
  /-- The call `g_video_surface_holder->OnSurfaceDestroyed()`. -/
  | OnSurfaceDestroyed (holder : VideoSurfaceHolder)
  /-- The call `env->DeleteGlobalRef(g_j_video_surface)`. -/
  | DeleteGlobalRef (surface : jobject)
  /-- The call `ANativeWindow_release(g_native_video_window)`. -/
  | ANativeWindow_release (window : ANativeWindow)
  deriving DecidableEq, Repr

/-- The JNI callback `nativeOnVideoSurfaceChanged(env, unused_this, surface)`:
a recorded holder is notified and cleared, then the surface reference is
deleted and cleared, then the native window is released and cleared, and a
non-null `surface` is installed last. -/
def nativeOnVideoSurfaceChanged (env : JNIEnv) (surface : Option jobject)
    (g : Globals) : Globals × List SurfaceEffect :=
  let step1 : Globals × List SurfaceEffect :=
    match g.g_video_surface_holder with
    | some holder =>
      ({ g with g_video_surface_holder := none }, [SurfaceEffect.OnSurfaceDestroyed holder])
    | none => (g, [])
  let step2 : Globals × List SurfaceEffect :=
    match step1.1.g_j_video_surface with
    | some old =>
      ({ step1.1 with g_j_video_surface := none },
        step1.2 ++ [SurfaceEffect.DeleteGlobalRef old])
    | none => step1
  let step3 : Globals × List SurfaceEffect :=
    match step2.1.g_native_video_window with
    | some window =>
      ({ step2.1 with g_native_video_window := none },
        step2.2 ++ [SurfaceEffect.ANativeWindow_release window])
    | none => step2
  match surface with
  | some new_surface =>
    ({ step3.1 with
        g_j_video_surface := env.NewGlobalRef new_surface,
        g_native_video_window := env.ANativeWindow_fromSurface new_surface },
      step3.2)
  | none => step3

namespace VideoSurfaceHolder

/-- Method `GetVideoWindowSize(width, height)`: `none` is the return value
`false` (the out parameters untouched), `some (width, height)` is `true`. -/
def GetVideoWindowSize (env : JNIEnv) (g : Globals) : Option (Int × Int) :=
  match g.g_native_video_window with
  | none => none
  | some window =>
    some (env.ANativeWindow_getWidth window, env.ANativeWindow_getHeight window)

/-- A sample state: surface 5 with native window 6, held by consumer 1. -/
def sample_held_surface : Globals :=
  { g_j_video_surface := some 5, g_native_video_window := some 6,
    g_video_surface_holder := some 1, g_reset_surface_on_clear_window := false }

/-- A sample JNI environment: references and windows are handed out as given,
every window is 1920 x 1080. -/
def sample_jni : JNIEnv :=
  { NewGlobalRef := fun surface => some surface,
    ANativeWindow_fromSurface := fun surface => some (surface + 1),
    ANativeWindow_getWidth := fun _ => 1920,
    ANativeWindow_getHeight := fun _ => 1080 }

end VideoSurfaceHolder

/-- The globals as the file initialises them: no surface, no window, no
holder. -/
def Globals.init : Globals :=
  { g_j_video_surface := none, g_native_video_window := none,
    g_video_surface_holder := none, g_reset_surface_on_clear_window := false }

/-- The calls arriving at the surface arbiter. -/
inductive ArbiterCall where
  | nativeOnVideoSurfaceChanged (surface : Option jobject)
  | AcquireVideoSurface (this : VideoSurfaceHolder)
  | ReleaseVideoSurface (this : VideoSurfaceHolder)
  deriving DecidableEq, Repr

/-- Executes one call on the globals. -/
def ArbiterCall.exec (env : JNIEnv) : ArbiterCall → Globals → Globals
  | ArbiterCall.nativeOnVideoSurfaceChanged surface, g =>
    (starboard.android.shared.nativeOnVideoSurfaceChanged env surface g).1
  | ArbiterCall.AcquireVideoSurface this, g => (VideoSurfaceHolder.AcquireVideoSurface this g).2
  | ArbiterCall.ReleaseVideoSurface this, g => VideoSurfaceHolder.ReleaseVideoSurface this g

/-- Executes calls in order. -/
def run_calls (env : JNIEnv) : List ArbiterCall → Globals → Globals
  | [], g => g
  | call :: rest, g => run_calls env rest (call.exec env g)

end starboard.android.shared

namespace gfx

/-- The pair `gfx::Size`: width and height, which the class keeps non-negative. -/
structure Size where
  width : Nat
  height : Nat
  deriving DecidableEq, Repr

/-- Modelled from the spec: `gfx::Size::IsEmpty()` is declared outside the
available sources; the spec calls the case "a zero-area size" and the caller
comments "Frame size empty => video has one dimension = 0". -/
def Size.IsEmpty (size : Size) : Bool := size.width == 0 || size.height == 0

/-- The area `width * height` of a size. -/
def Size.GetArea (size : Size) : Nat := size.width * size.height

/-- The integer rectangle `gfx::Rect`: origin and size. -/
structure Rect where
  x : Int
  y : Int
  width : Int
  height : Int
  deriving DecidableEq, Repr

/-- Right edge `x + width` of a `RectF`. -/
def RectF.right (r : RectF) : Rat := r.x + r.width

/-- Bottom edge `y + height` of a `RectF`. -/
def RectF.bottom (r : RectF) : Rat := r.y + r.height

/-- Modelled from the spec: `gfx::ToEnclosingRect` is defined outside the
available sources; the spec says the rect is "converted to an enclosing
integer rectangle", edges (10,20,110,220) giving (10,20,100,200): the left and
top edges are rounded down, the right and bottom edges are rounded up. -/
def ToEnclosingRect (r : RectF) : Rect :=
  { x := Int.floor r.x,
    y := Int.floor r.y,
    width := Int.ceil r.right - Int.floor r.x,
    height := Int.ceil r.bottom - Int.floor r.y }

end gfx

namespace media

open base gfx

/-- Modelled from the spec: `media::VideoFrame` is declared outside the
available sources.  A frame is recorded by the factory call that made it:
`CreateBlackFrame(size)`, the opaque black frame of that size, or
`CreateVideoHoleFrame(overlay_plane_id, natural_size, timestamp)`, the hole
frame tagged with an overlay plane id. -/
inductive VideoFrame where
  | CreateBlackFrame (size : Size)
  | CreateVideoHoleFrame (overlay_plane_id : UnguessableToken) (natural_size : Size)
      (timestamp : Int)
  deriving DecidableEq, Repr

namespace VideoFrame

/-- The natural size of a frame. -/
def natural_size : VideoFrame → Size
  | CreateBlackFrame size => size
  | CreateVideoHoleFrame _ natural_size _ => natural_size

/-- Whether the frame is a hole frame. -/
def is_video_hole : VideoFrame → Bool
  | CreateBlackFrame _ => false
  | CreateVideoHoleFrame _ _ _ => true

end VideoFrame

/-- Method `VideoOverlayFactory::CreateFrame(size)`, for the factory whose
`overlay_plane_id_` is given: the 1x1 black frame for an empty size, otherwise
the hole frame with this id, natural size `size` and a zero timestamp. -/
def VideoOverlayFactory.CreateFrame (overlay_plane_id_ : UnguessableToken)
    (size : Size) : VideoFrame :=
  if size.IsEmpty then VideoFrame.CreateBlackFrame { width := 1, height := 1 }
  else VideoFrame.CreateVideoHoleFrame overlay_plane_id_ size 0

/-- The enum `StarboardRenderingMode`, as switched on in
`UpdateStarboardRenderingMode`. -/
inductive StarboardRenderingMode where
  | kDecodeToTexture
  | kPunchOut
  | kInvalid
  deriving DecidableEq, Repr

/-- A `PipelineStatus` code. -/
abbrev PipelineStatus := Nat

/-- What a `StarboardRendererClient` call does to its collaborators. -/
inductive ClientEffect where
  /-- The call `video_renderer_sink_->Start(this)`. -/
  | VideoRendererSink_Start
  /-- The call `video_renderer_sink_->Stop()`. -/
  | VideoRendererSink_Stop
  /-- The call `video_renderer_sink_->PaintSingleFrame(frame)`. -/
  | VideoRendererSink_PaintSingleFrame (frame : VideoFrame)
  /-- The message `renderer_extension_->OnVideoGeometryChange(new_bounds)`. -/
  | RendererExtension_OnVideoGeometryChange (new_bounds : Rect)
  /-- The call `MojoRendererWrapper::StartPlayingFrom(time)`. -/
  | MojoRendererWrapper_StartPlayingFrom (time : Int)
  /-- The call `client_->OnError(status)`. -/
  | RendererClient_OnError (status : PipelineStatus)
  /-- The call `client_->OnFallback(status)`. -/
  | RendererClient_OnFallback (status : PipelineStatus)
  /-- The call `client_->OnEnded()`. -/
  | RendererClient_OnEnded
  /-- The pipeline's init callback `init_cb_` run with a status. -/
  | InitCbRun (status : PipelineStatus)
  /-- A `LOG(WARNING)` line. -/
  | LogWarning
  /-- A `NOTREACHED()` that was reached. -/
  | NotReached
  /-- A `DCHECK` whose condition was false. -/
  | DcheckFailed
  /-- The call `bind_host_receiver_callback_.Run(...)` of `Initialize`. -/
  | BindHostReceiverCallbackRun
  /-- The message `SubscribeToVideoGeometryChange(overlay_plane_id, ...)` sent
  on the subscriber remote. -/
  | SubscribeToVideoGeometryChange (overlay_plane_id : UnguessableToken)
  /-- The call `InitAndBindMojoRenderer(...)`. -/
  | InitAndBindMojoRenderer
  /-- The call `request_overlay_info_cb_.Run(false, base::NullCallback())`. -/
  | RequestOverlayInfoCbRun
  deriving DecidableEq, Repr

/-- The members of `StarboardRendererClient` that its playback and painting
methods read or write.  `overlay_plane_id` is
`video_overlay_factory_->overlay_plane_id()`, `init_cb_` tells whether the
callback is non-null. -/
structure StarboardRendererClient where
  overlay_plane_id : UnguessableToken
  rendering_mode_ : StarboardRenderingMode
  is_playing_ : Bool
  video_renderer_sink_started_ : Bool
  init_cb_ : Bool
  is_mojo_renderer_initialized_ : Bool
  pipeline_status_ : PipelineStatus
  next_video_frame_ : Option VideoFrame
  deriving DecidableEq, Repr

namespace StarboardRendererClient

/-- Modelled from the spec: the member initialisers are in the class
declaration, outside the available sources; the spec starts the mode at the
`Invalid` sentinel, not playing, the frame-pull loop not running. -/
def init (overlay_plane_id : UnguessableToken) : StarboardRendererClient :=
  { overlay_plane_id := overlay_plane_id,
    rendering_mode_ := StarboardRenderingMode.kInvalid,
    is_playing_ := false,
    video_renderer_sink_started_ := false,
    init_cb_ := false,
    is_mojo_renderer_initialized_ := false,
    pipeline_status_ := 0,
    next_video_frame_ := none }

/-- Method `StartVideoRendererSink()`. -/
def StartVideoRendererSink (s : StarboardRendererClient) :
    StarboardRendererClient × List ClientEffect :=
  if !s.video_renderer_sink_started_ then
    ({ s with video_renderer_sink_started_ := true }, [ClientEffect.VideoRendererSink_Start])
  else (s, [])

/-- Method `StopVideoRendererSink()`. -/
def StopVideoRendererSink (s : StarboardRendererClient) :
    StarboardRendererClient × List ClientEffect :=
  if s.video_renderer_sink_started_ then
    ({ s with video_renderer_sink_started_ := false }, [ClientEffect.VideoRendererSink_Stop])
  else (s, [])

/-- Method `SetPlayingState(is_playing)`. -/
def SetPlayingState (is_playing : Bool) (s : StarboardRendererClient) :
    StarboardRendererClient × List ClientEffect :=
  if is_playing = s.is_playing_ then (s, [])
  else
    let sink : StarboardRendererClient × List ClientEffect :=
      if s.rendering_mode_ = StarboardRenderingMode.kDecodeToTexture then
        if is_playing then s.StartVideoRendererSink else s.StopVideoRendererSink
      else (s, [])
    ({ sink.1 with is_playing_ := is_playing }, sink.2)

/-- Method `UpdateStarboardRenderingMode(mode)`. -/
def UpdateStarboardRenderingMode (mode : StarboardRenderingMode)
    (s : StarboardRendererClient) : StarboardRendererClient × List ClientEffect :=
  let s1 : StarboardRendererClient := { s with rendering_mode_ := mode }
  let switched : StarboardRendererClient × List ClientEffect :=
    match mode with
    | StarboardRenderingMode.kPunchOut =>
      if s1.is_playing_ then s1.StopVideoRendererSink else (s1, [ClientEffect.LogWarning])
    | StarboardRenderingMode.kDecodeToTexture =>
      if s1.is_playing_ then s1.StartVideoRendererSink else (s1, [ClientEffect.LogWarning])
    | StarboardRenderingMode.kInvalid => (s1, [ClientEffect.NotReached])
  if switched.1.is_mojo_renderer_initialized_ && switched.1.init_cb_ then
    ({ switched.1 with init_cb_ := false },
      switched.2 ++ [ClientEffect.InitCbRun switched.1.pipeline_status_])
  else switched

/-- Method `StartPlayingFrom(time)`. -/
def StartPlayingFrom (time : Int) (s : StarboardRendererClient) :
    StarboardRendererClient × List ClientEffect :=
  let dcheck : List ClientEffect :=
    if s.rendering_mode_ = StarboardRenderingMode.kInvalid then [ClientEffect.DcheckFailed]
    else []
  let played := s.SetPlayingState true
  ({ played.1 with next_video_frame_ := none },
    dcheck ++ played.2 ++ [ClientEffect.MojoRendererWrapper_StartPlayingFrom time])

/-- Method `OnError(status)`. -/
def OnError (status : PipelineStatus) (s : StarboardRendererClient) :
    StarboardRendererClient × List ClientEffect :=
  ((s.SetPlayingState false).1,
    (s.SetPlayingState false).2 ++ [ClientEffect.RendererClient_OnError status])

/-- Method `OnFallback(fallback)`. -/
def OnFallback (fallback : PipelineStatus) (s : StarboardRendererClient) :
    StarboardRendererClient × List ClientEffect :=
  ((s.SetPlayingState false).1,
    (s.SetPlayingState false).2 ++ [ClientEffect.RendererClient_OnFallback fallback])

/-- Method `OnEnded()`. -/
def OnEnded (s : StarboardRendererClient) :
    StarboardRendererClient × List ClientEffect :=
  ((s.SetPlayingState false).1,
    (s.SetPlayingState false).2 ++ [ClientEffect.RendererClient_OnEnded])

/-- Method `PaintVideoHoleFrame(size)`. -/
def PaintVideoHoleFrame (size : Size) (s : StarboardRendererClient) :
    StarboardRendererClient × List ClientEffect :=
  (s, [ClientEffect.VideoRendererSink_PaintSingleFrame
        (VideoOverlayFactory.CreateFrame s.overlay_plane_id size)])

/-- Method `OnVideoGeometryChange(rect_f, transform)`; the transform parameter
is unnamed in the source and never read. -/
def OnVideoGeometryChange (rect_f : RectF) (_transform : OverlayTransform)
    (s : StarboardRendererClient) : StarboardRendererClient × List ClientEffect :=
  (s, [ClientEffect.RendererExtension_OnVideoGeometryChange (ToEnclosingRect rect_f)])

/-- Method `Initialize(media_resource, client, init_cb)`: `init_cb_` takes the
callback, the subscription is sent and the remote renderer is set up.  The
checks on the task runner and on the mojo pipes are not modelled. -/
def Initialize (s : StarboardRendererClient) :
    StarboardRendererClient × List ClientEffect :=
  ({ s with init_cb_ := true },
    (if s.init_cb_ then [ClientEffect.DcheckFailed] else []) ++
      [ClientEffect.BindHostReceiverCallbackRun,
       ClientEffect.SubscribeToVideoGeometryChange s.overlay_plane_id,
       ClientEffect.InitAndBindMojoRenderer])

/-- Method `OnMojoRendererInitialized(status)`, with
`SetMojoRendererInitialized(status)` inlined.  `none` is a fatal stop: the
rendering mode is known and `init_cb_` is null, so the `DCHECK` fails and
`Run` is called on a null callback. -/
def OnMojoRendererInitialized (status : PipelineStatus) (s : StarboardRendererClient) :
    Option (StarboardRendererClient × List ClientEffect) :=
  if s.rendering_mode_ ≠ StarboardRenderingMode.kInvalid then
    if s.init_cb_ then
      some ({ s with init_cb_ := false, is_mojo_renderer_initialized_ := true,
                     pipeline_status_ := status },
        [ClientEffect.InitCbRun status])
    else none
  else some ({ s with is_mojo_renderer_initialized_ := true, pipeline_status_ := status }, [])

/-- The destructor `~StarboardRendererClient()`.  `overlay_info_pending` is
`request_overlay_info_cb_ && overlay_info_requested_` of the Android build. -/
def destructor (overlay_info_pending : Bool) (s : StarboardRendererClient) :
    StarboardRendererClient × List ClientEffect :=
  ((s.SetPlayingState false).1,
    (s.SetPlayingState false).2 ++
      (if (s.SetPlayingState false).1.video_renderer_sink_started_ then
        [ClientEffect.DcheckFailed] else []) ++
      (if overlay_info_pending then [ClientEffect.RequestOverlayInfoCbRun] else []))

end StarboardRendererClient

/-- The playback and mode calls arriving at a `StarboardRendererClient`. -/
inductive Action where
  | StartPlayingFrom (time : Int)
  | OnError (status : PipelineStatus)
  | OnFallback (fallback : PipelineStatus)
  | OnEnded
  | UpdateStarboardRenderingMode (mode : StarboardRenderingMode)
  deriving DecidableEq, Repr

/-- The action reports `kPunchOut` or `kDecodeToTexture` when it is a mode
update. -/
def Action.reports_mode : Action → Bool
  | Action.UpdateStarboardRenderingMode StarboardRenderingMode.kInvalid => false
  | _ => true

/-- Executes one action. -/
def Action.exec : Action → StarboardRendererClient →
    StarboardRendererClient × List ClientEffect
  | Action.StartPlayingFrom time, s => s.StartPlayingFrom time
  | Action.OnError status, s => s.OnError status
  | Action.OnFallback fallback, s => s.OnFallback fallback
  | Action.OnEnded, s => s.OnEnded
  | Action.UpdateStarboardRenderingMode mode, s => s.UpdateStarboardRenderingMode mode

/-- Executes actions in order, collecting their effects. -/
def run_actions : List Action → StarboardRendererClient →
    StarboardRendererClient × List ClientEffect
  | [], s => (s, [])
  | a :: rest, s =>
    ((run_actions rest (a.exec s).1).1, (a.exec s).2 ++ (run_actions rest (a.exec s).1).2)

/-- Replays the `Start` and `Stop` calls of a trace on a sink that is running
or not: `none` when a `Start` meets a running sink or a `Stop` a stopped one,
otherwise whether the sink runs at the end. -/
def sink_replay : Bool → List ClientEffect → Option Bool
  | running, [] => some running
  | running, ClientEffect.VideoRendererSink_Start :: rest =>
    if running then none else sink_replay true rest
  | running, ClientEffect.VideoRendererSink_Stop :: rest =>
    if running then sink_replay false rest else none
  | running, _ :: rest => sink_replay running rest

/-- Number of `Stop` calls on the sink in a trace. -/
def stop_calls (trace : List ClientEffect) : Nat :=
  trace.count ClientEffect.VideoRendererSink_Stop

/-- Number of `Start` calls on the sink in a trace. -/
def start_calls (trace : List ClientEffect) : Nat :=
  trace.count ClientEffect.VideoRendererSink_Start

/-- The frame-pull loop runs exactly when the mode is `kDecodeToTexture` and
playback is active. -/
def loop_matches_mode (s : StarboardRendererClient) : Prop :=
  s.video_renderer_sink_started_ =
    (decide (s.rendering_mode_ = StarboardRenderingMode.kDecodeToTexture) && s.is_playing_)

instance (s : StarboardRendererClient) : Decidable (loop_matches_mode s) :=
  inferInstanceAs (Decidable (_ = _))

/-- The statuses the init callback was run with, in order. -/
def init_cb_runs : List ClientEffect → List PipelineStatus
  | [] => []
  | ClientEffect.InitCbRun status :: rest => status :: init_cb_runs rest
  | _ :: rest => init_cb_runs rest

/-- A sample run that is still playing in texture mode at its end. -/
def sample_playing_actions : List Action :=
  [Action.UpdateStarboardRenderingMode StarboardRenderingMode.kDecodeToTexture,
   Action.StartPlayingFrom 0]

/-- A sample run: texture mode is reported, playback starts, the mode changes
to punch-out and back, playback ends. -/
def sample_actions : List Action :=
  [Action.UpdateStarboardRenderingMode StarboardRenderingMode.kDecodeToTexture,
   Action.StartPlayingFrom 0,
   Action.UpdateStarboardRenderingMode StarboardRenderingMode.kPunchOut,
   Action.UpdateStarboardRenderingMode StarboardRenderingMode.kDecodeToTexture,
   Action.OnEnded]

end media

namespace gfx

/-- The matrix `gfx::Transform`, kept as its entries. -/
structure Transform where
  matrix : List Rat
  deriving DecidableEq, Repr

namespace Rect

/-- Right edge `x + width`. -/
def right (r : Rect) : Int := r.x + r.width

/-- Bottom edge `y + height`. -/
def bottom (r : Rect) : Int := r.y + r.height

/-- Query `IsEmpty()`: no width or no height. -/
def IsEmpty (r : Rect) : Bool := decide (r.width ≤ 0) || decide (r.height ≤ 0)

/-- Builds the rectangle with the given edges, the size not below zero. -/
def SetByBounds (left top right bottom : Int) : Rect :=
  { x := left, y := top, width := max 0 (right - left), height := max 0 (bottom - top) }

/-- Modelled from the spec: `gfx::Rect::Union` is defined outside the
available sources; the spec accumulates "the union of opaque content bounds":
the bounding rectangle of both, an empty rectangle contributing nothing. -/
def Union (r other : Rect) : Rect :=
  if r.IsEmpty then other
  else if other.IsEmpty then r
  else SetByBounds (min r.x other.x) (min r.y other.y) (max r.right other.right)
    (max r.bottom other.bottom)

/-- Modelled from the spec: `gfx::Rect::Subtract` is defined outside the
available sources; the spec takes the content bounds "minus the chosen
underlay's bounds": nothing is left when `other` covers the rectangle, one
side is cut back when `other` spans the rectangle across that side, and
otherwise the rectangle stays as it is. -/
def Subtract (r other : Rect) : Rect :=
  if r.IsEmpty || other.IsEmpty || decide (other.right ≤ r.x) || decide (r.right ≤ other.x) ||
      decide (other.bottom ≤ r.y) || decide (r.bottom ≤ other.y) then r
  else if decide (other.x ≤ r.x) && decide (r.right ≤ other.right) &&
      decide (other.y ≤ r.y) && decide (r.bottom ≤ other.bottom) then
    { x := 0, y := 0, width := 0, height := 0 }
  else if decide (other.y ≤ r.y) && decide (r.bottom ≤ other.bottom) then
    if other.x ≤ r.x then SetByBounds other.right r.y r.right r.bottom
    else if r.right ≤ other.right then SetByBounds r.x r.y other.x r.bottom
    else r
  else if decide (other.x ≤ r.x) && decide (r.right ≤ other.right) then
    if other.y ≤ r.y then SetByBounds r.x other.bottom r.right r.bottom
    else if r.bottom ≤ other.bottom then SetByBounds r.x r.y r.right other.y
    else r
  else r

end Rect

end gfx

namespace viz

open base gfx mojo

/-- The colour `SkColor4f`: red, green, blue, alpha. -/
structure SkColor4f where
  fR : Rat
  fG : Rat
  fB : Rat
  fA : Rat
  deriving DecidableEq, Repr

/-- The constant `SkColors::kBlack`. -/
def SkColors.kBlack : SkColor4f := { fR := 0, fG := 0, fB := 0, fA := 1 }

/-- The constant `SkColors::kTransparent`. -/
def SkColors.kTransparent : SkColor4f := { fR := 0, fG := 0, fB := 0, fA := 0 }

/-- The enum `SkBlendMode`: the two modes the strategy sets, and the rest. -/
inductive SkBlendMode where
  | kSrcOver
  | kDstOut
  | kOtherMode (code : Nat)
  deriving DecidableEq, Repr

/-- The part of `SharedQuadState` read or written here. -/
structure SharedQuadState where
  quad_to_target_transform : Transform
  opacity : Rat
  blend_mode : SkBlendMode
  deriving DecidableEq, Repr

/-- The enum `DrawQuad::Material`: the two materials the strategy tests, and
the rest. -/
inductive Material where
  | kVideoHole
  | kSolidColor
  | kOtherMaterial (code : Nat)
  deriving DecidableEq, Repr

/-- What a `DrawQuad` subclass adds: the overlay plane id of a
`VideoHoleDrawQuad`, the colour of a `SolidColorDrawQuad`. -/
inductive QuadKind where
  | VideoHoleDrawQuad (overlay_plane_id : UnguessableToken)
  | SolidColorDrawQuad (color : SkColor4f)
  | OtherDrawQuad (material : Nat)
  deriving DecidableEq, Repr

/-- A `DrawQuad` of the render pass. -/
structure DrawQuad where
  shared_quad_state : SharedQuadState
  rect : Rect
  visible_rect : Rect
  needs_blending : Bool
  kind : QuadKind
  deriving DecidableEq, Repr

/-- The member `material` of a quad. -/
def DrawQuad.material (quad : DrawQuad) : Material :=
  match quad.kind with
  | QuadKind.VideoHoleDrawQuad _ => Material.kVideoHole
  | QuadKind.SolidColorDrawQuad _ => Material.kSolidColor
  | QuadKind.OtherDrawQuad code => Material.kOtherMaterial code

/-- The enum `OverlayCandidate::CandidateStatus`. -/
inductive CandidateStatus where
  | kSuccess
  | kFail (reason : Nat)
  deriving DecidableEq, Repr

/-- The member `OverlayCandidate::transform`, a variant of
`gfx::OverlayTransform` and `gfx::Transform`. -/
inductive CandidateTransform where
  | overlay_transform (transform : OverlayTransform)
  | matrix_transform (transform : Transform)
  deriving DecidableEq, Repr

/-- The members of `OverlayCandidate` the strategy reads. -/
structure OverlayCandidate where
  display_rect : RectF
  transform : CandidateTransform
  has_mask_filter : Bool
  deriving DecidableEq, Repr

/-- A default-constructed `OverlayCandidate`. -/
def OverlayCandidate.default : OverlayCandidate :=
  { display_rect := { x := 0, y := 0, width := 0, height := 0 },
    transform := CandidateTransform.overlay_transform OverlayTransform.OVERLAY_TRANSFORM_NONE,
    has_mask_filter := false }

/-- An `OverlayProposedCandidate`: `quad_iter` is the position in the quad
list that the iterator points at. -/
structure OverlayProposedCandidate where
  quad_iter : Nat
  candidate : OverlayCandidate
  deriving DecidableEq, Repr

/-- The collaborators the strategy calls and that lie outside the available
sources: `OverlayCandidate::IsInvisibleQuad`, `OverlayCandidateFactory::
FromDrawQuad` (the status it returns for a quad and the candidate it leaves
behind, given the candidate passed in), `gfx::Transform::MapRect`,
`gfx::Rect::Union` and `gfx::Rect::Subtract`. -/
structure Collaborators where
  IsInvisibleQuad : DrawQuad → Bool
  FromDrawQuad_status : DrawQuad → CandidateStatus
  FromDrawQuad_candidate : DrawQuad → OverlayCandidate → OverlayCandidate
  MapRect : Transform → Rect → Rect
  Union : Rect → Rect → Rect
  Subtract : Rect → Rect → Rect

/-- The test both loops apply to a quad: its material is `kVideoHole` and the
candidate factory returns `kSuccess` for it. -/
def Collaborators.accepts_hole (env : Collaborators) (quad : DrawQuad) : Bool :=
  decide (quad.material = Material.kVideoHole) &&
    decide (env.FromDrawQuad_status quad = CandidateStatus.kSuccess)

/-- A quad that is visible, has material `kVideoHole` and is accepted by the
candidate factory. -/
def Collaborators.eligible (env : Collaborators) (quad : DrawQuad) : Bool :=
  !env.IsInvisibleQuad quad && env.accepts_hole quad

/-- What the strategy does to the outside world. -/
inductive StrategyEffect where
  /-- The message `SetVideoGeometry(rect_f, transform, overlay_plane_id)` sent
  on the video geometry setter remote. -/
  | SetVideoGeometry (rect_f : RectF) (transform : OverlayTransform)
      (overlay_plane_id : UnguessableToken)
  /-- The log line "Overlay activated" (`true`) or "Overlay deactivated". -/
  | LogOverlayTransition (activated : Bool)
  deriving DecidableEq, Repr

/-- The member of `OverlayStrategyUnderlayStarboard`. -/
structure OverlayStrategyUnderlayStarboard where
  is_using_overlay_ : Bool
  deriving DecidableEq, Repr

/-- Modelled from the spec: `AggregatedRenderPass::
ReplaceExistingQuadWithSolidColor` is defined outside the available sources;
the spec says the hole quad is replaced in the frame by a placeholder of the
given colour composited with the given blend mode.  The quad at `position`
becomes a solid colour quad with that colour, its shared quad state gets the
blend mode, and no other quad is touched. -/
def ReplaceExistingQuadWithSolidColor (quad_list : List DrawQuad) (position : Nat)
    (color : SkColor4f) (blend_mode : SkBlendMode) : List DrawQuad :=
  match quad_list[position]? with
  | some quad =>
    quad_list.set position
      { quad with
        shared_quad_state := { quad.shared_quad_state with blend_mode := blend_mode },
        kind := QuadKind.SolidColorDrawQuad color }
  | none => quad_list

namespace OverlayStrategyUnderlayStarboard

/-- The loop of `Propose`: `state` holds the shared `candidate` and
`overlay_iter` (`none` is `quad_list.end()`), `position` is where `it` stands. -/
def Propose_scan (env : Collaborators) :
    List DrawQuad → Nat → OverlayCandidate × Option Nat → OverlayCandidate × Option Nat
  | [], _, state => state
  | quad :: rest, position, state =>
    if env.IsInvisibleQuad quad then Propose_scan env rest (position + 1) state
    else if quad.material = Material.kVideoHole then
      if env.FromDrawQuad_status quad = CandidateStatus.kSuccess then
        Propose_scan env rest (position + 1)
          (env.FromDrawQuad_candidate quad state.1, some position)
      else
        Propose_scan env rest (position + 1)
          (env.FromDrawQuad_candidate quad state.1, state.2)
    else Propose_scan env rest (position + 1) state

/-- Method `Propose`: the quad list of the last render pass as it is left, and
the `candidates` vector after the call. -/
def Propose (env : Collaborators) (quad_list : List DrawQuad)
    (candidates : List OverlayProposedCandidate) :
    List DrawQuad × List OverlayProposedCandidate :=
  match Propose_scan env quad_list 0 (OverlayCandidate.default, none) with
  | (candidate, some overlay_iter) =>
    (quad_list, candidates ++ [{ quad_iter := overlay_iter, candidate := candidate }])
  | (_, none) => (quad_list, candidates)

/-- Method `CommitCandidate`, with the state of the global setter remote.
`none` is a fatal stop: the iterator does not point at a `kVideoHole` quad
(`MaterialCast`), the setter remote is not bound, or the candidate's transform
does not hold a `gfx::OverlayTransform` (`absl::get`). -/
def CommitCandidate (video_geometry_setter : Option MessagePipe)
    (proposed_candidate : OverlayProposedCandidate) (quad_list : List DrawQuad) :
    Option (List DrawQuad × List StrategyEffect) :=
  match quad_list[proposed_candidate.quad_iter]? with
  | none => none
  | some quad =>
    match quad.kind with
    | QuadKind.VideoHoleDrawQuad overlay_plane_id =>
      if video_geometry_setter.isNone then none
      else
        match proposed_candidate.candidate.transform with
        | CandidateTransform.overlay_transform transform =>
          some
            (if proposed_candidate.candidate.has_mask_filter then
              ReplaceExistingQuadWithSolidColor quad_list proposed_candidate.quad_iter
                SkColors.kBlack SkBlendMode.kDstOut
            else
              ReplaceExistingQuadWithSolidColor quad_list proposed_candidate.quad_iter
                SkColors.kTransparent SkBlendMode.kSrcOver,
            [StrategyEffect.SetVideoGeometry proposed_candidate.candidate.display_rect
              transform overlay_plane_id])
        | CandidateTransform.matrix_transform _ => none
    | _ => none

/-- One step of the reverse loop of `Attempt` on (`found_underlay`,
`content_rect`). -/
def Attempt_step (env : Collaborators) (state : Bool × Rect) (quad : DrawQuad) :
    Bool × Rect :=
  if env.IsInvisibleQuad quad then state
  else
    let quad_rect := env.MapRect quad.shared_quad_state.quad_to_target_transform quad.rect
    let is_underlay : Bool := if !state.1 then env.accepts_hole quad else false
    let found_underlay : Bool := if !state.1 then is_underlay else state.1
    if !found_underlay && decide (quad.kind = QuadKind.SolidColorDrawQuad SkColors.kBlack) then
      (found_underlay, state.2)
    else if is_underlay then (found_underlay, env.Subtract state.2 quad_rect)
    else (found_underlay, env.Union state.2 quad_rect)

/-- The reverse loop of `Attempt` over the whole quad list, from
`found_underlay = false` and an empty `content_rect`. -/
def Attempt_walk (env : Collaborators) (quad_list : List DrawQuad) : Bool × Rect :=
  quad_list.reverse.foldl (Attempt_step env) (false, { x := 0, y := 0, width := 0, height := 0 })

/-- The forward loop of `Attempt` that commits: `it` runs while `remaining`
quads are left before `quad_list.end()`. -/
def Attempt_commit (env : Collaborators) (video_geometry_setter : Option MessagePipe) :
    Nat → Nat → List DrawQuad → Option (List DrawQuad × List StrategyEffect)
  | 0, _, quad_list => some (quad_list, [])
  | remaining + 1, it, quad_list =>
    match quad_list[it]? with
    | none => some (quad_list, [])
    | some quad =>
      if !env.accepts_hole quad then
        Attempt_commit env video_geometry_setter remaining (it + 1) quad_list
      else
        match CommitCandidate video_geometry_setter
            { quad_iter := it,
              candidate := env.FromDrawQuad_candidate quad OverlayCandidate.default }
            quad_list with
        | none => none
        | some (committed, sent) =>
          match Attempt_commit env video_geometry_setter remaining (it + 1) committed with
          | none => none
          | some (final, more) => some (final, sent ++ more)

/-- What `Attempt` returns and leaves behind. -/
structure AttemptResult where
  returned : Bool
  strategy : OverlayStrategyUnderlayStarboard
  quad_list : List DrawQuad
  content_bounds : List Rect
  effects : List StrategyEffect
  deriving DecidableEq, Repr

/-- Method `Attempt`, with the state of the global setter remote; the
`proposed_candidate` argument is never read.  `none` is a fatal stop inside a
`CommitCandidate`.  The two `DCHECK`s on entry (`candidate_list` empty,
`content_bounds` empty) are not modelled: `content_bounds` is appended to. -/
def Attempt (env : Collaborators) (video_geometry_setter : Option MessagePipe)
    (this : OverlayStrategyUnderlayStarboard) (quad_list : List DrawQuad)
    (content_bounds : List Rect) (_proposed_candidate : OverlayProposedCandidate) :
    Option AttemptResult :=
  let walked := Attempt_walk env quad_list
  let found_underlay := walked.1
  let logged : List StrategyEffect :=
    if this.is_using_overlay_ != found_underlay then
      [StrategyEffect.LogOverlayTransition found_underlay]
    else []
  let committed : Option (List DrawQuad × List StrategyEffect) :=
    if found_underlay then
      Attempt_commit env video_geometry_setter quad_list.length 0 quad_list
    else some (quad_list, [])
  match committed with
  | none => none
  | some (final, sent) =>
    some
      { returned := found_underlay,
        strategy := { is_using_overlay_ := found_underlay },
        quad_list := final,
        content_bounds :=
          if found_underlay then content_bounds ++ [walked.2] else content_bounds,
        effects := logged ++ sent }

/-- The reverse loop of `Attempt` with a note of the quad at which
`found_underlay` is first set.  The list runs from `rbegin()`: its head
stands in the quad list at the position that is the length of its tail. -/
def Attempt_mark (env : Collaborators) :
    List DrawQuad → (Bool × Rect) × Option Nat → (Bool × Rect) × Option Nat
  | [], state => state
  | quad :: before, state =>
    Attempt_mark env before
      (Attempt_step env state.1 quad,
        if !state.1.1 && (Attempt_step env state.1 quad).1 then some before.length
        else state.2)

/-- The reverse loop of `Attempt` over the whole quad list, with the position
of the quad at which `found_underlay` is first set. -/
def Attempt_underlay (env : Collaborators) (quad_list : List DrawQuad) :
    (Bool × Rect) × Option Nat :=
  Attempt_mark env quad_list.reverse
    ((false, { x := 0, y := 0, width := 0, height := 0 }), none)

end OverlayStrategyUnderlayStarboard

/-- Whether the variant holds a `gfx::OverlayTransform`. -/
def CandidateTransform.is_overlay : CandidateTransform → Bool
  | CandidateTransform.overlay_transform _ => true
  | CandidateTransform.matrix_transform _ => false

/-- For every accepted hole quad of the list, the candidate that the factory
fills from a default one carries a `gfx::OverlayTransform`. -/
def Collaborators.gives_overlay_transforms (env : Collaborators)
    (quad_list : List DrawQuad) : Bool :=
  quad_list.all (fun quad =>
    !env.accepts_hole quad ||
      (env.FromDrawQuad_candidate quad OverlayCandidate.default).transform.is_overlay)

/-- The quad a commit leaves in place of `quad` for `candidate`: solid black
with `kDstOut` when the candidate has a mask filter, solid transparent with
`kSrcOver` otherwise. -/
def placeholder (candidate : OverlayCandidate) (quad : DrawQuad) : DrawQuad :=
  { quad with
    shared_quad_state :=
      { quad.shared_quad_state with
        blend_mode :=
          if candidate.has_mask_filter then SkBlendMode.kDstOut else SkBlendMode.kSrcOver },
    kind :=
      QuadKind.SolidColorDrawQuad
        (if candidate.has_mask_filter then SkColors.kBlack else SkColors.kTransparent) }

/-- The quad that the commit loop leaves for `quad`: the placeholder for an
accepted hole quad, the quad itself otherwise. -/
def Collaborators.committed (env : Collaborators) (quad : DrawQuad) : DrawQuad :=
  if env.accepts_hole quad then
    placeholder (env.FromDrawQuad_candidate quad OverlayCandidate.default) quad
  else quad

/-- The message that the commit loop sends for `quad`: one `SetVideoGeometry`
for an accepted hole quad whose candidate carries an overlay transform. -/
def Collaborators.message (env : Collaborators) (quad : DrawQuad) : List StrategyEffect :=
  if env.accepts_hole quad then
    match quad.kind, (env.FromDrawQuad_candidate quad OverlayCandidate.default).transform with
    | QuadKind.VideoHoleDrawQuad overlay_plane_id, CandidateTransform.overlay_transform t =>
      [StrategyEffect.SetVideoGeometry
        (env.FromDrawQuad_candidate quad OverlayCandidate.default).display_rect t
        overlay_plane_id]
    | _, _ => []
  else []

/-- The messages of the commit loop for a quad list, in list order. -/
def Collaborators.messages (env : Collaborators) : List DrawQuad → List StrategyEffect
  | [] => []
  | quad :: rest => env.message quad ++ env.messages rest

/-- Sample collaborators: a quad is invisible when its opacity is 0, the
factory accepts a quad whose rect is not empty and fills in the quad's rect,
no rotation and no mask, rects are mapped unchanged. -/
def sample_collaborators : Collaborators :=
  { IsInvisibleQuad := fun quad => decide (quad.shared_quad_state.opacity = 0),
    FromDrawQuad_status := fun quad =>
      if quad.rect.IsEmpty then CandidateStatus.kFail 1 else CandidateStatus.kSuccess,
    FromDrawQuad_candidate := fun quad _ =>
      { display_rect :=
          { x := quad.rect.x, y := quad.rect.y, width := quad.rect.width,
            height := quad.rect.height },
        transform :=
          CandidateTransform.overlay_transform OverlayTransform.OVERLAY_TRANSFORM_NONE,
        has_mask_filter := false },
    MapRect := fun _ rect => rect,
    Union := Rect.Union,
    Subtract := Rect.Subtract }

/-- A sample quad of the given kind and rect: opaque, identity transform. -/
def sample_quad (kind : QuadKind) (rect : Rect) : DrawQuad :=
  { shared_quad_state :=
      { quad_to_target_transform := { matrix := [] }, opacity := 1,
        blend_mode := SkBlendMode.kSrcOver },
    rect := rect, visible_rect := rect, needs_blending := false, kind := kind }

/-- A sample frame: a black background, the hole of plane 7, a red quad, the
hole of plane 8. -/
def sample_quad_list : List DrawQuad :=
  [sample_quad (QuadKind.SolidColorDrawQuad SkColors.kBlack)
      { x := 0, y := 0, width := 1920, height := 1080 },
   sample_quad (QuadKind.VideoHoleDrawQuad 7) { x := 10, y := 20, width := 100, height := 200 },
   sample_quad (QuadKind.SolidColorDrawQuad { fR := 1, fG := 0, fB := 0, fA := 1 })
      { x := 0, y := 0, width := 50, height := 50 },
   sample_quad (QuadKind.VideoHoleDrawQuad 8) { x := 500, y := 20, width := 100, height := 200 }]

/-- A sample proposed candidate: it points at position 1 of the sample frame,
the hole of plane 7, and carries the sample rect, a rotation by 90 degrees and
a mask filter. -/
def sample_masked_candidate : OverlayProposedCandidate :=
  { quad_iter := 1,
    candidate :=
      { display_rect := cobalt.media.sample_rect,
        transform :=
          CandidateTransform.overlay_transform OverlayTransform.OVERLAY_TRANSFORM_ROTATE_90,
        has_mask_filter := true } }

/-- The hole quad of plane 7 in the sample frame. -/
def sample_hole_7 : DrawQuad :=
  sample_quad (QuadKind.VideoHoleDrawQuad 7) { x := 10, y := 20, width := 100, height := 200 }

/-- Number of `SetVideoGeometry` messages in a list of effects. -/
def SetVideoGeometry_calls : List StrategyEffect → Nat
  | [] => 0
  | StrategyEffect.SetVideoGeometry _ _ _ :: rest => SetVideoGeometry_calls rest + 1
  | _ :: rest => SetVideoGeometry_calls rest

/-- Number of transition log lines in a list of effects. -/
def transition_logs : List StrategyEffect → Nat
  | [] => 0
  | StrategyEffect.LogOverlayTransition _ :: rest => transition_logs rest + 1
  | _ :: rest => transition_logs rest

end viz

namespace starboard.shared.starboard

/-- Modelled from the spec: the enum `SbEventType` is declared outside the
available sources; these are the types that `queue_application.cc` names, and
one constructor for the rest. -/
inductive SbEventType where
  | kSbEventTypePreload
  | kSbEventTypeStart
  | kSbEventTypeBlur
  | kSbEventTypeFocus
  | kSbEventTypeConceal
  | kSbEventTypeReveal
  | kSbEventTypeFreeze
  | kSbEventTypeUnfreeze
  | kSbEventTypeStop
  | kSbEventTypeLink
  | kSbEventTypeLowMemory
  | kSbEventTypeOsNetworkDisconnected
  | kSbEventTypeOsNetworkConnected
  | kSbEventTypeWindowSizeChanged
  | kSbEventTypeScheduled
  | kSbEventTypeOther (code : Nat)
  deriving DecidableEq, Repr

/-- The enum `QueueApplication::State`. -/
inductive QueueApplication.State where
  | kStateUnstarted
  | kStateStarted
  | kStateBlurred
  | kStateConcealed
  | kStateFrozen
  | kStateStopped
  deriving DecidableEq, Repr

/-- Modelled from the spec: the struct `QueueApplication::Event` is declared outside
the available sources; these are the members the dispatch code reads,
`event->type`, `event->timestamp`, `event->data` and `error_level` (0 unless
`Stop(error_level)` made the event). -/
structure QueueApplication.Event where
  type : SbEventType
  timestamp : Int
  data : Option Nat
  error_level : Int
  deriving DecidableEq, Repr

/-- Modelled from the spec: the struct `QueueApplication::TimedEvent` is declared
outside the available sources; an event is given by its address and the
members the timed queue reads, of which `target_time` is an `int64_t`. -/
structure QueueApplication.TimedEvent where
  address : Nat
  id : Int
  target_time : Int
  deriving DecidableEq, Repr

/-- What the dispatch code does to the outside world. -/
inductive QueueApplication.AppEffect where
  /-- The call `sb_event_handle_callback_(event)`. -/
  | sb_event_handle_callback (event : QueueApplication.Event)
  /-- The call `OnResume()`. -/
  | OnResume
  /-- The call `OnSuspend()`. -/
  | OnSuspend
  /-- The call `Inject(event)`, which puts the event on the event queue. -/
  | Inject (event : QueueApplication.Event)
  /-- The call `timed_event->callback(timed_event->context)` of a scheduled event. -/
  | timed_event_callback (data : Option Nat)
  /-- A failed `SB_DCHECK_EQ(state_, expected)`. -/
  | DCheckEqFailed (state_ expected : QueueApplication.State)
  /-- A failed `SB_DCHECK_NE(state_, kStateUnstarted)`. -/
  | DCheckNeFailed (state_ : QueueApplication.State)
  deriving DecidableEq, Repr

/-- The members of `QueueApplication` that the dispatch code reads or writes. -/
structure QueueApplication where
  state_ : QueueApplication.State
  error_level_ : Int
  deriving DecidableEq, Repr

namespace QueueApplication

open SbEventType State

/-- The constructor's member values: `error_level_(0)`, `state_(kStateUnstarted)`. -/
def init : QueueApplication := { state_ := kStateUnstarted, error_level_ := 0 }

/-- The event `new Event(type, timestamp, NULL, NULL)`. -/
def Event.intermediate (type : SbEventType) (timestamp : Int) : Event :=
  { type := type, timestamp := timestamp, data := none, error_level := 0 }

/-- The result of a dispatch call: the value returned, the application after
the call and the effects of the call. -/
abbrev Outcome := Bool × QueueApplication × List AppEffect

/-- One case of the switch in `HandleEventAndUpdateState`:
`SB_DCHECK_EQ(state_, expected); state_ = next;`. -/
def expect_then_set (app : QueueApplication) (expected next : State) :
    QueueApplication × List AppEffect :=
  ({ app with state_ := next },
    if app.state_ = expected then [] else [AppEffect.DCheckEqFailed app.state_ expected])

/-- The end of `HandleEventAndUpdateState`:
`SB_DCHECK_NE(state_, kStateUnstarted); return true;`. -/
def check_started (called : List AppEffect) (after : QueueApplication × List AppEffect) :
    Outcome :=
  (true, after.1,
    called ++ after.2 ++
      (if after.1.state_ = kStateUnstarted then [AppEffect.DCheckNeFailed after.1.state_]
        else []))

/-- Method `HandleEventAndUpdateState(event)`. -/
def HandleEventAndUpdateState (event : Event) (app : QueueApplication) : Outcome :=
  let before : List AppEffect :=
    if event.type = kSbEventTypeUnfreeze ∧ app.state_ = kStateFrozen then [AppEffect.OnResume]
    else if event.type = kSbEventTypeFreeze ∧ app.state_ = kStateConcealed then
      [AppEffect.OnSuspend]
    else []
  let called : List AppEffect := before ++ [AppEffect.sb_event_handle_callback event]
  match event.type with
  | kSbEventTypePreload =>
    check_started called (expect_then_set app kStateUnstarted kStateConcealed)
  | kSbEventTypeStart => check_started called (expect_then_set app kStateUnstarted kStateStarted)
  | kSbEventTypeBlur => check_started called (expect_then_set app kStateStarted kStateBlurred)
  | kSbEventTypeFocus => check_started called (expect_then_set app kStateBlurred kStateStarted)
  | kSbEventTypeConceal =>
    check_started called (expect_then_set app kStateBlurred kStateConcealed)
  | kSbEventTypeReveal =>
    check_started called (expect_then_set app kStateConcealed kStateBlurred)
  | kSbEventTypeFreeze =>
    check_started called (expect_then_set app kStateConcealed kStateFrozen)
  | kSbEventTypeUnfreeze =>
    check_started called (expect_then_set app kStateFrozen kStateConcealed)
  | kSbEventTypeStop =>
    (false, (expect_then_set app kStateFrozen kStateStopped).1,
      called ++ (expect_then_set app kStateFrozen kStateStopped).2)
  | _ => check_started called (app, [])

/-- Calls `HandleEventAndUpdateState` for each event in order, as
`DispatchAndDelete` does before a `return true`: the values returned are
dropped. -/
def handle_in_order : List Event → QueueApplication → QueueApplication × List AppEffect
  | [], app => (app, [])
  | event :: rest, app =>
    ((handle_in_order rest (HandleEventAndUpdateState event app).2.1).1,
      (HandleEventAndUpdateState event app).2.2 ++
        (handle_in_order rest (HandleEventAndUpdateState event app).2.1).2)

/-- A branch of `DispatchAndDelete` that handles the listed events and returns
true. -/
def handle_and_return (events : List Event) (app : QueueApplication) : Outcome :=
  (true, (handle_in_order events app).1, (handle_in_order events app).2)

/-- Method `DispatchAndDelete(event)`; `none` is the null event. -/
def DispatchAndDelete (event : Option Event) (app : QueueApplication) : Outcome :=
  match event with
  | none => (true, app, [])
  | some scoped_event =>
    let timestamp := scoped_event.timestamp
    match scoped_event.type with
    | kSbEventTypePreload =>
      if app.state_ ≠ kStateUnstarted then (true, app, [])
      else HandleEventAndUpdateState scoped_event app
    | kSbEventTypeStart =>
      if app.state_ ≠ kStateUnstarted ∧ app.state_ ≠ kStateStarted then
        handle_and_return [Event.intermediate kSbEventTypeFocus timestamp] app
      else HandleEventAndUpdateState scoped_event app
    | kSbEventTypeBlur =>
      if app.state_ ≠ kStateStarted then (true, app, [])
      else HandleEventAndUpdateState scoped_event app
    | kSbEventTypeFocus =>
      match app.state_ with
      | kStateStopped => (true, app, [])
      | kStateFrozen =>
        handle_and_return
          [Event.intermediate kSbEventTypeUnfreeze timestamp,
           Event.intermediate kSbEventTypeReveal timestamp, scoped_event] app
      | kStateConcealed =>
        handle_and_return [Event.intermediate kSbEventTypeReveal timestamp, scoped_event] app
      | kStateBlurred => HandleEventAndUpdateState scoped_event app
      | kStateStarted => (true, app, [])
      | kStateUnstarted => (true, app, [])
    | kSbEventTypeConceal =>
      match app.state_ with
      | kStateUnstarted => (true, app, [])
      | kStateStarted =>
        handle_and_return [Event.intermediate kSbEventTypeBlur timestamp, scoped_event] app
      | kStateBlurred => HandleEventAndUpdateState scoped_event app
      | kStateConcealed => (true, app, [])
      | kStateFrozen => (true, app, [])
      | kStateStopped => (true, app, [])
    | kSbEventTypeReveal =>
      match app.state_ with
      | kStateStopped => (true, app, [])
      | kStateFrozen =>
        handle_and_return [Event.intermediate kSbEventTypeUnfreeze timestamp, scoped_event] app
      | kStateConcealed => HandleEventAndUpdateState scoped_event app
      | kStateBlurred => (true, app, [])
      | kStateStarted => (true, app, [])
      | kStateUnstarted => (true, app, [])
    | kSbEventTypeFreeze =>
      match app.state_ with
      | kStateUnstarted => (true, app, [])
      | kStateStarted =>
        handle_and_return
          [Event.intermediate kSbEventTypeBlur timestamp,
           Event.intermediate kSbEventTypeConceal timestamp, scoped_event] app
      | kStateBlurred =>
        handle_and_return [Event.intermediate kSbEventTypeConceal timestamp, scoped_event] app
      | kStateConcealed => HandleEventAndUpdateState scoped_event app
      | kStateFrozen => (true, app, [])
      | kStateStopped => (true, app, [])
    | kSbEventTypeUnfreeze =>
      match app.state_ with
      | kStateFrozen => HandleEventAndUpdateState scoped_event app
      | _ => (true, app, [])
    | kSbEventTypeStop =>
      match app.state_ with
      | kStateUnstarted => (true, app, [])
      | kStateStarted =>
        (true,
          (handle_in_order
            [Event.intermediate kSbEventTypeBlur timestamp,
             Event.intermediate kSbEventTypeConceal timestamp,
             Event.intermediate kSbEventTypeFreeze timestamp] app).1,
          (handle_in_order
            [Event.intermediate kSbEventTypeBlur timestamp,
             Event.intermediate kSbEventTypeConceal timestamp,
             Event.intermediate kSbEventTypeFreeze timestamp] app).2 ++
            [AppEffect.Inject scoped_event])
      | kStateBlurred =>
        (true,
          (handle_in_order
            [Event.intermediate kSbEventTypeConceal timestamp,
             Event.intermediate kSbEventTypeFreeze timestamp] app).1,
          (handle_in_order
            [Event.intermediate kSbEventTypeConceal timestamp,
             Event.intermediate kSbEventTypeFreeze timestamp] app).2 ++
            [AppEffect.Inject scoped_event])
      | kStateConcealed =>
        (true,
          (handle_in_order [Event.intermediate kSbEventTypeFreeze timestamp] app).1,
          (handle_in_order [Event.intermediate kSbEventTypeFreeze timestamp] app).2 ++
            [AppEffect.Inject scoped_event])
      | kStateFrozen =>
        HandleEventAndUpdateState scoped_event
          { app with error_level_ := scoped_event.error_level }
      | kStateStopped => (true, app, [])
    | kSbEventTypeScheduled => (true, app, [AppEffect.timed_event_callback scoped_event.data])
    | _ => HandleEventAndUpdateState scoped_event app

/-- The lifecycle event types, the ones `HandleEventAndUpdateState` changes
the state for. -/
def lifecycle_types : List SbEventType :=
  [kSbEventTypePreload, kSbEventTypeStart, kSbEventTypeBlur, kSbEventTypeFocus,
   kSbEventTypeConceal, kSbEventTypeReveal, kSbEventTypeFreeze, kSbEventTypeUnfreeze,
   kSbEventTypeStop]

/-- A sample Preload event. -/
def sample_preload : Event :=
  { type := kSbEventTypePreload, timestamp := 100, data := none, error_level := 0 }

/-- A sample Start event. -/
def sample_start : Event :=
  { type := kSbEventTypeStart, timestamp := 200, data := none, error_level := 0 }

/-- A sample Link event, as `Link(link_data)` injects it. -/
def sample_link : Event :=
  { type := kSbEventTypeLink, timestamp := 300, data := some 1, error_level := 0 }

/-- The types of the events delivered to the event handler, in order. -/
def delivered : List AppEffect → List SbEventType
  | [] => []
  | AppEffect.sb_event_handle_callback event :: rest => event.type :: delivered rest
  | _ :: rest => delivered rest

/-- The failed state assertions among the effects, in order. -/
def failed_checks : List AppEffect → List AppEffect
  | [] => []
  | AppEffect.DCheckEqFailed state_ expected :: rest =>
    AppEffect.DCheckEqFailed state_ expected :: failed_checks rest
  | AppEffect.DCheckNeFailed state_ :: rest => AppEffect.DCheckNeFailed state_ :: failed_checks rest
  | _ :: rest => failed_checks rest

/-- The value `x` read as an `int64_t`: reduced modulo 2^64 into
[-2^63, 2^63). -/
def wrap_int64 (x : Int) : Int := (x + 2 ^ 63) % 2 ^ 64 - 2 ^ 63

namespace TimedEventQueue

/-- Static method `TimedEventQueue::IsLess(lhs, rhs)`; the difference of the
target times is an `int64_t`. -/
def IsLess (lhs rhs : TimedEvent) : Bool :=
  let time_difference : Int := wrap_int64 (lhs.target_time - rhs.target_time)
  if time_difference ≠ 0 then decide (time_difference < 0)
  else decide (lhs.address < rhs.address)

/-- A sample timed event at address 1 with target time `INT64_MIN`. -/
def sample_at_int64_min : TimedEvent :=
  { address := 1, id := 1, target_time := -9223372036854775808 }

/-- A sample timed event at address 2 with target time 0. -/
def sample_at_zero : TimedEvent := { address := 2, id := 2, target_time := 0 }

/-- A sample timed event at address 3 with target time 1. -/
def sample_at_one : TimedEvent := { address := 3, id := 3, target_time := 1 }

end TimedEventQueue

end QueueApplication

end starboard.shared.starboard

/-! ## The registry container -/

namespace base.flat_map

variable {V : Type}

theorem find_assign_self (m : flat_map V) (key : UnguessableToken) (value : V) :
    (m.assign key value).find key = some value := by
  induction m with
  | nil => simp [assign, find]
  | cons e rest ih =>
    obtain ⟨k, v⟩ := e
    by_cases h1 : k < key
    · have hne : k ≠ key := Nat.ne_of_lt h1
      simp [assign, find, h1, hne, ih]
    · by_cases h2 : k = key
      · simp [assign, find, h1, h2]
      · simp [assign, find, h1, h2]

theorem find_assign_other (m : flat_map V) (key other : UnguessableToken) (value : V)
    (h : other ≠ key) : (m.assign key value).find other = m.find other := by
  induction m with
  | nil => simp [assign, find, Ne.symm h]
  | cons e rest ih =>
    obtain ⟨k, v⟩ := e
    by_cases h1 : k < key
    · simp [assign, find, h1, ih]
    · by_cases h2 : k = key
      · subst h2
        simp [assign, find, Ne.symm h]
      · simp [assign, find, h1, h2, Ne.symm h]

theorem erase_nil (key : UnguessableToken) : erase ([] : flat_map V) key = [] := rfl

theorem erase_cons (k : UnguessableToken) (v : V) (rest : flat_map V)
    (key : UnguessableToken) :
    erase ((k, v) :: rest) key =
      if k = key then erase rest key else (k, v) :: erase rest key := by
  by_cases h : k = key <;> simp [erase, List.filter_cons, h]

theorem find_erase_self (m : flat_map V) (key : UnguessableToken) :
    (m.erase key).find key = none := by
  induction m with
  | nil => simp [erase_nil, find]
  | cons e rest ih =>
    obtain ⟨k, v⟩ := e
    rw [erase_cons]
    by_cases h : k = key
    · rw [if_pos h]; exact ih
    · rw [if_neg h]; simp only [find, if_neg h]; exact ih

theorem find_erase_other (m : flat_map V) (key other : UnguessableToken)
    (h : other ≠ key) : (m.erase key).find other = m.find other := by
  induction m with
  | nil => simp [erase_nil, find]
  | cons e rest ih =>
    obtain ⟨k, v⟩ := e
    rw [erase_cons]
    by_cases hk : k = key
    · have ho : ¬ k = other := fun e => h (e ▸ hk)
      rw [if_pos hk]; simp only [find, if_neg ho]; exact ih
    · rw [if_neg hk]
      by_cases ho : k = other
      · simp only [find, if_pos ho]
      · simp only [find, if_neg ho]; exact ih

theorem erase_of_find_none (m : flat_map V) (key : UnguessableToken)
    (h : m.find key = none) : m.erase key = m := by
  induction m with
  | nil => rfl
  | cons e rest ih =>
    obtain ⟨k, v⟩ := e
    by_cases hk : k = key
    · simp [find, hk] at h
    · simp only [find, if_neg hk] at h
      rw [erase_cons, if_neg hk, ih h]

end base.flat_map

namespace base.flat_map

variable {V : Type}

theorem mem_assign (m : flat_map V) (key : UnguessableToken) (value : V)
    (e : UnguessableToken × V) (h : e ∈ m.assign key value) :
    e ∈ m ∨ e = (key, value) := by
  induction m with
  | nil => simpa [assign] using h
  | cons a rest ih =>
    obtain ⟨k, v⟩ := a
    by_cases h1 : k < key
    · simp only [assign, if_pos h1, List.mem_cons] at h
      rcases h with h | h
      · exact Or.inl (by simp [h])
      · rcases ih h with h2 | h2
        · exact Or.inl (List.mem_cons_of_mem _ h2)
        · exact Or.inr h2
    · by_cases h2 : k = key
      · simp only [assign, if_neg h1, if_pos h2, List.mem_cons] at h
        rcases h with h | h
        · exact Or.inr h
        · exact Or.inl (List.mem_cons_of_mem _ h)
      · simp only [assign, if_neg h1, if_neg h2, List.mem_cons] at h
        rcases h with h | h | h
        · exact Or.inr h
        · exact Or.inl (by simp [h])
        · exact Or.inl (List.mem_cons_of_mem _ h)

theorem mem_of_find (m : flat_map V) (key : UnguessableToken) (value : V)
    (h : m.find key = some value) : (key, value) ∈ m := by
  induction m with
  | nil => simp [find] at h
  | cons a rest ih =>
    obtain ⟨k, v⟩ := a
    by_cases hk : k = key
    · simp only [find, if_pos hk, Option.some.injEq] at h
      simp [hk, h]
    · simp only [find, if_neg hk] at h
      exact List.mem_cons_of_mem _ (ih h)

theorem erase_idem (m : flat_map V) (key : UnguessableToken) :
    (m.erase key).erase key = m.erase key :=
  erase_of_find_none _ key (find_erase_self m key)

theorem erase_assign (m : flat_map V) (key : UnguessableToken) (value : V) :
    (m.assign key value).erase key = m.erase key := by
  induction m with
  | nil => simp [assign, erase_cons, erase_nil]
  | cons a rest ih =>
    obtain ⟨k, v⟩ := a
    by_cases h1 : k < key
    · have hne : ¬ k = key := Nat.ne_of_lt h1
      simp only [assign, if_pos h1, erase_cons, if_neg hne, ih]
    · by_cases h2 : k = key
      · simp only [assign, if_neg h1, if_pos h2, erase_cons, if_true]
      · simp only [assign, if_neg h1, if_neg h2, erase_cons, if_true]

/-- Assignment keeps the keys strictly increasing. -/
theorem sorted_assign (m : flat_map V) (key : UnguessableToken) (value : V)
    (h : m.sorted) : (m.assign key value).sorted := by
  induction m with
  | nil => simp [assign, sorted]
  | cons a rest ih =>
    obtain ⟨k, v⟩ := a
    have hp : List.Pairwise (fun a b : UnguessableToken × V => a.1 < b.1) ((k, v) :: rest) := h
    rw [List.pairwise_cons] at hp
    obtain ⟨hhead, htail⟩ := hp
    by_cases h1 : k < key
    · simp only [assign, if_pos h1, sorted]
      rw [List.pairwise_cons]
      refine ⟨?_, ih htail⟩
      intro e he
      rcases mem_assign rest key value e he with h2 | h2
      · exact hhead e h2
      · rw [h2]; exact h1
    · by_cases h2 : k = key
      · simp only [assign, if_neg h1, if_pos h2, sorted]
        rw [List.pairwise_cons]
        refine ⟨?_, htail⟩
        intro e he
        have := hhead e he
        rw [h2] at this
        exact this
      · have h3 : key < k := Nat.lt_of_le_of_ne (Nat.le_of_not_lt h1) (Ne.symm h2)
        simp only [assign, if_neg h1, if_neg h2, sorted]
        rw [List.pairwise_cons]
        refine ⟨?_, h⟩
        intro e he
        rcases List.mem_cons.mp he with h4 | h4
        · rw [h4]; exact h3
        · exact Nat.lt_trans h3 (hhead e h4)

/-- Removal keeps the keys strictly increasing. -/
theorem sorted_erase (m : flat_map V) (key : UnguessableToken)
    (h : m.sorted) : (m.erase key).sorted :=
  List.Pairwise.filter _ h

end base.flat_map

/-! ## The geometry broker -/

namespace cobalt.media

open base gfx mojo VideoGeometrySetterService

/-- The registry after a subscription holds the new client under its id. -/
theorem find_after_subscribe (s : VideoGeometrySetterService)
    (id : UnguessableToken) (c : MessagePipe) :
    (s.SubscribeToVideoGeometryChange id c).1.video_geometry_change_clients_.find id =
      some { pipe := c, disconnect_handler := some id } := by
  simp [SubscribeToVideoGeometryChange, flat_map.find_assign_self]

/-- A subscription leaves the entries of every other id as they were. -/
theorem find_other_after_subscribe (s : VideoGeometrySetterService)
    (id other : UnguessableToken) (c : MessagePipe) (h : other ≠ id) :
    (s.SubscribeToVideoGeometryChange id c).1.video_geometry_change_clients_.find other =
      s.video_geometry_change_clients_.find other := by
  simp [SubscribeToVideoGeometryChange, flat_map.find_assign_other _ _ _ _ h]

/-- With a client registered under the id, the update goes to that client. -/
theorem SetVideoGeometry_found (s : VideoGeometrySetterService) (rect_f : RectF)
    (transform : OverlayTransform) (id : UnguessableToken) (client : Remote)
    (h : s.video_geometry_change_clients_.find id = some client) :
    s.SetVideoGeometry rect_f transform id =
      (s, [Effect.OnVideoGeometryChange client.pipe rect_f transform]) := by
  simp [SetVideoGeometry, h]

/-- Without a client under the id, the update is dropped with a warning. -/
theorem SetVideoGeometry_missing (s : VideoGeometrySetterService) (rect_f : RectF)
    (transform : OverlayTransform) (id : UnguessableToken)
    (h : s.video_geometry_change_clients_.find id = none) :
    s.SetVideoGeometry rect_f transform id = (s, [Effect.LogWarning]) := by
  simp [SetVideoGeometry, h]

/-- C1: from every broker state, after `SubscribeToVideoGeometryChange(id, c1)`
and then `SubscribeToVideoGeometryChange(id, c2)` with two different client
pipes, `SetVideoGeometry(rect_f, transform, id)` writes exactly one message,
the given geometry to `c2`: `c2` receives it once and `c1` receives nothing. -/
theorem resubscribe_delivers_to_latest_only (s : VideoGeometrySetterService)
    (id : UnguessableToken) (c1 c2 : MessagePipe) (rect_f : RectF)
    (transform : OverlayTransform) (hc : c1 ≠ c2) :
    deliveries
        (((s.SubscribeToVideoGeometryChange id c1).1.SubscribeToVideoGeometryChange id c2).1.SetVideoGeometry
          rect_f transform id).2 = [(c2, rect_f, transform)] ∧
      deliveries_to c2
        (((s.SubscribeToVideoGeometryChange id c1).1.SubscribeToVideoGeometryChange id c2).1.SetVideoGeometry
          rect_f transform id).2 = [(rect_f, transform)] ∧
      deliveries_to c1
        (((s.SubscribeToVideoGeometryChange id c1).1.SubscribeToVideoGeometryChange id c2).1.SetVideoGeometry
          rect_f transform id).2 = [] := by
  rw [SetVideoGeometry_found _ rect_f transform id _ (find_after_subscribe _ id c2)]
  simp [deliveries, deliveries_to, Ne.symm hc]

/-- C1 at a concrete input: the sample registry, plane 7, pipes 1 and 2. -/
theorem resubscribe_delivers_to_latest_only_witness :
    (1 : MessagePipe) ≠ 2 ∧
      (deliveries
        (((sample_service.SubscribeToVideoGeometryChange 7 1).1.SubscribeToVideoGeometryChange
            7 2).1.SetVideoGeometry
          sample_rect OverlayTransform.OVERLAY_TRANSFORM_NONE 7).2 =
          [(2, sample_rect, OverlayTransform.OVERLAY_TRANSFORM_NONE)] ∧
      deliveries_to 2
        (((sample_service.SubscribeToVideoGeometryChange 7 1).1.SubscribeToVideoGeometryChange
            7 2).1.SetVideoGeometry
          sample_rect OverlayTransform.OVERLAY_TRANSFORM_NONE 7).2 =
          [(sample_rect, OverlayTransform.OVERLAY_TRANSFORM_NONE)] ∧
      deliveries_to 1
        (((sample_service.SubscribeToVideoGeometryChange 7 1).1.SubscribeToVideoGeometryChange
            7 2).1.SetVideoGeometry
          sample_rect OverlayTransform.OVERLAY_TRANSFORM_NONE 7).2 = []) :=
  ⟨by decide,
    resubscribe_delivers_to_latest_only sample_service 7 1 2 sample_rect
      OverlayTransform.OVERLAY_TRANSFORM_NONE (by decide)⟩

/-- C2: in every broker state, for an id with no registered client,
`SetVideoGeometry(rect_f, transform, id)` returns (the only effect is the
warning log), writes the update to no client pipe at all, and leaves the
service, its registry included, as it was. -/
theorem SetVideoGeometry_unregistered_is_dropped (s : VideoGeometrySetterService)
    (rect_f : RectF) (transform : OverlayTransform) (id : UnguessableToken)
    (h : s.video_geometry_change_clients_.find id = none) :
    (s.SetVideoGeometry rect_f transform id).2 = [Effect.LogWarning] ∧
      deliveries (s.SetVideoGeometry rect_f transform id).2 = [] ∧
      (∀ c : MessagePipe, deliveries_to c (s.SetVideoGeometry rect_f transform id).2 = []) ∧
      (s.SetVideoGeometry rect_f transform id).1 = s ∧
      (s.SetVideoGeometry rect_f transform id).1.video_geometry_change_clients_ =
        s.video_geometry_change_clients_ := by
  rw [SetVideoGeometry_missing s rect_f transform id h]
  simp [deliveries, deliveries_to]

/-- C2 at a concrete input: the sample registry has no client for plane 5. -/
theorem SetVideoGeometry_unregistered_is_dropped_witness :
    sample_service.video_geometry_change_clients_.find 5 = none ∧
      ((sample_service.SetVideoGeometry sample_rect
          OverlayTransform.OVERLAY_TRANSFORM_ROTATE_90 5).2 = [Effect.LogWarning] ∧
      deliveries (sample_service.SetVideoGeometry sample_rect
          OverlayTransform.OVERLAY_TRANSFORM_ROTATE_90 5).2 = [] ∧
      (∀ c : MessagePipe, deliveries_to c (sample_service.SetVideoGeometry sample_rect
          OverlayTransform.OVERLAY_TRANSFORM_ROTATE_90 5).2 = []) ∧
      (sample_service.SetVideoGeometry sample_rect
          OverlayTransform.OVERLAY_TRANSFORM_ROTATE_90 5).1 = sample_service ∧
      (sample_service.SetVideoGeometry sample_rect
          OverlayTransform.OVERLAY_TRANSFORM_ROTATE_90 5).1.video_geometry_change_clients_ =
        sample_service.video_geometry_change_clients_) :=
  ⟨by decide,
    SetVideoGeometry_unregistered_is_dropped sample_service sample_rect
      OverlayTransform.OVERLAY_TRANSFORM_ROTATE_90 5 (by decide)⟩

/-- The handler of the remote stored under `id` is the call
`OnVideoGeometryChangeClientGone(id)`. -/
theorem run_disconnect_handler_eq (s : VideoGeometrySetterService)
    (id : UnguessableToken) (c : MessagePipe)
    (h : s.video_geometry_change_clients_.find id =
      some { pipe := c, disconnect_handler := some id }) :
    run_disconnect_handler { pipe := c, disconnect_handler := some id } s =
      s.OnVideoGeometryChangeClientGone id := by
  simp [run_disconnect_handler, h]

/-- C4: in every broker state (no pipe held by two entries) in which the
distinct ids `P1` and `P2` have the clients `c1` and `c2` registered,
`SetVideoGeometry(rect_f, transform, P1)` writes exactly one message, the
given `rect_f` and `transform` unmodified, to the pipe of `c1`; the pipe of
`c2` receives nothing; the service is unchanged and both clients are still
registered. -/
theorem SetVideoGeometry_routes_by_id (s : VideoGeometrySetterService)
    (P1 P2 : UnguessableToken) (c1 c2 : Remote) (rect_f : RectF)
    (transform : OverlayTransform) (hs : pipes_distinct s) (hP : P1 ≠ P2)
    (h1 : s.video_geometry_change_clients_.find P1 = some c1)
    (h2 : s.video_geometry_change_clients_.find P2 = some c2) :
    (s.SetVideoGeometry rect_f transform P1).2 =
        [Effect.OnVideoGeometryChange c1.pipe rect_f transform] ∧
      deliveries_to c1.pipe (s.SetVideoGeometry rect_f transform P1).2 =
        [(rect_f, transform)] ∧
      deliveries_to c2.pipe (s.SetVideoGeometry rect_f transform P1).2 = [] ∧
      (s.SetVideoGeometry rect_f transform P1).1 = s ∧
      (s.SetVideoGeometry rect_f transform P1).1.video_geometry_change_clients_.find P1 =
        some c1 ∧
      (s.SetVideoGeometry rect_f transform P1).1.video_geometry_change_clients_.find P2 =
        some c2 := by
  have hc : c1.pipe ≠ c2.pipe := by
    intro heq
    have hm1 := flat_map.mem_of_find _ P1 c1 h1
    have hm2 := flat_map.mem_of_find _ P2 c2 h2
    have hinj := List.inj_on_of_nodup_map hs hm1 hm2 heq
    exact hP (congrArg Prod.fst hinj)
  rw [SetVideoGeometry_found s rect_f transform P1 c1 h1]
  simp [deliveries_to, hc, h1, h2]

/-- C4 at a concrete input: the sample registry, planes 3 and 8. -/
theorem SetVideoGeometry_routes_by_id_witness :
    (pipes_distinct sample_service ∧
      (3 : UnguessableToken) ≠ 8 ∧
      sample_service.video_geometry_change_clients_.find 3 =
        some { pipe := 9, disconnect_handler := some 3 } ∧
      sample_service.video_geometry_change_clients_.find 8 =
        some { pipe := 4, disconnect_handler := some 8 }) ∧
    ((sample_service.SetVideoGeometry sample_rect
        OverlayTransform.OVERLAY_TRANSFORM_FLIP_VERTICAL 3).2 =
        [Effect.OnVideoGeometryChange 9 sample_rect
          OverlayTransform.OVERLAY_TRANSFORM_FLIP_VERTICAL] ∧
      deliveries_to 9 (sample_service.SetVideoGeometry sample_rect
        OverlayTransform.OVERLAY_TRANSFORM_FLIP_VERTICAL 3).2 =
        [(sample_rect, OverlayTransform.OVERLAY_TRANSFORM_FLIP_VERTICAL)] ∧
      deliveries_to 4 (sample_service.SetVideoGeometry sample_rect
        OverlayTransform.OVERLAY_TRANSFORM_FLIP_VERTICAL 3).2 = [] ∧
      (sample_service.SetVideoGeometry sample_rect
        OverlayTransform.OVERLAY_TRANSFORM_FLIP_VERTICAL 3).1 = sample_service ∧
      (sample_service.SetVideoGeometry sample_rect
        OverlayTransform.OVERLAY_TRANSFORM_FLIP_VERTICAL 3).1.video_geometry_change_clients_.find 3 =
        some { pipe := 9, disconnect_handler := some 3 } ∧
      (sample_service.SetVideoGeometry sample_rect
        OverlayTransform.OVERLAY_TRANSFORM_FLIP_VERTICAL 3).1.video_geometry_change_clients_.find 8 =
        some { pipe := 4, disconnect_handler := some 8 }) :=
  ⟨⟨by decide, by decide, by decide, by decide⟩,
    SetVideoGeometry_routes_by_id sample_service 3 8
      { pipe := 9, disconnect_handler := some 3 }
      { pipe := 4, disconnect_handler := some 8 } sample_rect
      OverlayTransform.OVERLAY_TRANSFORM_FLIP_VERTICAL
      (by decide) (by decide) (by decide) (by decide)⟩

/-- C5: from every broker state, after `c1` is registered for `P` and its
disconnect handler has run, `P` has no entry and an update sent at that point
is written to no pipe; once `c2` (a different pipe) is then registered for
`P`, `SetVideoGeometry(rect_f, transform, P)` writes exactly one message, the
given geometry to `c2`: `c2` receives it once and `c1` receives nothing. -/
theorem resubscribe_after_disconnect (s : VideoGeometrySetterService)
    (P : UnguessableToken) (c1 c2 : MessagePipe) (rect_f : RectF)
    (transform : OverlayTransform) (hc : c1 ≠ c2) :
    (run_disconnect_handler { pipe := c1, disconnect_handler := some P }
        (s.SubscribeToVideoGeometryChange P c1).1).1.video_geometry_change_clients_.find P = none ∧
      deliveries
        ((run_disconnect_handler { pipe := c1, disconnect_handler := some P }
          (s.SubscribeToVideoGeometryChange P c1).1).1.SetVideoGeometry rect_f transform P).2 = [] ∧
      deliveries
        (((run_disconnect_handler { pipe := c1, disconnect_handler := some P }
          (s.SubscribeToVideoGeometryChange P c1).1).1.SubscribeToVideoGeometryChange P c2).1.SetVideoGeometry
            rect_f transform P).2 = [(c2, rect_f, transform)] ∧
      deliveries_to c2
        (((run_disconnect_handler { pipe := c1, disconnect_handler := some P }
          (s.SubscribeToVideoGeometryChange P c1).1).1.SubscribeToVideoGeometryChange P c2).1.SetVideoGeometry
            rect_f transform P).2 = [(rect_f, transform)] ∧
      deliveries_to c1
        (((run_disconnect_handler { pipe := c1, disconnect_handler := some P }
          (s.SubscribeToVideoGeometryChange P c1).1).1.SubscribeToVideoGeometryChange P c2).1.SetVideoGeometry
            rect_f transform P).2 = [] := by
  have hnone :
      (run_disconnect_handler { pipe := c1, disconnect_handler := some P }
        (s.SubscribeToVideoGeometryChange P c1).1).1.video_geometry_change_clients_.find P = none := by
    rw [run_disconnect_handler_eq _ P c1 (find_after_subscribe s P c1)]
    simp [OnVideoGeometryChangeClientGone, flat_map.find_erase_self]
  refine ⟨hnone, ?_, ?_⟩
  · rw [SetVideoGeometry_missing _ rect_f transform P hnone]
    simp [deliveries]
  · rw [SetVideoGeometry_found _ rect_f transform P _ (find_after_subscribe _ P c2)]
    simp [deliveries, deliveries_to, Ne.symm hc]

/-- C5 at a concrete input: the sample registry, plane 8, pipes 4 and 6. -/
theorem resubscribe_after_disconnect_witness :
    (4 : MessagePipe) ≠ 6 ∧
    ((run_disconnect_handler { pipe := 4, disconnect_handler := some 8 }
        (sample_service.SubscribeToVideoGeometryChange 8 4).1).1.video_geometry_change_clients_.find 8 = none ∧
      deliveries
        ((run_disconnect_handler { pipe := 4, disconnect_handler := some 8 }
          (sample_service.SubscribeToVideoGeometryChange 8 4).1).1.SetVideoGeometry sample_rect
            OverlayTransform.OVERLAY_TRANSFORM_ROTATE_180 8).2 = [] ∧
      deliveries
        (((run_disconnect_handler { pipe := 4, disconnect_handler := some 8 }
          (sample_service.SubscribeToVideoGeometryChange 8 4).1).1.SubscribeToVideoGeometryChange 8 6).1.SetVideoGeometry
            sample_rect OverlayTransform.OVERLAY_TRANSFORM_ROTATE_180 8).2 =
          [(6, sample_rect, OverlayTransform.OVERLAY_TRANSFORM_ROTATE_180)] ∧
      deliveries_to 6
        (((run_disconnect_handler { pipe := 4, disconnect_handler := some 8 }
          (sample_service.SubscribeToVideoGeometryChange 8 4).1).1.SubscribeToVideoGeometryChange 8 6).1.SetVideoGeometry
            sample_rect OverlayTransform.OVERLAY_TRANSFORM_ROTATE_180 8).2 =
          [(sample_rect, OverlayTransform.OVERLAY_TRANSFORM_ROTATE_180)] ∧
      deliveries_to 4
        (((run_disconnect_handler { pipe := 4, disconnect_handler := some 8 }
          (sample_service.SubscribeToVideoGeometryChange 8 4).1).1.SubscribeToVideoGeometryChange 8 6).1.SetVideoGeometry
            sample_rect OverlayTransform.OVERLAY_TRANSFORM_ROTATE_180 8).2 = []) :=
  ⟨by decide,
    resubscribe_after_disconnect sample_service 8 4 6 sample_rect
      OverlayTransform.OVERLAY_TRANSFORM_ROTATE_180 (by decide)⟩

/-- On the service's sequence `GetVideoGeometrySetter` always succeeds: the
receiver ends bound to the new pipe, a previously bound pipe is reset first. -/
theorem GetVideoGeometrySetter_on_sequence (s : VideoGeometrySetterService)
    (c : MessagePipe) :
    s.GetVideoGeometrySetter true c =
      some ({ s with video_geometry_setter_receiver_ := { bound_pipe := some c } },
        (match s.video_geometry_setter_receiver_.bound_pipe with
          | some old => [Effect.LogError, Effect.SetterReceiverReset old]
          | none => []) ++ [Effect.SetterReceiverBound c]) := by
  cases h : s.video_geometry_setter_receiver_.bound_pipe with
  | none => simp [GetVideoGeometrySetter, h, Receiver.Bind, Receiver.is_bound]
  | some old =>
    simp [GetVideoGeometrySetter, h, Receiver.Bind, Receiver.is_bound, Receiver.reset]

theorem bound_setters_append (live : List MessagePipe) (e1 e2 : List Effect) :
    bound_setters live (e1 ++ e2) = bound_setters (bound_setters live e1) e2 := by
  induction e1 generalizing live with
  | nil => rfl
  | cons e rest ih => cases e <;> simp [bound_setters, ih]

/-- Every call succeeds, and its effects keep the bound setter pipes of the
trace equal to the pipe held by the receiver. -/
theorem exec_bound_setters (c : Call) (s : VideoGeometrySetterService) :
    ∃ s1 e1, c.exec s = some (s1, e1) ∧
      bound_setters s.video_geometry_setter_receiver_.bound_pipe.toList e1 =
        s1.video_geometry_setter_receiver_.bound_pipe.toList := by
  cases c with
  | GetVideoGeometrySetter on_sequence p =>
    cases on_sequence with
    | false =>
      exact ⟨s, [Effect.PostTask (Task.GetVideoGeometrySetter p)],
        by simp [Call.exec, GetVideoGeometrySetter], by simp [bound_setters]⟩
    | true =>
      refine ⟨_, _, by simp only [Call.exec]; exact GetVideoGeometrySetter_on_sequence s p, ?_⟩
      cases h : s.video_geometry_setter_receiver_.bound_pipe with
      | none => simp [bound_setters, Option.toList]
      | some old => simp [bound_setters, Option.toList]
  | SubscribeToVideoGeometryChange id c =>
    exact ⟨_, _, rfl, by simp [SubscribeToVideoGeometryChange, bound_setters]⟩
  | SetVideoGeometry r t id =>
    refine ⟨_, _, rfl, ?_⟩
    cases h : s.video_geometry_change_clients_.find id <;>
      simp [SetVideoGeometry, h, bound_setters]
  | OnVideoGeometryChangeClientGone id =>
    exact ⟨_, _, rfl, by simp [OnVideoGeometryChangeClientGone, bound_setters]⟩

theorem run_bound_setters (calls : List Call) (s : VideoGeometrySetterService) :
    ∃ s1 trace, run calls s = some (s1, trace) ∧
      bound_setters s.video_geometry_setter_receiver_.bound_pipe.toList trace =
        s1.video_geometry_setter_receiver_.bound_pipe.toList := by
  induction calls generalizing s with
  | nil => exact ⟨s, [], rfl, rfl⟩
  | cons c cs ih =>
    obtain ⟨s1, e1, h1, hb1⟩ := exec_bound_setters c s
    obtain ⟨s2, e2, h2, hb2⟩ := ih s1
    refine ⟨s2, e1 ++ e2, by simp [run, h1, h2], ?_⟩
    rw [bound_setters_append, hb1, hb2]

/-- C6: from every broker state, `GetVideoGeometrySetter(c1)` followed by
`GetVideoGeometrySetter(c2)` (both on the service's sequence) succeeds: the
receiver ends bound to `c2`, and the second call resets the binding of `c1`,
logs the conflict and binds `c2`; nothing else in the service changes.
Moreover every sequence of broker calls from the freshly constructed service
runs without a failed bind, and the setter pipes its trace leaves bound are
exactly the pipe the receiver holds: at most one. -/
theorem GetVideoGeometrySetter_single_setter :
    (∀ (s : VideoGeometrySetterService) (c1 c2 : MessagePipe),
      s.GetVideoGeometrySetter true c1 =
          some ({ s with video_geometry_setter_receiver_ := { bound_pipe := some c1 } },
            (match s.video_geometry_setter_receiver_.bound_pipe with
              | some old => [Effect.LogError, Effect.SetterReceiverReset old]
              | none => []) ++ [Effect.SetterReceiverBound c1]) ∧
        (s.GetVideoGeometrySetter true c1).bind
            (fun r => r.1.GetVideoGeometrySetter true c2) =
          some ({ s with video_geometry_setter_receiver_ := { bound_pipe := some c2 } },
            [Effect.LogError, Effect.SetterReceiverReset c1,
              Effect.SetterReceiverBound c2])) ∧
      (∀ calls : List Call, ∃ s trace,
        run calls VideoGeometrySetterService.init = some (s, trace) ∧
          bound_setters [] trace = s.video_geometry_setter_receiver_.bound_pipe.toList ∧
          (bound_setters [] trace).length ≤ 1) := by
  constructor
  · intro s c1 c2
    refine ⟨GetVideoGeometrySetter_on_sequence s c1, ?_⟩
    rw [GetVideoGeometrySetter_on_sequence s c1]
    simp [GetVideoGeometrySetter_on_sequence]
  · intro calls
    obtain ⟨s, trace, hrun, hb⟩ := run_bound_setters calls VideoGeometrySetterService.init
    have hb2 : bound_setters [] trace =
        s.video_geometry_setter_receiver_.bound_pipe.toList := hb
    refine ⟨s, trace, hrun, hb2, ?_⟩
    rw [hb2]
    cases s.video_geometry_setter_receiver_.bound_pipe <;> simp [Option.toList]

end cobalt.media

/-! ## The hardware video surface arbiter -/

namespace starboard.android.shared

open VideoSurfaceHolder

/-- While a holder is recorded, `AcquireVideoSurface()` fails and changes nothing. -/
theorem AcquireVideoSurface_held (c : VideoSurfaceHolder) (g : Globals)
    (h : g.g_video_surface_holder.isSome = true) :
    AcquireVideoSurface c g = (none, g) := by
  simp [AcquireVideoSurface, h]

/-- A successful `AcquireVideoSurface()` leaves a holder recorded. -/
theorem AcquireVideoSurface_success_holds (c : VideoSurfaceHolder) (g : Globals)
    (h : (AcquireVideoSurface c g).1 ≠ none) :
    (AcquireVideoSurface c g).2.g_video_surface_holder.isSome = true := by
  unfold AcquireVideoSurface at h ⊢
  by_cases h1 : g.g_video_surface_holder.isSome = true
  · simp [h1] at h
  · by_cases h2 : g.g_j_video_surface.isSome = true
    · simp [h1, h2]
    · simp [h1, h2] at h

/-- While a holder is recorded, a run of acquisitions changes nothing. -/
theorem AcquireVideoSurfaceAll_held (cs : List VideoSurfaceHolder) (g : Globals)
    (h : g.g_video_surface_holder.isSome = true) :
    (AcquireVideoSurfaceAll cs g).2 = g := by
  induction cs with
  | nil => rfl
  | cons c rest ih =>
    simp only [AcquireVideoSurfaceAll, AcquireVideoSurface_held c g h]
    exact ih

theorem AcquireVideoSurface_exclusive_order (g : Globals) (A B : VideoSurfaceHolder)
    (between : List VideoSurfaceHolder) :
    (AcquireVideoSurface A g).1 = none ∨
      (AcquireVideoSurface B
        (AcquireVideoSurfaceAll between (AcquireVideoSurface A g).2).2).1 = none := by
  by_cases h : (AcquireVideoSurface A g).1 = none
  · exact Or.inl h
  · right
    have hheld := AcquireVideoSurface_success_holds A g h
    rw [AcquireVideoSurfaceAll_held between _ hheld, AcquireVideoSurface_held B _ hheld]

/-- C7, as stated, fails: from the sample state with surface 5 free, consumer
1 acquires and gets surface 5; a surface-changed notification then installs
surface 9 and clears the holder; consumer 2 acquires and gets surface 9.  No
`ReleaseVideoSurface()` was called, yet both acquisitions returned a handle. -/
theorem acquire_twice_across_surface_change :
    (AcquireVideoSurface 1 sample_free_surface).1 = some 5 ∧
      (AcquireVideoSurface 2
        (nativeOnVideoSurfaceChanged sample_jni (some 9)
          (AcquireVideoSurface 1 sample_free_surface).2).1).1 = some 9 ∧
      run_calls sample_jni
          [ArbiterCall.AcquireVideoSurface 1, ArbiterCall.nativeOnVideoSurfaceChanged (some 9)]
          sample_free_surface =
        (nativeOnVideoSurfaceChanged sample_jni (some 9)
          (AcquireVideoSurface 1 sample_free_surface).2).1 ∧
      ¬ ((AcquireVideoSurface 1 sample_free_surface).1 = none ∨
        (AcquireVideoSurface 2
          (run_calls sample_jni
            [ArbiterCall.AcquireVideoSurface 1,
             ArbiterCall.nativeOnVideoSurfaceChanged (some 9)]
            sample_free_surface)).1 = none) := by
  decide

/-- C7, amended: from every state of the globals (any surface, any holder) and
for any two consumers `A` and `B`, when `A.AcquireVideoSurface()` and
`B.AcquireVideoSurface()` run one after the other with no
`ReleaseVideoSurface()` and no surface-changed notification in between (only
further acquisitions, possibly none, by any consumers), in either order, at
least one of the two calls returns `NULL`: at most one returns a handle. -/
theorem AcquireVideoSurface_mutually_exclusive (g : Globals) (A B : VideoSurfaceHolder)
    (between : List VideoSurfaceHolder) :
    ((AcquireVideoSurface A g).1 = none ∨
        (AcquireVideoSurface B (AcquireVideoSurface A g).2).1 = none) ∧
      ((AcquireVideoSurface B g).1 = none ∨
        (AcquireVideoSurface A (AcquireVideoSurface B g).2).1 = none) ∧
      ((AcquireVideoSurface A g).1 = none ∨
        (AcquireVideoSurface B
          (AcquireVideoSurfaceAll between (AcquireVideoSurface A g).2).2).1 = none) ∧
      ((AcquireVideoSurface B g).1 = none ∨
        (AcquireVideoSurface A
          (AcquireVideoSurfaceAll between (AcquireVideoSurface B g).2).2).1 = none) :=
  ⟨AcquireVideoSurface_exclusive_order g A B [],
    AcquireVideoSurface_exclusive_order g B A [],
    AcquireVideoSurface_exclusive_order g A B between,
    AcquireVideoSurface_exclusive_order g B A between⟩

/-- C8: in every state and for every caller `C`, `AcquireVideoSurface()`
returns a handle exactly when `IsVideoSurfaceAvailable()` holds, which is
exactly when a surface exists and no holder is recorded.  When it holds, the
call returns the current surface and records `C` as holder, touching nothing
else; otherwise it returns `NULL` and leaves the globals unchanged, also when
the recorded holder is `C` itself. -/
theorem AcquireVideoSurface_iff_available (g : Globals) (C : VideoSurfaceHolder) :
    (AcquireVideoSurface C g).1.isSome = IsVideoSurfaceAvailable g ∧
      IsVideoSurfaceAvailable g =
        (g.g_j_video_surface.isSome && g.g_video_surface_holder.isNone) ∧
      AcquireVideoSurface C g =
        (if IsVideoSurfaceAvailable g = true then
          (g.g_j_video_surface, { g with g_video_surface_holder := some C })
        else (none, g)) ∧
      AcquireVideoSurface C { g with g_video_surface_holder := some C } =
        (none, { g with g_video_surface_holder := some C }) := by
  cases hh : g.g_video_surface_holder <;> cases hs : g.g_j_video_surface <;>
    simp [AcquireVideoSurface, IsVideoSurfaceAvailable, hh, hs]

/-- C9: in every state and for every caller `C`, `ReleaseVideoSurface()`
clears the holder when `C` is the recorded holder and otherwise (another
holder, or none as in a repeated release) leaves it as it was: the holder
changes exactly when `C` is the recorded holder.  The surface, the native
window and the reset flag are unchanged in both cases, and a second release
by `C` changes nothing. -/
theorem ReleaseVideoSurface_only_by_holder (g : Globals) (C : VideoSurfaceHolder) :
    (ReleaseVideoSurface C g).g_video_surface_holder =
        (if g.g_video_surface_holder = some C then none else g.g_video_surface_holder) ∧
      ((ReleaseVideoSurface C g).g_video_surface_holder ≠ g.g_video_surface_holder ↔
        g.g_video_surface_holder = some C) ∧
      (ReleaseVideoSurface C g).g_j_video_surface = g.g_j_video_surface ∧
      (ReleaseVideoSurface C g).g_native_video_window = g.g_native_video_window ∧
      (ReleaseVideoSurface C g).g_reset_surface_on_clear_window =
        g.g_reset_surface_on_clear_window ∧
      ReleaseVideoSurface C (ReleaseVideoSurface C g) = ReleaseVideoSurface C g := by
  by_cases h : g.g_video_surface_holder = some C
  · simp [ReleaseVideoSurface, h]
  · simp [ReleaseVideoSurface, h]

/-- C10: in every state where a surface `surface` exists and nobody holds it,
for all consumers `X` and `Y` (distinct or not): `X.AcquireVideoSurface()`
returns `surface` and records `X`; `Y.AcquireVideoSurface()` while `X` holds
returns `NULL`; after `X.ReleaseVideoSurface()`, `Y.AcquireVideoSurface()`
returns the same `surface` and `Y` is the holder. -/
theorem acquire_release_handover (g : Globals) (surface : jobject)
    (X Y : VideoSurfaceHolder)
    (hs : g.g_j_video_surface = some surface)
    (hh : g.g_video_surface_holder = none) :
    (AcquireVideoSurface X g).1 = some surface ∧
      (AcquireVideoSurface X g).2.g_video_surface_holder = some X ∧
      (AcquireVideoSurface Y (AcquireVideoSurface X g).2).1 = none ∧
      (AcquireVideoSurface Y (AcquireVideoSurface X g).2).2.g_video_surface_holder =
        some X ∧
      (AcquireVideoSurface Y
        (ReleaseVideoSurface X
          (AcquireVideoSurface Y (AcquireVideoSurface X g).2).2)).1 = some surface ∧
      (AcquireVideoSurface Y
        (ReleaseVideoSurface X
          (AcquireVideoSurface Y (AcquireVideoSurface X g).2).2)).2.g_video_surface_holder =
        some Y := by
  simp [AcquireVideoSurface, ReleaseVideoSurface, hs, hh]

/-- C10 at a concrete input: the sample free surface, consumers 1 and 2. -/
theorem acquire_release_handover_witness :
    (sample_free_surface.g_j_video_surface = some 5 ∧
      sample_free_surface.g_video_surface_holder = none) ∧
    ((AcquireVideoSurface 1 sample_free_surface).1 = some 5 ∧
      (AcquireVideoSurface 1 sample_free_surface).2.g_video_surface_holder = some 1 ∧
      (AcquireVideoSurface 2 (AcquireVideoSurface 1 sample_free_surface).2).1 = none ∧
      (AcquireVideoSurface 2
        (AcquireVideoSurface 1 sample_free_surface).2).2.g_video_surface_holder = some 1 ∧
      (AcquireVideoSurface 2
        (ReleaseVideoSurface 1
          (AcquireVideoSurface 2 (AcquireVideoSurface 1 sample_free_surface).2).2)).1 =
        some 5 ∧
      (AcquireVideoSurface 2
        (ReleaseVideoSurface 1
          (AcquireVideoSurface 2
            (AcquireVideoSurface 1 sample_free_surface).2).2)).2.g_video_surface_holder =
        some 2) :=
  ⟨⟨by decide, by decide⟩,
    acquire_release_handover sample_free_surface 5 1 2 (by decide) (by decide)⟩

end starboard.android.shared

namespace starboard.android.shared

open VideoSurfaceHolder

/-- C11: in every state in which a consumer `H` holds the surface, the
surface-destroyed notification (`nativeOnVideoSurfaceChanged` with a null
surface) first calls `H.OnSurfaceDestroyed()` and only then deletes the
surface reference and releases the native window (each when present).  It
ends with no holder, no surface and no window; there
`IsVideoSurfaceAvailable()` is false, `AcquireVideoSurface()` by any consumer
returns `NULL` and changes nothing, and `GetVideoWindowSize()` returns false. -/
theorem surface_destroyed_notifies_holder_first (env : JNIEnv) (g : Globals)
    (H C : VideoSurfaceHolder) (hh : g.g_video_surface_holder = some H) :
    (nativeOnVideoSurfaceChanged env none g).2 =
        SurfaceEffect.OnSurfaceDestroyed H ::
          ((g.g_j_video_surface.map SurfaceEffect.DeleteGlobalRef).toList ++
            (g.g_native_video_window.map SurfaceEffect.ANativeWindow_release).toList) ∧
      (nativeOnVideoSurfaceChanged env none g).1 =
        { g_j_video_surface := none, g_native_video_window := none,
          g_video_surface_holder := none,
          g_reset_surface_on_clear_window := g.g_reset_surface_on_clear_window } ∧
      IsVideoSurfaceAvailable (nativeOnVideoSurfaceChanged env none g).1 = false ∧
      AcquireVideoSurface C (nativeOnVideoSurfaceChanged env none g).1 =
        (none, (nativeOnVideoSurfaceChanged env none g).1) ∧
      GetVideoWindowSize env (nativeOnVideoSurfaceChanged env none g).1 = none := by
  obtain ⟨surface, window, holder, flag⟩ := g
  simp only at hh
  subst hh
  cases surface <;> cases window <;>
    simp [nativeOnVideoSurfaceChanged, IsVideoSurfaceAvailable, AcquireVideoSurface,
      GetVideoWindowSize, Option.toList]

/-- C11 at a concrete input: the sample held surface, holder 1, caller 2. -/
theorem surface_destroyed_notifies_holder_first_witness :
    sample_held_surface.g_video_surface_holder = some 1 ∧
    ((nativeOnVideoSurfaceChanged sample_jni none sample_held_surface).2 =
        SurfaceEffect.OnSurfaceDestroyed 1 ::
          ((sample_held_surface.g_j_video_surface.map SurfaceEffect.DeleteGlobalRef).toList ++
            (sample_held_surface.g_native_video_window.map
              SurfaceEffect.ANativeWindow_release).toList) ∧
      (nativeOnVideoSurfaceChanged sample_jni none sample_held_surface).1 =
        { g_j_video_surface := none, g_native_video_window := none,
          g_video_surface_holder := none,
          g_reset_surface_on_clear_window :=
            sample_held_surface.g_reset_surface_on_clear_window } ∧
      IsVideoSurfaceAvailable
        (nativeOnVideoSurfaceChanged sample_jni none sample_held_surface).1 = false ∧
      AcquireVideoSurface 2 (nativeOnVideoSurfaceChanged sample_jni none sample_held_surface).1 =
        (none, (nativeOnVideoSurfaceChanged sample_jni none sample_held_surface).1) ∧
      GetVideoWindowSize sample_jni
        (nativeOnVideoSurfaceChanged sample_jni none sample_held_surface).1 = none) :=
  ⟨by decide,
    surface_destroyed_notifies_holder_first sample_jni sample_held_surface 1 2 (by decide)⟩

end starboard.android.shared

/-! ## The renderer-side subscriber -/

namespace media

open base gfx StarboardRendererClient

/-- C12: for every client state and every presentation size,
`PaintVideoHoleFrame(size)` hands exactly one frame to the sink and leaves the
client unchanged.  The frame is the 1x1 black frame, not a hole frame, when
`size` has width 0 or height 0 (so for 0x0), and otherwise the hole frame
tagged with the client's overlay plane id whose natural size is `size`; its
natural size never has area 0.  The frame is the same whatever the rendering
mode is. -/
theorem PaintVideoHoleFrame_never_empty (s : StarboardRendererClient) (size : Size)
    (mode : StarboardRenderingMode) :
    (s.PaintVideoHoleFrame size).2 =
        [ClientEffect.VideoRendererSink_PaintSingleFrame
          (VideoOverlayFactory.CreateFrame s.overlay_plane_id size)] ∧
      (s.PaintVideoHoleFrame size).1 = s ∧
      VideoOverlayFactory.CreateFrame s.overlay_plane_id size =
        (if size.width = 0 ∨ size.height = 0 then
          VideoFrame.CreateBlackFrame { width := 1, height := 1 }
        else VideoFrame.CreateVideoHoleFrame s.overlay_plane_id size 0) ∧
      (VideoOverlayFactory.CreateFrame s.overlay_plane_id size).is_video_hole =
        (!decide (size.width = 0 ∨ size.height = 0)) ∧
      (VideoOverlayFactory.CreateFrame s.overlay_plane_id size).natural_size.GetArea ≠ 0 ∧
      VideoOverlayFactory.CreateFrame s.overlay_plane_id { width := 0, height := 0 } =
        VideoFrame.CreateBlackFrame { width := 1, height := 1 } ∧
      ({ s with rendering_mode_ := mode }.PaintVideoHoleFrame size).2 =
        (s.PaintVideoHoleFrame size).2 := by
  refine ⟨rfl, rfl, ?_, ?_, ?_, rfl, rfl⟩
  · by_cases hw : size.width = 0 <;> by_cases hh : size.height = 0 <;>
      simp [VideoOverlayFactory.CreateFrame, Size.IsEmpty, hw, hh]
  · by_cases hw : size.width = 0 <;> by_cases hh : size.height = 0 <;>
      simp [VideoOverlayFactory.CreateFrame, Size.IsEmpty, VideoFrame.is_video_hole, hw, hh]
  · by_cases hw : size.width = 0 <;> by_cases hh : size.height = 0 <;>
      simp [VideoOverlayFactory.CreateFrame, Size.IsEmpty, VideoFrame.natural_size,
        Size.GetArea, hw, hh]

/-- C13: for every client state, rect and transform, `OnVideoGeometryChange`
forwards exactly one integer rectangle to the renderer extension and leaves
the client unchanged.  The rectangle has `x = floor(left)`, `y = floor(top)`,
`width = ceil(right) - floor(left)`, `height = ceil(bottom) - floor(top)`; it
encloses the rect and lies inside every integer rectangle that encloses the
rect.  For integer edges it is `(left, top, right - left, bottom - top)`, so
edges (10,20,110,220) give (10,20,100,200).  The forwarded value is the same
for every transform. -/
theorem OnVideoGeometryChange_forwards_enclosing_rect (s : StarboardRendererClient)
    (rect_f : RectF) (transform other : OverlayTransform) (left top right bottom : Int) :
    s.OnVideoGeometryChange rect_f transform =
        (s, [ClientEffect.RendererExtension_OnVideoGeometryChange (ToEnclosingRect rect_f)]) ∧
      ToEnclosingRect rect_f =
        { x := Int.floor rect_f.x, y := Int.floor rect_f.y,
          width := Int.ceil (rect_f.x + rect_f.width) - Int.floor rect_f.x,
          height := Int.ceil (rect_f.y + rect_f.height) - Int.floor rect_f.y } ∧
      (((ToEnclosingRect rect_f).x : Rat) ≤ rect_f.x ∧
        ((ToEnclosingRect rect_f).y : Rat) ≤ rect_f.y ∧
        rect_f.right ≤ (((ToEnclosingRect rect_f).x + (ToEnclosingRect rect_f).width : Int) : Rat) ∧
        rect_f.bottom ≤
          (((ToEnclosingRect rect_f).y + (ToEnclosingRect rect_f).height : Int) : Rat)) ∧
      (∀ a b c d : Int, (a : Rat) ≤ rect_f.x → (b : Rat) ≤ rect_f.y →
        rect_f.right ≤ (c : Rat) → rect_f.bottom ≤ (d : Rat) →
        a ≤ (ToEnclosingRect rect_f).x ∧ b ≤ (ToEnclosingRect rect_f).y ∧
          (ToEnclosingRect rect_f).x + (ToEnclosingRect rect_f).width ≤ c ∧
          (ToEnclosingRect rect_f).y + (ToEnclosingRect rect_f).height ≤ d) ∧
      ToEnclosingRect
          { x := (left : Rat), y := (top : Rat), width := (right : Rat) - (left : Rat),
            height := (bottom : Rat) - (top : Rat) } =
        { x := left, y := top, width := right - left, height := bottom - top } ∧
      ToEnclosingRect { x := 10, y := 20, width := 110 - 10, height := 220 - 20 } =
        { x := 10, y := 20, width := 100, height := 200 } ∧
      s.OnVideoGeometryChange rect_f transform = s.OnVideoGeometryChange rect_f other := by
  have hint : ∀ l t r b : Int,
      ToEnclosingRect
          { x := (l : Rat), y := (t : Rat), width := (r : Rat) - (l : Rat),
            height := (b : Rat) - (t : Rat) } =
        { x := l, y := t, width := r - l, height := b - t } := by
    intro l t r b
    simp [ToEnclosingRect, RectF.right, RectF.bottom]
  refine ⟨rfl, rfl, ⟨?_, ?_, ?_, ?_⟩, ?_, hint left top right bottom, ?_, rfl⟩
  · exact Int.floor_le rect_f.x
  · exact Int.floor_le rect_f.y
  · simp only [ToEnclosingRect, add_sub_cancel]
    exact Int.le_ceil rect_f.right
  · simp only [ToEnclosingRect, add_sub_cancel]
    exact Int.le_ceil rect_f.bottom
  · intro a b c d ha hb hc hd
    simp only [ToEnclosingRect, add_sub_cancel]
    exact ⟨Int.le_floor.mpr ha, Int.le_floor.mpr hb, Int.ceil_le.mpr hc, Int.ceil_le.mpr hd⟩
  · have h := hint 10 20 110 220
    norm_num at h
    norm_num
    exact h

end media

namespace media

open base gfx StarboardRendererClient

theorem sink_replay_append (running : Bool) (e1 e2 : List ClientEffect) :
    sink_replay running (e1 ++ e2) =
      (sink_replay running e1).bind (fun r => sink_replay r e2) := by
  induction e1 generalizing running with
  | nil => simp [sink_replay]
  | cons e rest ih =>
    cases e <;> cases running <;> simp [sink_replay, ih]

/-- Every action, in every state, starts the sink only when it is stopped and
stops it only when it is running, and the flag follows the calls. -/
theorem exec_sink_replay (a : Action) (s : StarboardRendererClient) :
    sink_replay s.video_renderer_sink_started_ (a.exec s).2 =
      some (a.exec s).1.video_renderer_sink_started_ := by
  obtain ⟨id, mode, playing, started, cb, initialized, status, frame⟩ := s
  cases a with
  | StartPlayingFrom time =>
    cases mode <;> cases playing <;> cases started <;>
      simp [Action.exec, StartPlayingFrom, SetPlayingState, StartVideoRendererSink,
        StopVideoRendererSink, sink_replay]
  | OnError status =>
    cases mode <;> cases playing <;> cases started <;>
      simp [Action.exec, OnError, SetPlayingState, StartVideoRendererSink,
        StopVideoRendererSink, sink_replay]
  | OnFallback fallback =>
    cases mode <;> cases playing <;> cases started <;>
      simp [Action.exec, OnFallback, SetPlayingState, StartVideoRendererSink,
        StopVideoRendererSink, sink_replay]
  | OnEnded =>
    cases mode <;> cases playing <;> cases started <;>
      simp [Action.exec, OnEnded, SetPlayingState, StartVideoRendererSink,
        StopVideoRendererSink, sink_replay]
  | UpdateStarboardRenderingMode new_mode =>
    cases new_mode <;> cases playing <;> cases started <;> cases cb <;> cases initialized <;>
      simp [Action.exec, UpdateStarboardRenderingMode, StartVideoRendererSink,
        StopVideoRendererSink, sink_replay]

/-- Every action that reports a real mode keeps the loop in step with mode
and playback. -/
theorem exec_loop_matches_mode (a : Action) (s : StarboardRendererClient)
    (ha : a.reports_mode = true) (hs : loop_matches_mode s) :
    loop_matches_mode (a.exec s).1 := by
  obtain ⟨id, mode, playing, started, cb, initialized, status, frame⟩ := s
  simp only [loop_matches_mode] at hs
  cases a with
  | StartPlayingFrom time =>
    cases mode <;> cases playing <;> cases started <;>
      first
      | (simp at hs; done)
      | simp [loop_matches_mode, Action.exec, StartPlayingFrom, SetPlayingState,
          StartVideoRendererSink, StopVideoRendererSink]
  | OnError status =>
    cases mode <;> cases playing <;> cases started <;>
      first
      | (simp at hs; done)
      | simp [loop_matches_mode, Action.exec, OnError, SetPlayingState,
          StartVideoRendererSink, StopVideoRendererSink]
  | OnFallback fallback =>
    cases mode <;> cases playing <;> cases started <;>
      first
      | (simp at hs; done)
      | simp [loop_matches_mode, Action.exec, OnFallback, SetPlayingState,
          StartVideoRendererSink, StopVideoRendererSink]
  | OnEnded =>
    cases mode <;> cases playing <;> cases started <;>
      first
      | (simp at hs; done)
      | simp [loop_matches_mode, Action.exec, OnEnded, SetPlayingState,
          StartVideoRendererSink, StopVideoRendererSink]
  | UpdateStarboardRenderingMode new_mode =>
    cases new_mode with
    | kInvalid => simp [Action.reports_mode] at ha
    | kPunchOut =>
      cases mode <;> cases playing <;> cases started <;> cases cb <;> cases initialized <;>
        first
        | (simp at hs; done)
        | simp [loop_matches_mode, Action.exec, UpdateStarboardRenderingMode,
            StartVideoRendererSink, StopVideoRendererSink]
    | kDecodeToTexture =>
      cases mode <;> cases playing <;> cases started <;> cases cb <;> cases initialized <;>
        first
        | (simp at hs; done)
        | simp [loop_matches_mode, Action.exec, UpdateStarboardRenderingMode,
            StartVideoRendererSink, StopVideoRendererSink]

theorem run_actions_loop_matches_mode (actions : List Action) (s : StarboardRendererClient)
    (hact : ∀ a ∈ actions, a.reports_mode = true) (hs : loop_matches_mode s) :
    loop_matches_mode (run_actions actions s).1 := by
  induction actions generalizing s with
  | nil => exact hs
  | cons a rest ih =>
    simp only [run_actions]
    exact ih (a.exec s).1 (fun b hb => hact b (List.mem_cons_of_mem _ hb))
      (exec_loop_matches_mode a s (hact a (List.mem_cons_self _ _)) hs)

theorem run_actions_sink_replay (actions : List Action) (s : StarboardRendererClient) :
    sink_replay s.video_renderer_sink_started_ (run_actions actions s).2 =
      some (run_actions actions s).1.video_renderer_sink_started_ := by
  induction actions generalizing s with
  | nil => rfl
  | cons a rest ih =>
    simp only [run_actions]
    rw [sink_replay_append, exec_sink_replay a s]
    exact ih (a.exec s).1

theorem init_loop_matches_mode (id : UnguessableToken) :
    loop_matches_mode (StarboardRendererClient.init id) := by
  simp [loop_matches_mode, StarboardRendererClient.init]

/-- In a state where the loop is in step with mode and playback, entering
punch-out sets the mode, keeps the playing flag, leaves the loop stopped,
calls `Stop` exactly when the loop was running and `Start` never, and a
second entry changes nothing and calls neither. -/
theorem punch_out_of_loop_matches_mode (s : StarboardRendererClient)
    (hs : loop_matches_mode s) :
    (s.UpdateStarboardRenderingMode StarboardRenderingMode.kPunchOut).1.video_renderer_sink_started_ =
        false ∧
      (s.UpdateStarboardRenderingMode StarboardRenderingMode.kPunchOut).1.rendering_mode_ =
        StarboardRenderingMode.kPunchOut ∧
      (s.UpdateStarboardRenderingMode StarboardRenderingMode.kPunchOut).1.is_playing_ =
        s.is_playing_ ∧
      stop_calls (s.UpdateStarboardRenderingMode StarboardRenderingMode.kPunchOut).2 =
        (if s.video_renderer_sink_started_ = true then 1 else 0) ∧
      start_calls (s.UpdateStarboardRenderingMode StarboardRenderingMode.kPunchOut).2 = 0 ∧
      stop_calls
        ((s.UpdateStarboardRenderingMode
          StarboardRenderingMode.kPunchOut).1.UpdateStarboardRenderingMode
            StarboardRenderingMode.kPunchOut).2 = 0 ∧
      start_calls
        ((s.UpdateStarboardRenderingMode
          StarboardRenderingMode.kPunchOut).1.UpdateStarboardRenderingMode
            StarboardRenderingMode.kPunchOut).2 = 0 ∧
      ((s.UpdateStarboardRenderingMode
          StarboardRenderingMode.kPunchOut).1.UpdateStarboardRenderingMode
            StarboardRenderingMode.kPunchOut).1 =
        (s.UpdateStarboardRenderingMode StarboardRenderingMode.kPunchOut).1 := by
  obtain ⟨id, mode, playing, started, cb, initialized, status, frame⟩ := s
  simp only [loop_matches_mode] at hs
  cases mode <;> cases playing <;> cases started <;> cases cb <;> cases initialized <;>
    first
    | (simp at hs; done)
    | simp [UpdateStarboardRenderingMode, StopVideoRendererSink, stop_calls, start_calls]

/-- In a state where the loop is in step with mode and playback, entering
texture mode sets the mode, keeps the playing flag, leaves the loop running
exactly when playback is active, and calls `Start` exactly when playback is
active and the loop was stopped. -/
theorem texture_of_loop_matches_mode (s : StarboardRendererClient)
    (hs : loop_matches_mode s) :
    (s.UpdateStarboardRenderingMode
        StarboardRenderingMode.kDecodeToTexture).1.video_renderer_sink_started_ =
        s.is_playing_ ∧
      (s.UpdateStarboardRenderingMode StarboardRenderingMode.kDecodeToTexture).1.rendering_mode_ =
        StarboardRenderingMode.kDecodeToTexture ∧
      (s.UpdateStarboardRenderingMode StarboardRenderingMode.kDecodeToTexture).1.is_playing_ =
        s.is_playing_ ∧
      start_calls (s.UpdateStarboardRenderingMode StarboardRenderingMode.kDecodeToTexture).2 =
        (if s.is_playing_ = true ∧ s.video_renderer_sink_started_ = false then 1 else 0) ∧
      stop_calls (s.UpdateStarboardRenderingMode StarboardRenderingMode.kDecodeToTexture).2 =
        0 := by
  obtain ⟨id, mode, playing, started, cb, initialized, status, frame⟩ := s
  simp only [loop_matches_mode] at hs
  cases mode <;> cases playing <;> cases started <;> cases cb <;> cases initialized <;>
    first
    | (simp at hs; done)
    | simp [UpdateStarboardRenderingMode, StartVideoRendererSink, start_calls, stop_calls]

/-- In a state where the loop is in step with mode and playback,
`StartPlayingFrom` makes playback active and leaves the loop running exactly
in texture mode; `OnEnded`, `OnError` and `OnFallback` make playback inactive
and leave the loop stopped. -/
theorem playback_of_loop_matches_mode (s : StarboardRendererClient)
    (hs : loop_matches_mode s) (time : Int) (status : PipelineStatus) :
    ((s.StartPlayingFrom time).1.is_playing_ = true ∧
        (s.StartPlayingFrom time).1.video_renderer_sink_started_ =
          decide (s.rendering_mode_ = StarboardRenderingMode.kDecodeToTexture) ∧
        (s.StartPlayingFrom time).1.rendering_mode_ = s.rendering_mode_) ∧
      ((s.OnEnded).1.is_playing_ = false ∧ (s.OnEnded).1.video_renderer_sink_started_ = false ∧
        (s.OnEnded).1.rendering_mode_ = s.rendering_mode_) ∧
      ((s.OnError status).1.is_playing_ = false ∧
        (s.OnError status).1.video_renderer_sink_started_ = false ∧
        (s.OnError status).1.rendering_mode_ = s.rendering_mode_) ∧
      ((s.OnFallback status).1.is_playing_ = false ∧
        (s.OnFallback status).1.video_renderer_sink_started_ = false ∧
        (s.OnFallback status).1.rendering_mode_ = s.rendering_mode_) := by
  obtain ⟨id, mode, playing, started, cb, initialized, old_status, frame⟩ := s
  simp only [loop_matches_mode] at hs
  cases mode <;> cases playing <;> cases started <;>
    first
    | (simp at hs; done)
    | simp [StartPlayingFrom, OnEnded, OnError, OnFallback, SetPlayingState,
        StartVideoRendererSink, StopVideoRendererSink]

/-- C19: every state reached from the initial client by `StartPlayingFrom`,
`OnError`, `OnFallback`, `OnEnded` and mode updates to `kPunchOut` or
`kDecodeToTexture` has the frame-pull loop running exactly when the mode is
`kDecodeToTexture` and playback is active.  In every state `s` with that
property, `UpdateStarboardRenderingMode(kPunchOut)` sets the mode to
`kPunchOut`, keeps the playing flag, leaves the frame-pull loop not running,
and calls `VideoRendererSink::Stop` once if the loop was running before and
not at all otherwise (`Start` never); a second
`UpdateStarboardRenderingMode(kPunchOut)` calls `Stop` and `Start` zero times
and leaves the whole client state (mode, playing flag and loop flag included)
unchanged. -/
theorem punch_out_stops_loop_idempotent (s : StarboardRendererClient)
    (hs : loop_matches_mode s) :
    (∀ (id : UnguessableToken) (actions : List Action),
        (∀ a ∈ actions, a.reports_mode = true) →
          loop_matches_mode (run_actions actions (StarboardRendererClient.init id)).1) ∧
      (s.UpdateStarboardRenderingMode
        StarboardRenderingMode.kPunchOut).1.video_renderer_sink_started_ = false ∧
      (s.UpdateStarboardRenderingMode StarboardRenderingMode.kPunchOut).1.rendering_mode_ =
        StarboardRenderingMode.kPunchOut ∧
      (s.UpdateStarboardRenderingMode StarboardRenderingMode.kPunchOut).1.is_playing_ =
        s.is_playing_ ∧
      stop_calls (s.UpdateStarboardRenderingMode StarboardRenderingMode.kPunchOut).2 =
        (if s.video_renderer_sink_started_ = true then 1 else 0) ∧
      start_calls (s.UpdateStarboardRenderingMode StarboardRenderingMode.kPunchOut).2 = 0 ∧
      stop_calls
        ((s.UpdateStarboardRenderingMode
          StarboardRenderingMode.kPunchOut).1.UpdateStarboardRenderingMode
            StarboardRenderingMode.kPunchOut).2 = 0 ∧
      start_calls
        ((s.UpdateStarboardRenderingMode
          StarboardRenderingMode.kPunchOut).1.UpdateStarboardRenderingMode
            StarboardRenderingMode.kPunchOut).2 = 0 ∧
      ((s.UpdateStarboardRenderingMode
          StarboardRenderingMode.kPunchOut).1.UpdateStarboardRenderingMode
            StarboardRenderingMode.kPunchOut).1 =
        (s.UpdateStarboardRenderingMode StarboardRenderingMode.kPunchOut).1 :=
  ⟨fun id actions hact =>
      run_actions_loop_matches_mode actions _ hact (init_loop_matches_mode id),
    punch_out_of_loop_matches_mode s hs⟩

/-- C19 at a concrete input: the state reached by reporting texture mode and
starting playback, where the loop runs.  Entering punch-out calls `Stop` once
and nothing else on the sink and leaves the loop stopped in mode `kPunchOut`;
entering it again calls nothing. -/
theorem punch_out_stops_loop_idempotent_witness :
    loop_matches_mode (run_actions sample_playing_actions (StarboardRendererClient.init 7)).1 ∧
    (run_actions sample_playing_actions
      (StarboardRendererClient.init 7)).1.video_renderer_sink_started_ = true ∧
    ((run_actions sample_playing_actions
      (StarboardRendererClient.init 7)).1.UpdateStarboardRenderingMode
        StarboardRenderingMode.kPunchOut).2 = [ClientEffect.VideoRendererSink_Stop] ∧
    (((run_actions sample_playing_actions
      (StarboardRendererClient.init 7)).1.UpdateStarboardRenderingMode
        StarboardRenderingMode.kPunchOut).1.UpdateStarboardRenderingMode
          StarboardRenderingMode.kPunchOut).2 = [] ∧
    ((run_actions sample_playing_actions
      (StarboardRendererClient.init 7)).1.UpdateStarboardRenderingMode
        StarboardRenderingMode.kPunchOut).1.video_renderer_sink_started_ = false ∧
    ((run_actions sample_playing_actions
      (StarboardRendererClient.init 7)).1.UpdateStarboardRenderingMode
        StarboardRenderingMode.kPunchOut).1.rendering_mode_ =
      StarboardRenderingMode.kPunchOut ∧
    stop_calls ((run_actions sample_playing_actions
      (StarboardRendererClient.init 7)).1.UpdateStarboardRenderingMode
        StarboardRenderingMode.kPunchOut).2 = 1 :=
  ⟨by decide, by decide, by decide, by decide,
    (punch_out_stops_loop_idempotent
      (run_actions sample_playing_actions (StarboardRendererClient.init 7)).1 (by decide)).2.1,
    (punch_out_stops_loop_idempotent
      (run_actions sample_playing_actions (StarboardRendererClient.init 7)).1 (by decide)).2.2.1,
    (punch_out_stops_loop_idempotent
      (run_actions sample_playing_actions
        (StarboardRendererClient.init 7)).1 (by decide)).2.2.2.2.1.trans (by decide)⟩

/-- C20: in every state reached from the initial client (mode `kInvalid`, not
playing, loop not running) by `StartPlayingFrom`, `OnError`, `OnFallback`,
`OnEnded` and mode updates to `kPunchOut` or `kDecodeToTexture`, the
frame-pull loop runs if and only if the mode is `kDecodeToTexture` and
playback is active.  The `Start` and `Stop` calls made on the sink along the
way alternate, beginning with `Start`, and end with the loop flag.  Entering
`kDecodeToTexture` from such a state sets the mode, keeps the playing flag and
leaves the loop running exactly when playback is active, calling `Start`
exactly when it is active and the loop was stopped, and `Stop` never.  From
such a state `StartPlayingFrom` makes playback active and leaves the loop
running exactly in texture mode, and `OnEnded`, `OnError` and `OnFallback`
make playback inactive and leave the loop stopped. -/
theorem loop_runs_iff_texture_and_playing (id : UnguessableToken) (actions : List Action)
    (hact : ∀ a ∈ actions, a.reports_mode = true) :
    ((run_actions actions (StarboardRendererClient.init id)).1.video_renderer_sink_started_ =
          true ↔
        (run_actions actions (StarboardRendererClient.init id)).1.rendering_mode_ =
            StarboardRenderingMode.kDecodeToTexture ∧
          (run_actions actions (StarboardRendererClient.init id)).1.is_playing_ = true) ∧
      sink_replay false (run_actions actions (StarboardRendererClient.init id)).2 =
        some (run_actions actions
          (StarboardRendererClient.init id)).1.video_renderer_sink_started_ ∧
      (((run_actions actions (StarboardRendererClient.init id)).1.UpdateStarboardRenderingMode
          StarboardRenderingMode.kDecodeToTexture).1.video_renderer_sink_started_ =
          (run_actions actions (StarboardRendererClient.init id)).1.is_playing_ ∧
        ((run_actions actions (StarboardRendererClient.init id)).1.UpdateStarboardRenderingMode
          StarboardRenderingMode.kDecodeToTexture).1.rendering_mode_ =
          StarboardRenderingMode.kDecodeToTexture ∧
        ((run_actions actions (StarboardRendererClient.init id)).1.UpdateStarboardRenderingMode
          StarboardRenderingMode.kDecodeToTexture).1.is_playing_ =
          (run_actions actions (StarboardRendererClient.init id)).1.is_playing_ ∧
        start_calls
          ((run_actions actions (StarboardRendererClient.init id)).1.UpdateStarboardRenderingMode
            StarboardRenderingMode.kDecodeToTexture).2 =
          (if (run_actions actions (StarboardRendererClient.init id)).1.is_playing_ = true ∧
              (run_actions actions
                (StarboardRendererClient.init id)).1.video_renderer_sink_started_ = false
            then 1 else 0) ∧
        stop_calls
          ((run_actions actions (StarboardRendererClient.init id)).1.UpdateStarboardRenderingMode
            StarboardRenderingMode.kDecodeToTexture).2 = 0) ∧
      (∀ time : Int,
        ((run_actions actions (StarboardRendererClient.init id)).1.StartPlayingFrom
            time).1.is_playing_ = true ∧
          ((run_actions actions (StarboardRendererClient.init id)).1.StartPlayingFrom
            time).1.video_renderer_sink_started_ =
            decide ((run_actions actions (StarboardRendererClient.init id)).1.rendering_mode_ =
              StarboardRenderingMode.kDecodeToTexture)) ∧
      ((run_actions actions (StarboardRendererClient.init id)).1.OnEnded.1.is_playing_ = false ∧
        (run_actions actions
          (StarboardRendererClient.init id)).1.OnEnded.1.video_renderer_sink_started_ = false) ∧
      (∀ status : PipelineStatus,
        ((run_actions actions (StarboardRendererClient.init id)).1.OnError
            status).1.is_playing_ = false ∧
          ((run_actions actions (StarboardRendererClient.init id)).1.OnError
            status).1.video_renderer_sink_started_ = false ∧
          ((run_actions actions (StarboardRendererClient.init id)).1.OnFallback
            status).1.is_playing_ = false ∧
          ((run_actions actions (StarboardRendererClient.init id)).1.OnFallback
            status).1.video_renderer_sink_started_ = false) := by
  have hinv := run_actions_loop_matches_mode actions _ hact (init_loop_matches_mode id)
  refine ⟨?_, run_actions_sink_replay actions (StarboardRendererClient.init id),
    texture_of_loop_matches_mode _ hinv, ?_, ?_, ?_⟩
  · have h : (run_actions actions (StarboardRendererClient.init id)).1.video_renderer_sink_started_ =
        (decide ((run_actions actions (StarboardRendererClient.init id)).1.rendering_mode_ =
            StarboardRenderingMode.kDecodeToTexture) &&
          (run_actions actions (StarboardRendererClient.init id)).1.is_playing_) := hinv
    rw [h]
    simp
  · intro time
    have h := (playback_of_loop_matches_mode _ hinv time 0).1
    exact ⟨h.1, h.2.1⟩
  · have h := (playback_of_loop_matches_mode _ hinv 0 0).2.1
    exact ⟨h.1, h.2.1⟩
  · intro status
    have h := (playback_of_loop_matches_mode _ hinv 0 status).2.2
    exact ⟨h.1.1, h.1.2.1, h.2.1, h.2.2.1⟩

/-- C20 at a concrete input: texture mode is reported and playback starts
from the initial client of plane 7.  The loop then runs, in mode
`kDecodeToTexture` with playback active, after exactly one `Start` call on
the sink; `OnEnded` from there stops it. -/
theorem loop_runs_iff_texture_and_playing_witness :
    (∀ a ∈ sample_playing_actions, a.reports_mode = true) ∧
    (run_actions sample_playing_actions
      (StarboardRendererClient.init 7)).1.video_renderer_sink_started_ = true ∧
    (run_actions sample_playing_actions (StarboardRendererClient.init 7)).1.rendering_mode_ =
      StarboardRenderingMode.kDecodeToTexture ∧
    (run_actions sample_playing_actions (StarboardRendererClient.init 7)).1.is_playing_ = true ∧
    (run_actions sample_playing_actions (StarboardRendererClient.init 7)).2 =
      [ClientEffect.LogWarning, ClientEffect.VideoRendererSink_Start,
       ClientEffect.MojoRendererWrapper_StartPlayingFrom 0] ∧
    sink_replay false (run_actions sample_playing_actions (StarboardRendererClient.init 7)).2 =
      some true ∧
    ((run_actions sample_playing_actions
      (StarboardRendererClient.init 7)).1.OnEnded.1.is_playing_ = false ∧
      (run_actions sample_playing_actions
        (StarboardRendererClient.init 7)).1.OnEnded.1.video_renderer_sink_started_ = false) :=
  ⟨by decide, by decide, by decide, by decide, by decide,
    (loop_runs_iff_texture_and_playing 7 sample_playing_actions (by decide)).2.1.trans
      (by decide),
    (loop_runs_iff_texture_and_playing 7 sample_playing_actions (by decide)).2.2.2.2.1⟩

end media

/-! ## The compositor overlay strategy -/

namespace viz

open base gfx mojo OverlayStrategyUnderlayStarboard

/-- One round of the loop of `Propose`: the iterator is overwritten exactly at
an eligible quad. -/
theorem Propose_scan_cons (env : Collaborators) (quad : DrawQuad) (rest : List DrawQuad)
    (position : Nat) (candidate : OverlayCandidate) (overlay_iter : Option Nat) :
    ∃ next : OverlayCandidate,
      Propose_scan env (quad :: rest) position (candidate, overlay_iter) =
        Propose_scan env rest (position + 1)
          (next, if env.eligible quad = true then some position else overlay_iter) := by
  by_cases hv : env.IsInvisibleQuad quad = true
  · exact ⟨candidate, by simp [Propose_scan, Collaborators.eligible, hv]⟩
  · by_cases hm : quad.material = Material.kVideoHole
    · by_cases hs : env.FromDrawQuad_status quad = CandidateStatus.kSuccess
      · exact ⟨env.FromDrawQuad_candidate quad candidate,
          by simp [Propose_scan, Collaborators.eligible, Collaborators.accepts_hole, hv, hm, hs]⟩
      · exact ⟨env.FromDrawQuad_candidate quad candidate,
          by simp [Propose_scan, Collaborators.eligible, Collaborators.accepts_hole, hv, hm, hs]⟩
    · exact ⟨candidate,
        by simp [Propose_scan, Collaborators.eligible, Collaborators.accepts_hole, hv, hm]⟩

/-- The loop of `Propose` ends at `end()` exactly when it started there and
met no eligible quad. -/
theorem Propose_scan_none (env : Collaborators) (quad_list : List DrawQuad) (position : Nat)
    (candidate : OverlayCandidate) (overlay_iter : Option Nat) :
    (Propose_scan env quad_list position (candidate, overlay_iter)).2 = none ↔
      overlay_iter = none ∧ ∀ quad ∈ quad_list, env.eligible quad = false := by
  induction quad_list generalizing position candidate overlay_iter with
  | nil => simp [Propose_scan]
  | cons quad rest ih =>
    obtain ⟨next, hnext⟩ := Propose_scan_cons env quad rest position candidate overlay_iter
    rw [hnext, ih]
    by_cases he : env.eligible quad = true
    · simp [he]
    · simp [he]

/-- Where the loop of `Propose` ends: at the iterator it started with when it
met no eligible quad, otherwise at the last eligible quad. -/
theorem Propose_scan_some (env : Collaborators) (quad_list : List DrawQuad) (position : Nat)
    (candidate : OverlayCandidate) (overlay_iter : Option Nat) (k : Nat)
    (h : (Propose_scan env quad_list position (candidate, overlay_iter)).2 = some k) :
    (overlay_iter = some k ∧ ∀ quad ∈ quad_list, env.eligible quad = false) ∨
      ∃ pre quad post, quad_list = pre ++ quad :: post ∧ k = position + pre.length ∧
        env.eligible quad = true ∧ ∀ later ∈ post, env.eligible later = false := by
  induction quad_list generalizing position candidate overlay_iter with
  | nil => exact Or.inl ⟨by simpa [Propose_scan] using h, by simp⟩
  | cons quad rest ih =>
    obtain ⟨next, hnext⟩ := Propose_scan_cons env quad rest position candidate overlay_iter
    rw [hnext] at h
    rcases ih (position + 1) next _ h with ⟨hiter, hnone⟩ | ⟨pre, q, post, hlist, hk, hq, hpost⟩
    · by_cases he : env.eligible quad = true
      · right
        rw [if_pos he] at hiter
        refine ⟨[], quad, rest, rfl, ?_, he, hnone⟩
        simpa using (Option.some.inj hiter).symm
      · left
        rw [if_neg he] at hiter
        refine ⟨hiter, ?_⟩
        intro q hq
        rcases List.mem_cons.mp hq with rfl | hq
        · simpa using he
        · exact hnone q hq
    · right
      refine ⟨quad :: pre, q, post, by simp [hlist], ?_, hq, hpost⟩
      simp only [List.length_cons]
      omega

/-- C14: for every quad list (and whatever the collaborators do), `Propose`
leaves the quad list as it is and appends at most one candidate to
`candidates`.  It appends one if and only if some quad of the list is
visible, has material `kVideoHole` and is accepted by the candidate factory;
the appended candidate then points at the last such quad in list order: an
eligible quad that no eligible quad follows. -/
theorem Propose_picks_last_eligible (env : Collaborators) (quad_list : List DrawQuad)
    (candidates : List OverlayProposedCandidate) :
    (Propose env quad_list candidates).1 = quad_list ∧
      (Propose env quad_list candidates).2 = candidates ++ (Propose env quad_list []).2 ∧
      (Propose env quad_list []).2.length ≤ 1 ∧
      ((Propose env quad_list []).2.length = 1 ↔
        ∃ quad ∈ quad_list, env.eligible quad = true) ∧
      (∀ proposed ∈ (Propose env quad_list []).2,
        ∃ pre quad post, quad_list = pre ++ quad :: post ∧
          proposed.quad_iter = pre.length ∧ env.eligible quad = true ∧
          ∀ later ∈ post, env.eligible later = false) := by
  cases hscan : Propose_scan env quad_list 0 (OverlayCandidate.default, none) with
  | mk candidate overlay_iter =>
    have hsnd : (Propose_scan env quad_list 0 (OverlayCandidate.default, none)).2 =
        overlay_iter := by rw [hscan]
    cases overlay_iter with
    | none =>
      have hnone := (Propose_scan_none env quad_list 0 OverlayCandidate.default none).mp hsnd
      refine ⟨by simp [Propose, hscan], by simp [Propose, hscan], by simp [Propose, hscan],
        ?_, by simp [Propose, hscan]⟩
      simp only [Propose, hscan, List.length_nil]
      constructor
      · intro h; omega
      · rintro ⟨quad, hmem, he⟩
        rw [hnone.2 quad hmem] at he
        exact absurd he (by decide)
    | some k =>
      rcases Propose_scan_some env quad_list 0 OverlayCandidate.default none k hsnd with
        ⟨hiter, _⟩ | ⟨pre, quad, post, hlist, hk, hq, hpost⟩
      · exact absurd hiter (by simp)
      · refine ⟨by simp [Propose, hscan], by simp [Propose, hscan], by simp [Propose, hscan],
          ?_, ?_⟩
        · simp only [Propose, hscan, List.nil_append, List.length_singleton, true_iff]
          exact ⟨quad, by simp [hlist], hq⟩
        · intro proposed hmem
          simp only [Propose, hscan, List.nil_append, List.mem_singleton] at hmem
          refine ⟨pre, quad, post, hlist, ?_, hq, hpost⟩
          rw [hmem]
          simpa using hk

theorem getElem?_at_prefix_length (pre : List DrawQuad) (quad : DrawQuad)
    (post : List DrawQuad) : (pre ++ quad :: post)[pre.length]? = some quad := by
  induction pre with
  | nil => simp
  | cons a rest ih => simpa using ih

theorem getElem?_past_prefix (pre : List DrawQuad) : (pre ++ [])[pre.length]? = none := by
  simp

theorem set_at_prefix_length (pre : List DrawQuad) (quad new_quad : DrawQuad)
    (post : List DrawQuad) :
    (pre ++ quad :: post).set pre.length new_quad = pre ++ new_quad :: post := by
  induction pre with
  | nil => rfl
  | cons a rest ih => simp

/-- A commit at a hole quad, with the setter bound and an overlay transform
in the candidate: the quad becomes its placeholder and one message is sent. -/
theorem CommitCandidate_at (pipe : MessagePipe) (candidate : OverlayCandidate)
    (pre : List DrawQuad) (quad : DrawQuad) (post : List DrawQuad)
    (overlay_plane_id : UnguessableToken) (transform : OverlayTransform)
    (hk : quad.kind = QuadKind.VideoHoleDrawQuad overlay_plane_id)
    (ht : candidate.transform = CandidateTransform.overlay_transform transform) :
    CommitCandidate (some pipe) { quad_iter := pre.length, candidate := candidate }
        (pre ++ quad :: post) =
      some (pre ++ placeholder candidate quad :: post,
        [StrategyEffect.SetVideoGeometry candidate.display_rect transform overlay_plane_id]) := by
  unfold CommitCandidate ReplaceExistingQuadWithSolidColor
  simp only [getElem?_at_prefix_length, set_at_prefix_length]
  cases hm : candidate.has_mask_filter <;> simp [hk, ht, placeholder, hm]

/-- The commit loop, started behind `pre`, replaces every accepted hole quad of
`post` and sends one message for each, in list order. -/
theorem Attempt_commit_from (env : Collaborators) (pipe : MessagePipe)
    (post pre : List DrawQuad) (remaining : Nat) (hlen : post.length ≤ remaining)
    (ht : env.gives_overlay_transforms post = true) :
    Attempt_commit env (some pipe) remaining pre.length (pre ++ post) =
      some (pre ++ post.map env.committed, env.messages post) := by
  induction post generalizing pre remaining with
  | nil =>
    cases remaining with
    | zero => simp [Attempt_commit, Collaborators.messages]
    | succ n => simp [Attempt_commit, Collaborators.messages]
  | cons quad rest ih =>
    cases remaining with
    | zero => simp at hlen
    | succ n =>
      have hrest : rest.length ≤ n := by simpa using hlen
      have htq : (!env.accepts_hole quad ||
          (env.FromDrawQuad_candidate quad OverlayCandidate.default).transform.is_overlay) =
            true ∧ env.gives_overlay_transforms rest = true := by
        simpa [Collaborators.gives_overlay_transforms] using ht
      have hstep := ih (pre ++ [quad]) n hrest htq.2
      simp only [List.length_append, List.length_singleton, List.append_assoc,
        List.singleton_append] at hstep
      by_cases ha : env.accepts_hole quad = true
      · have hmat : quad.material = Material.kVideoHole := by
          simp only [Collaborators.accepts_hole, Bool.and_eq_true, decide_eq_true_eq] at ha
          exact ha.1
        obtain ⟨shared, rect, visible, blending, kind⟩ := quad
        cases kind with
        | SolidColorDrawQuad color => simp [DrawQuad.material] at hmat
        | OtherDrawQuad code => simp [DrawQuad.material] at hmat
        | VideoHoleDrawQuad overlay_plane_id =>
          have hov := htq.1
          rw [ha] at hov
          simp only [Bool.not_true, Bool.false_or] at hov
          cases htr : (env.FromDrawQuad_candidate
              { shared_quad_state := shared, rect := rect, visible_rect := visible,
                needs_blending := blending,
                kind := QuadKind.VideoHoleDrawQuad overlay_plane_id }
              OverlayCandidate.default).transform with
          | matrix_transform m => simp [htr, CandidateTransform.is_overlay] at hov
          | overlay_transform transform =>
            have hcommit := CommitCandidate_at pipe
              (env.FromDrawQuad_candidate
                { shared_quad_state := shared, rect := rect, visible_rect := visible,
                  needs_blending := blending,
                  kind := QuadKind.VideoHoleDrawQuad overlay_plane_id }
                OverlayCandidate.default)
              pre
              { shared_quad_state := shared, rect := rect, visible_rect := visible,
                needs_blending := blending,
                kind := QuadKind.VideoHoleDrawQuad overlay_plane_id }
              rest overlay_plane_id transform rfl htr
            have hnext := ih
              (pre ++ [placeholder
                (env.FromDrawQuad_candidate
                  { shared_quad_state := shared, rect := rect, visible_rect := visible,
                    needs_blending := blending,
                    kind := QuadKind.VideoHoleDrawQuad overlay_plane_id }
                  OverlayCandidate.default)
                { shared_quad_state := shared, rect := rect, visible_rect := visible,
                  needs_blending := blending,
                  kind := QuadKind.VideoHoleDrawQuad overlay_plane_id }]) n hrest htq.2
            simp only [List.length_append, List.length_singleton, List.append_assoc,
              List.singleton_append] at hnext
            simp only [Attempt_commit, getElem?_at_prefix_length, ha, Bool.not_true,
              Bool.false_eq_true, if_false, hcommit, hnext, List.map_cons,
              Collaborators.committed, if_true, Collaborators.messages,
              Collaborators.message, htr]
      · simp only [Attempt_commit, getElem?_at_prefix_length, ha, Bool.not_false, if_true,
          hstep, List.map_cons, Collaborators.committed, Collaborators.messages,
          Collaborators.message, Bool.false_eq_true, if_false, List.nil_append]

/-- The commit loop over the whole quad list. -/
theorem Attempt_commit_all (env : Collaborators) (pipe : MessagePipe)
    (quad_list : List DrawQuad) (ht : env.gives_overlay_transforms quad_list = true) :
    Attempt_commit env (some pipe) quad_list.length 0 quad_list =
      some (quad_list.map env.committed, env.messages quad_list) := by
  have h := Attempt_commit_from env pipe quad_list [] quad_list.length (Nat.le_refl _) ht
  simpa using h

/-- One step of the reverse loop finds an underlay exactly at an eligible quad. -/
theorem Attempt_step_found (env : Collaborators) (state : Bool × Rect) (quad : DrawQuad) :
    (Attempt_step env state quad).1 = (state.1 || env.eligible quad) := by
  obtain ⟨found, content_rect⟩ := state
  cases found <;> cases hv : env.IsInvisibleQuad quad <;> cases ha : env.accepts_hole quad <;>
    by_cases hb : quad.kind = QuadKind.SolidColorDrawQuad SkColors.kBlack <;>
    simp [Attempt_step, Collaborators.eligible, hv, ha, hb]

theorem Attempt_foldl_found (env : Collaborators) (quads : List DrawQuad)
    (state : Bool × Rect) :
    (quads.foldl (Attempt_step env) state).1 = (state.1 || quads.any env.eligible) := by
  induction quads generalizing state with
  | nil => simp
  | cons quad rest ih =>
    simp only [List.foldl_cons, List.any_cons]
    rw [ih, Attempt_step_found, Bool.or_assoc]

/-- The reverse loop of `Attempt` finds an underlay exactly when the list
holds an eligible quad. -/
theorem Attempt_walk_found (env : Collaborators) (quad_list : List DrawQuad) :
    (Attempt_walk env quad_list).1 = quad_list.any env.eligible := by
  simp only [Attempt_walk, Attempt_foldl_found, Bool.false_or]
  rw [Bool.eq_iff_iff]
  simp [List.any_eq_true]

/-- While no underlay is found, the reverse loop skips a black solid quad. -/
theorem Attempt_step_black (env : Collaborators) (content_rect : Rect) (quad : DrawQuad)
    (hq : quad.kind = QuadKind.SolidColorDrawQuad SkColors.kBlack) :
    Attempt_step env (false, content_rect) quad = (false, content_rect) := by
  have hm : quad.material ≠ Material.kVideoHole := by simp [DrawQuad.material, hq]
  cases hv : env.IsInvisibleQuad quad <;>
    simp [Attempt_step, Collaborators.accepts_hole, hv, hm, hq]

theorem messages_no_transition_log (env : Collaborators) (quads : List DrawQuad) :
    transition_logs (env.messages quads) = 0 := by
  induction quads with
  | nil => rfl
  | cons quad rest ih =>
    simp only [Collaborators.messages, Collaborators.message]
    split
    · split <;> simp [transition_logs, ih]
    · simpa using ih

theorem messages_count (env : Collaborators) (quads : List DrawQuad)
    (ht : env.gives_overlay_transforms quads = true) :
    SetVideoGeometry_calls (env.messages quads) = (quads.filter env.accepts_hole).length := by
  induction quads with
  | nil => rfl
  | cons quad rest ih =>
    have htq : (!env.accepts_hole quad ||
        (env.FromDrawQuad_candidate quad OverlayCandidate.default).transform.is_overlay) =
          true ∧ env.gives_overlay_transforms rest = true := by
      simpa [Collaborators.gives_overlay_transforms] using ht
    by_cases ha : env.accepts_hole quad = true
    · have hmat : quad.material = Material.kVideoHole := by
        simp only [Collaborators.accepts_hole, Bool.and_eq_true, decide_eq_true_eq] at ha
        exact ha.1
      have hov := htq.1
      rw [ha] at hov
      simp only [Bool.not_true, Bool.false_or] at hov
      cases hk : quad.kind with
      | SolidColorDrawQuad color => simp [DrawQuad.material, hk] at hmat
      | OtherDrawQuad code => simp [DrawQuad.material, hk] at hmat
      | VideoHoleDrawQuad overlay_plane_id =>
        cases htr : (env.FromDrawQuad_candidate quad OverlayCandidate.default).transform with
        | matrix_transform m => simp [htr, CandidateTransform.is_overlay] at hov
        | overlay_transform transform =>
          simp [Collaborators.messages, Collaborators.message, ha, hk, htr,
            SetVideoGeometry_calls, ih htq.2, Nat.add_comm]
    · simp [Collaborators.messages, Collaborators.message, ha, ih htq.2]

/-- With the setter bound and overlay transforms in the candidates, `Attempt`
returns, in closed form. -/
theorem Attempt_eq (env : Collaborators) (pipe : MessagePipe)
    (this : OverlayStrategyUnderlayStarboard) (quad_list : List DrawQuad)
    (content_bounds : List Rect) (proposed_candidate : OverlayProposedCandidate)
    (ht : env.gives_overlay_transforms quad_list = true) :
    Attempt env (some pipe) this quad_list content_bounds proposed_candidate =
      some
        { returned := quad_list.any env.eligible,
          strategy := { is_using_overlay_ := quad_list.any env.eligible },
          quad_list :=
            if quad_list.any env.eligible = true then quad_list.map env.committed
            else quad_list,
          content_bounds :=
            if quad_list.any env.eligible = true then
              content_bounds ++ [(Attempt_walk env quad_list).2]
            else content_bounds,
          effects :=
            (if this.is_using_overlay_ = quad_list.any env.eligible then []
              else [StrategyEffect.LogOverlayTransition (quad_list.any env.eligible)]) ++
            (if quad_list.any env.eligible = true then env.messages quad_list else []) } := by
  unfold Attempt
  simp only [Attempt_walk_found]
  cases hf : quad_list.any env.eligible
  · cases hu : this.is_using_overlay_ <;> simp [hu]
  · simp only [if_true, Attempt_commit_all env pipe quad_list ht]
    cases hu : this.is_using_overlay_ <;> simp [hu]

/-- C15, as stated, fails: on the sample frame, which holds the two eligible
hole quads of planes 7 and 8, `Attempt` sends two `SetVideoGeometry` messages
and replaces both hole quads, the one of plane 7 included although the hole of
plane 8 is the last eligible quad. -/
theorem Attempt_commits_both_holes :
    Attempt sample_collaborators (some 3) { is_using_overlay_ := false } sample_quad_list []
        { quad_iter := 3, candidate := OverlayCandidate.default } =
      some
        { returned := true,
          strategy := { is_using_overlay_ := true },
          quad_list :=
            [sample_quad (QuadKind.SolidColorDrawQuad SkColors.kBlack)
                { x := 0, y := 0, width := 1920, height := 1080 },
             sample_quad (QuadKind.SolidColorDrawQuad SkColors.kTransparent)
                { x := 10, y := 20, width := 100, height := 200 },
             sample_quad (QuadKind.SolidColorDrawQuad { fR := 1, fG := 0, fB := 0, fA := 1 })
                { x := 0, y := 0, width := 50, height := 50 },
             sample_quad (QuadKind.SolidColorDrawQuad SkColors.kTransparent)
                { x := 500, y := 20, width := 100, height := 200 }],
          content_bounds := [{ x := 0, y := 0, width := 1920, height := 1080 }],
          effects :=
            [StrategyEffect.LogOverlayTransition true,
             StrategyEffect.SetVideoGeometry { x := 10, y := 20, width := 100, height := 200 }
               OverlayTransform.OVERLAY_TRANSFORM_NONE 7,
             StrategyEffect.SetVideoGeometry { x := 500, y := 20, width := 100, height := 200 }
               OverlayTransform.OVERLAY_TRANSFORM_NONE 8] } ∧
      SetVideoGeometry_calls
        [StrategyEffect.LogOverlayTransition true,
         StrategyEffect.SetVideoGeometry { x := 10, y := 20, width := 100, height := 200 }
           OverlayTransform.OVERLAY_TRANSFORM_NONE 7,
         StrategyEffect.SetVideoGeometry { x := 500, y := 20, width := 100, height := 200 }
           OverlayTransform.OVERLAY_TRANSFORM_NONE 8] = 2 ∧
      (Propose sample_collaborators sample_quad_list []).2 =
        [{ quad_iter := 3,
           candidate :=
            { display_rect := { x := 500, y := 20, width := 100, height := 200 },
              transform :=
                CandidateTransform.overlay_transform OverlayTransform.OVERLAY_TRANSFORM_NONE,
              has_mask_filter := false } }] := by
  decide

/-- C15, amended: for every quad list in which an eligible hole quad is found
(the setter bound, the candidates carrying overlay transforms), `Attempt`
returns and commits every `kVideoHole` quad that the candidate factory
accepts, visible or not, in list order: it sends one `SetVideoGeometry` per
such quad and replaces each of them in place by its placeholder, so exactly
one message and one replacement when the list holds exactly one such quad.
Every quad that is not an accepted hole quad is left as it is, and the list
keeps its length. -/
theorem Attempt_commits_every_accepted_hole (env : Collaborators) (pipe : MessagePipe)
    (this : OverlayStrategyUnderlayStarboard) (quad_list : List DrawQuad)
    (proposed_candidate : OverlayProposedCandidate)
    (hfound : ∃ quad ∈ quad_list, env.eligible quad = true)
    (ht : env.gives_overlay_transforms quad_list = true) :
    ∃ result, Attempt env (some pipe) this quad_list [] proposed_candidate = some result ∧
      result.returned = true ∧
      result.quad_list = quad_list.map env.committed ∧
      result.quad_list.length = quad_list.length ∧
      result.effects =
        (if this.is_using_overlay_ = true then []
          else [StrategyEffect.LogOverlayTransition true]) ++ env.messages quad_list ∧
      SetVideoGeometry_calls result.effects = (quad_list.filter env.accepts_hole).length ∧
      (∀ quad, env.accepts_hole quad = true →
        env.committed quad =
          placeholder (env.FromDrawQuad_candidate quad OverlayCandidate.default) quad) ∧
      (∀ quad, env.accepts_hole quad = false → env.committed quad = quad) := by
  have hany : quad_list.any env.eligible = true := by
    simpa [List.any_eq_true] using hfound
  refine ⟨_, Attempt_eq env pipe this quad_list [] proposed_candidate ht, ?_⟩
  simp only [hany, if_true]
  refine ⟨trivial, trivial, by simp, trivial, ?_, ?_, ?_⟩
  · cases hu : this.is_using_overlay_
    · simp [SetVideoGeometry_calls, messages_count env quad_list ht]
    · simp [messages_count env quad_list ht]
  · intro quad ha
    simp [Collaborators.committed, ha]
  · intro quad ha
    simp [Collaborators.committed, ha]

/-- C15, amended, at a concrete input: the sample frame, two accepted holes. -/
theorem Attempt_commits_every_accepted_hole_witness :
    ((∃ quad ∈ sample_quad_list, sample_collaborators.eligible quad = true) ∧
      sample_collaborators.gives_overlay_transforms sample_quad_list = true) ∧
    ∃ result,
      Attempt sample_collaborators (some 3) { is_using_overlay_ := false } sample_quad_list []
          { quad_iter := 3, candidate := OverlayCandidate.default } = some result ∧
      result.returned = true ∧
      result.quad_list = sample_quad_list.map sample_collaborators.committed ∧
      result.quad_list.length = sample_quad_list.length ∧
      result.effects =
        (if ({ is_using_overlay_ := false } : OverlayStrategyUnderlayStarboard).is_using_overlay_ =
            true then []
          else [StrategyEffect.LogOverlayTransition true]) ++
          sample_collaborators.messages sample_quad_list ∧
      SetVideoGeometry_calls result.effects =
        (sample_quad_list.filter sample_collaborators.accepts_hole).length ∧
      (∀ quad, sample_collaborators.accepts_hole quad = true →
        sample_collaborators.committed quad =
          placeholder
            (sample_collaborators.FromDrawQuad_candidate quad OverlayCandidate.default) quad) ∧
      (∀ quad, sample_collaborators.accepts_hole quad = false →
        sample_collaborators.committed quad = quad) :=
  ⟨⟨by decide, by decide⟩,
    Attempt_commits_every_accepted_hole sample_collaborators 3 { is_using_overlay_ := false }
      sample_quad_list { quad_iter := 3, candidate := OverlayCandidate.default }
      (by decide) (by decide)⟩

/-- C16: for every quad list and every prior strategy state (the setter
bound, the candidates carrying overlay transforms, `content_bounds` empty on
entry), `Attempt` returns, and it returns true if and only if the list holds a
visible `kVideoHole` quad accepted by the candidate factory.  Afterwards
`is_using_overlay_` equals the returned value, one transition line was logged
if `is_using_overlay_` changed and none otherwise, and `content_bounds` holds
exactly one rect, the accumulated content rect, when the result is true and
is still empty when it is false. -/
theorem Attempt_active_iff_eligible (env : Collaborators) (pipe : MessagePipe)
    (this : OverlayStrategyUnderlayStarboard) (quad_list : List DrawQuad)
    (proposed_candidate : OverlayProposedCandidate)
    (ht : env.gives_overlay_transforms quad_list = true) :
    ∃ result, Attempt env (some pipe) this quad_list [] proposed_candidate = some result ∧
      (result.returned = true ↔ ∃ quad ∈ quad_list, env.eligible quad = true) ∧
      result.strategy.is_using_overlay_ = result.returned ∧
      transition_logs result.effects =
        (if this.is_using_overlay_ = result.returned then 0 else 1) ∧
      result.effects.filter
          (fun e => decide (e = StrategyEffect.LogOverlayTransition (!result.returned))) = [] ∧
      result.content_bounds =
        (if result.returned = true then [(Attempt_walk env quad_list).2] else []) ∧
      result.content_bounds.length = (if result.returned = true then 1 else 0) := by
  refine ⟨_, Attempt_eq env pipe this quad_list [] proposed_candidate ht, ?_⟩
  have hno : ∀ (b : Bool) (quads : List DrawQuad),
      (env.messages quads).filter
        (fun e => decide (e = StrategyEffect.LogOverlayTransition b)) = [] := by
    intro b quads
    induction quads with
    | nil => rfl
    | cons quad rest ih =>
      simp only [Collaborators.messages, Collaborators.message]
      split
      · split <;> simp [ih]
      · simpa using ih
  refine ⟨by simp [List.any_eq_true], rfl, ?_, ?_, ?_, ?_⟩
  · cases hf : quad_list.any env.eligible <;> cases hu : this.is_using_overlay_ <;>
      simp [transition_logs, messages_no_transition_log]
  · cases hf : quad_list.any env.eligible <;> cases hu : this.is_using_overlay_ <;>
      simp [hno]
  · cases hf : quad_list.any env.eligible <;> simp
  · cases hf : quad_list.any env.eligible <;> simp

/-- C16 at a concrete input: the sample frame, overlay not in use before. -/
theorem Attempt_active_iff_eligible_witness :
    sample_collaborators.gives_overlay_transforms sample_quad_list = true ∧
    ∃ result,
      Attempt sample_collaborators (some 3) { is_using_overlay_ := false } sample_quad_list []
          { quad_iter := 3, candidate := OverlayCandidate.default } = some result ∧
      (result.returned = true ↔
        ∃ quad ∈ sample_quad_list, sample_collaborators.eligible quad = true) ∧
      result.strategy.is_using_overlay_ = result.returned ∧
      transition_logs result.effects =
        (if ({ is_using_overlay_ := false } : OverlayStrategyUnderlayStarboard).is_using_overlay_ =
            result.returned then 0 else 1) ∧
      result.effects.filter
          (fun e => decide (e = StrategyEffect.LogOverlayTransition (!result.returned))) = [] ∧
      result.content_bounds =
        (if result.returned = true then [(Attempt_walk sample_collaborators sample_quad_list).2]
          else []) ∧
      result.content_bounds.length = (if result.returned = true then 1 else 0) :=
  ⟨by decide,
    Attempt_active_iff_eligible sample_collaborators 3 { is_using_overlay_ := false }
      sample_quad_list { quad_iter := 3, candidate := OverlayCandidate.default } (by decide)⟩

/-- C17: for every candidate that points at a hole quad (the setter bound, the
candidate carrying an overlay transform), `CommitCandidate` returns, sends
exactly one `SetVideoGeometry` carrying the candidate's `display_rect`, its
transform and the overlay plane id of that hole quad, and replaces the quad in
place: by a solid black quad with blend mode `kDstOut` if the candidate has a
mask filter, by a solid transparent quad with `kSrcOver` otherwise, the rect
kept.  The quad list keeps its length and every other quad. -/
theorem CommitCandidate_sends_and_replaces (pipe : MessagePipe)
    (proposed_candidate : OverlayProposedCandidate) (quad_list : List DrawQuad)
    (quad : DrawQuad) (overlay_plane_id : UnguessableToken) (transform : OverlayTransform)
    (hq : quad_list[proposed_candidate.quad_iter]? = some quad)
    (hk : quad.kind = QuadKind.VideoHoleDrawQuad overlay_plane_id)
    (ht : proposed_candidate.candidate.transform =
      CandidateTransform.overlay_transform transform) :
    CommitCandidate (some pipe) proposed_candidate quad_list =
        some (quad_list.set proposed_candidate.quad_iter
            (placeholder proposed_candidate.candidate quad),
          [StrategyEffect.SetVideoGeometry proposed_candidate.candidate.display_rect
            transform overlay_plane_id]) ∧
      (placeholder proposed_candidate.candidate quad).kind =
        QuadKind.SolidColorDrawQuad
          (if proposed_candidate.candidate.has_mask_filter = true then SkColors.kBlack
            else SkColors.kTransparent) ∧
      (placeholder proposed_candidate.candidate quad).shared_quad_state.blend_mode =
        (if proposed_candidate.candidate.has_mask_filter = true then SkBlendMode.kDstOut
          else SkBlendMode.kSrcOver) ∧
      (placeholder proposed_candidate.candidate quad).rect = quad.rect ∧
      (quad_list.set proposed_candidate.quad_iter
        (placeholder proposed_candidate.candidate quad)).length = quad_list.length ∧
      (∀ other : Nat, other ≠ proposed_candidate.quad_iter →
        (quad_list.set proposed_candidate.quad_iter
          (placeholder proposed_candidate.candidate quad))[other]? = quad_list[other]?) := by
  refine ⟨?_, rfl, rfl, rfl, by simp, ?_⟩
  · unfold CommitCandidate ReplaceExistingQuadWithSolidColor
    simp only [hq]
    cases hm : proposed_candidate.candidate.has_mask_filter <;> simp [hk, ht, placeholder, hm]
  · intro other hne
    exact List.getElem?_set_ne (Ne.symm hne)

/-- C17 at a concrete input: the hole of plane 7 in the sample frame, a
candidate with a mask filter. -/
theorem CommitCandidate_sends_and_replaces_witness :
    (sample_quad_list[sample_masked_candidate.quad_iter]? = some sample_hole_7 ∧
      sample_hole_7.kind = QuadKind.VideoHoleDrawQuad 7 ∧
      sample_masked_candidate.candidate.transform =
        CandidateTransform.overlay_transform OverlayTransform.OVERLAY_TRANSFORM_ROTATE_90) ∧
    CommitCandidate (some 3) sample_masked_candidate sample_quad_list =
      some
        ([sample_quad (QuadKind.SolidColorDrawQuad SkColors.kBlack)
            { x := 0, y := 0, width := 1920, height := 1080 },
          { sample_quad (QuadKind.SolidColorDrawQuad SkColors.kBlack)
              { x := 10, y := 20, width := 100, height := 200 } with
            shared_quad_state :=
              { quad_to_target_transform := { matrix := [] }, opacity := 1,
                blend_mode := SkBlendMode.kDstOut } },
          sample_quad (QuadKind.SolidColorDrawQuad { fR := 1, fG := 0, fB := 0, fA := 1 })
            { x := 0, y := 0, width := 50, height := 50 },
          sample_quad (QuadKind.VideoHoleDrawQuad 8)
            { x := 500, y := 20, width := 100, height := 200 }],
        [StrategyEffect.SetVideoGeometry cobalt.media.sample_rect
          OverlayTransform.OVERLAY_TRANSFORM_ROTATE_90 7]) :=
  ⟨⟨by decide, by decide, by decide⟩,
    (CommitCandidate_sends_and_replaces 3 sample_masked_candidate sample_quad_list
      sample_hole_7 7 OverlayTransform.OVERLAY_TRANSFORM_ROTATE_90
      (by decide) (by decide) (by decide)).1.trans (by decide)⟩

/-- C18, as stated, fails: in the frame made of a visible black solid quad
covering 1920 x 1080 followed by the eligible hole quad of plane 8, the
reverse loop finds the underlay first and then unions the black quad in, so
the accumulated content rect is the black quad's rect, while for the same
frame without the black quad it is empty. -/
theorem black_quad_behind_underlay_counts :
    sample_collaborators.IsInvisibleQuad
        (sample_quad (QuadKind.SolidColorDrawQuad SkColors.kBlack)
          { x := 0, y := 0, width := 1920, height := 1080 }) = false ∧
      Attempt_walk sample_collaborators
          [sample_quad (QuadKind.SolidColorDrawQuad SkColors.kBlack)
              { x := 0, y := 0, width := 1920, height := 1080 },
           sample_quad (QuadKind.VideoHoleDrawQuad 8)
              { x := 500, y := 20, width := 100, height := 200 }] =
        (true, { x := 0, y := 0, width := 1920, height := 1080 }) ∧
      Attempt_walk sample_collaborators
          [sample_quad (QuadKind.VideoHoleDrawQuad 8)
              { x := 500, y := 20, width := 100, height := 200 }] =
        (true, { x := 0, y := 0, width := 0, height := 0 }) ∧
      (Attempt sample_collaborators (some 3) { is_using_overlay_ := false }
          [sample_quad (QuadKind.SolidColorDrawQuad SkColors.kBlack)
              { x := 0, y := 0, width := 1920, height := 1080 },
           sample_quad (QuadKind.VideoHoleDrawQuad 8)
              { x := 500, y := 20, width := 100, height := 200 }] []
          { quad_iter := 1, candidate := OverlayCandidate.default }).map
            AttemptResult.content_bounds =
        some [{ x := 0, y := 0, width := 1920, height := 1080 }] ∧
      (Attempt sample_collaborators (some 3) { is_using_overlay_ := false }
          [sample_quad (QuadKind.VideoHoleDrawQuad 8)
              { x := 500, y := 20, width := 100, height := 200 }] []
          { quad_iter := 0, candidate := OverlayCandidate.default }).map
            AttemptResult.content_bounds =
        some [{ x := 0, y := 0, width := 0, height := 0 }] := by
  decide

/-- C18, amended: for every quad list and every black solid-colour quad in it
that no eligible hole quad follows in list order (the reverse loop reaches it
before it has found an underlay), the reverse loop of `Attempt` gives the same
result, found flag and accumulated content rect, as for the list with that
quad removed. -/
theorem black_quad_before_underlay_is_skipped (env : Collaborators)
    (front : List DrawQuad) (quad : DrawQuad) (back : List DrawQuad)
    (hq : quad.kind = QuadKind.SolidColorDrawQuad SkColors.kBlack)
    (hback : ∀ later ∈ back, env.eligible later = false) :
    Attempt_walk env (front ++ quad :: back) = Attempt_walk env (front ++ back) ∧
      (Attempt_walk env (front ++ quad :: back)).2 = (Attempt_walk env (front ++ back)).2 := by
  have hwalk : Attempt_walk env (front ++ quad :: back) = Attempt_walk env (front ++ back) := by
    simp only [Attempt_walk, List.reverse_append, List.reverse_cons, List.foldl_append,
      List.foldl_cons, List.foldl_nil]
    have hfound : (back.reverse.foldl (Attempt_step env)
        (false, { x := 0, y := 0, width := 0, height := 0 })).1 = false := by
      rw [Attempt_foldl_found]
      simp only [Bool.false_or]
      rw [Bool.eq_false_iff]
      intro hany
      obtain ⟨later, hmem, he⟩ := List.any_eq_true.mp hany
      rw [hback later (List.mem_reverse.mp hmem)] at he
      exact absurd he (by decide)
    have hstate : back.reverse.foldl (Attempt_step env)
        (false, { x := 0, y := 0, width := 0, height := 0 }) =
          (false, (back.reverse.foldl (Attempt_step env)
            (false, { x := 0, y := 0, width := 0, height := 0 })).2) :=
      Prod.ext hfound rfl
    rw [hstate, Attempt_step_black env _ quad hq]
  exact ⟨hwalk, by rw [hwalk]⟩

/-- C18, amended, at a concrete input: the black background moved behind the
last hole of the sample frame. -/
theorem black_quad_before_underlay_is_skipped_witness :
    ((sample_quad (QuadKind.SolidColorDrawQuad SkColors.kBlack)
          { x := 0, y := 0, width := 1920, height := 1080 }).kind =
        QuadKind.SolidColorDrawQuad SkColors.kBlack ∧
      (∀ later ∈ sample_quad_list.drop 2 |>.take 1,
        sample_collaborators.eligible later = false)) ∧
    (Attempt_walk sample_collaborators
        (sample_quad_list.drop 1 |>.take 3 |>.append
          (sample_quad (QuadKind.SolidColorDrawQuad SkColors.kBlack)
            { x := 0, y := 0, width := 1920, height := 1080 } ::
              (sample_quad_list.drop 2 |>.take 1))) =
      Attempt_walk sample_collaborators
        (sample_quad_list.drop 1 |>.take 3 |>.append (sample_quad_list.drop 2 |>.take 1)) ∧
    (Attempt_walk sample_collaborators
        (sample_quad_list.drop 1 |>.take 3 |>.append
          (sample_quad (QuadKind.SolidColorDrawQuad SkColors.kBlack)
            { x := 0, y := 0, width := 1920, height := 1080 } ::
              (sample_quad_list.drop 2 |>.take 1)))).2 =
      (Attempt_walk sample_collaborators
        (sample_quad_list.drop 1 |>.take 3 |>.append
          (sample_quad_list.drop 2 |>.take 1))).2) :=
  ⟨⟨by decide, by decide⟩,
    black_quad_before_underlay_is_skipped sample_collaborators
      (sample_quad_list.drop 1 |>.take 3)
      (sample_quad (QuadKind.SolidColorDrawQuad SkColors.kBlack)
        { x := 0, y := 0, width := 1920, height := 1080 })
      (sample_quad_list.drop 2 |>.take 1) (by decide) (by decide)⟩

end viz

namespace media

open base gfx StarboardRendererClient

/-- From a state in which the loop is in step with mode and playback,
`SetPlayingState(false)` leaves the loop stopped and playback inactive. -/
theorem SetPlayingState_false_stops (s : StarboardRendererClient)
    (hs : loop_matches_mode s) :
    (s.SetPlayingState false).1.video_renderer_sink_started_ = false ∧
      (s.SetPlayingState false).1.is_playing_ = false ∧
      (s.SetPlayingState false).2 =
        (if s.video_renderer_sink_started_ then [ClientEffect.VideoRendererSink_Stop]
          else []) := by
  obtain ⟨id, mode, playing, started, cb, initialized, status, frame⟩ := s
  simp only [loop_matches_mode] at hs
  cases mode <;> cases playing <;> cases started <;>
    first
    | (simp at hs; done)
    | simp [SetPlayingState, StartVideoRendererSink, StopVideoRendererSink]

/-- C21: in every state reached from a new client by any sequence of
`StartPlayingFrom`, `OnError`, `OnFallback`, `OnEnded` and
`UpdateStarboardRenderingMode(kPunchOut or kDecodeToTexture)` calls, the
destructor's assertion holds: after its `SetPlayingState(false)` the
frame-pull loop is stopped, so no `DCHECK` fails in the destructor; the sink
is told to stop exactly when the loop was still running. -/
theorem destructor_finds_loop_stopped (id : UnguessableToken) (actions : List Action)
    (overlay_info_pending : Bool) (hact : ∀ a ∈ actions, a.reports_mode = true) :
    ((run_actions actions (init id)).1.SetPlayingState false).1.video_renderer_sink_started_ =
        false ∧
      (destructor overlay_info_pending
        (run_actions actions (init id)).1).1.video_renderer_sink_started_ = false ∧
      ClientEffect.DcheckFailed ∉
        (destructor overlay_info_pending (run_actions actions (init id)).1).2 ∧
      stop_calls (destructor overlay_info_pending (run_actions actions (init id)).1).2 =
        (if (run_actions actions (init id)).1.video_renderer_sink_started_ then 1 else 0) := by
  have hs := SetPlayingState_false_stops (run_actions actions (init id)).1
    (run_actions_loop_matches_mode actions (init id) hact (init_loop_matches_mode id))
  refine ⟨hs.1, hs.1, ?_, ?_⟩
  · simp only [destructor, hs.1, hs.2.2]
    cases (run_actions actions (init id)).1.video_renderer_sink_started_ <;>
      cases overlay_info_pending <;> simp
  · simp only [destructor, hs.1, hs.2.2, stop_calls]
    cases (run_actions actions (init id)).1.video_renderer_sink_started_ <;>
      cases overlay_info_pending <;> simp

/-- C21 at a concrete input: the client is destroyed while it plays in
texture mode, with an overlay-info request pending. -/
theorem destructor_finds_loop_stopped_witness :
    (run_actions sample_playing_actions (init 7)).1.video_renderer_sink_started_ = true ∧
    (destructor true (run_actions sample_playing_actions (init 7)).1).2 =
      [ClientEffect.VideoRendererSink_Stop, ClientEffect.RequestOverlayInfoCbRun] ∧
    (((run_actions sample_playing_actions (init 7)).1.SetPlayingState
          false).1.video_renderer_sink_started_ = false ∧
      (destructor true
        (run_actions sample_playing_actions (init 7)).1).1.video_renderer_sink_started_ = false ∧
      ClientEffect.DcheckFailed ∉
        (destructor true (run_actions sample_playing_actions (init 7)).1).2 ∧
      stop_calls (destructor true (run_actions sample_playing_actions (init 7)).1).2 =
        (if (run_actions sample_playing_actions (init 7)).1.video_renderer_sink_started_
          then 1 else 0)) :=
  ⟨by decide, by decide,
    destructor_finds_loop_stopped 7 sample_playing_actions true (by decide)⟩

end media

namespace media

open base gfx StarboardRendererClient

theorem init_cb_runs_append (e1 e2 : List ClientEffect) :
    init_cb_runs (e1 ++ e2) = init_cb_runs e1 ++ init_cb_runs e2 := by
  induction e1 with
  | nil => rfl
  | cons e rest ih => cases e <;> simp [init_cb_runs, ih]

/-- Once `init_cb_` is null, no playback or mode call runs it or sets it. -/
theorem exec_init_cb_null (a : Action) (s : StarboardRendererClient)
    (hcb : s.init_cb_ = false) :
    (a.exec s).1.init_cb_ = false ∧ init_cb_runs (a.exec s).2 = [] := by
  obtain ⟨id, mode, playing, started, cb, initialized, status, frame⟩ := s
  simp only at hcb
  subst hcb
  cases a with
  | StartPlayingFrom time =>
    cases mode <;> cases playing <;> cases started <;>
      simp [Action.exec, StartPlayingFrom, SetPlayingState, StartVideoRendererSink,
        StopVideoRendererSink, init_cb_runs]
  | OnError status =>
    cases mode <;> cases playing <;> cases started <;>
      simp [Action.exec, OnError, SetPlayingState, StartVideoRendererSink,
        StopVideoRendererSink, init_cb_runs]
  | OnFallback fallback =>
    cases mode <;> cases playing <;> cases started <;>
      simp [Action.exec, OnFallback, SetPlayingState, StartVideoRendererSink,
        StopVideoRendererSink, init_cb_runs]
  | OnEnded =>
    cases mode <;> cases playing <;> cases started <;>
      simp [Action.exec, OnEnded, SetPlayingState, StartVideoRendererSink,
        StopVideoRendererSink, init_cb_runs]
  | UpdateStarboardRenderingMode new_mode =>
    cases new_mode <;> cases playing <;> cases started <;> cases initialized <;>
      simp [Action.exec, UpdateStarboardRenderingMode, StartVideoRendererSink,
        StopVideoRendererSink, init_cb_runs]

theorem run_actions_init_cb_null (actions : List Action) (s : StarboardRendererClient)
    (hcb : s.init_cb_ = false) :
    (run_actions actions s).1.init_cb_ = false ∧ init_cb_runs (run_actions actions s).2 = [] := by
  induction actions generalizing s with
  | nil => exact ⟨hcb, rfl⟩
  | cons a rest ih =>
    have h := exec_init_cb_null a s hcb
    simp only [run_actions, init_cb_runs_append, h.2, List.nil_append]
    exact ih (a.exec s).1 h.1

/-- C28: take a client whose `init_cb_` holds the pipeline's callback, whose
rendering mode is still `kInvalid` and whose remote renderer has not reported
yet.  When the mode (`kPunchOut` or `kDecodeToTexture`) is reported first and
`OnMojoRendererInitialized(status)` second, the first call runs no callback
and the second returns and runs it once, with `status`; in the other order
`OnMojoRendererInitialized(status)` returns and runs nothing and the mode
report runs the callback once, with `status`.  In both orders no `DCHECK`
fails, `init_cb_` is null afterwards, and no later sequence of playback and
mode calls runs the callback again. -/
theorem init_cb_runs_once_after_both (s : StarboardRendererClient)
    (mode : StarboardRenderingMode) (status : PipelineStatus) (later : List Action)
    (hcb : s.init_cb_ = true) (hmode : s.rendering_mode_ = StarboardRenderingMode.kInvalid)
    (hinit : s.is_mojo_renderer_initialized_ = false)
    (hm : mode ≠ StarboardRenderingMode.kInvalid) :
    (∃ after,
      (s.UpdateStarboardRenderingMode mode).1.OnMojoRendererInitialized status = some after ∧
        init_cb_runs (s.UpdateStarboardRenderingMode mode).2 = [] ∧
        init_cb_runs after.2 = [status] ∧
        ClientEffect.DcheckFailed ∉ after.2 ∧
        after.1.init_cb_ = false ∧
        init_cb_runs (run_actions later after.1).2 = []) ∧
    (∃ after,
      s.OnMojoRendererInitialized status = some after ∧
        init_cb_runs after.2 = [] ∧
        init_cb_runs (after.1.UpdateStarboardRenderingMode mode).2 = [status] ∧
        ClientEffect.DcheckFailed ∉ after.2 ∧
        (after.1.UpdateStarboardRenderingMode mode).1.init_cb_ = false ∧
        init_cb_runs (run_actions later (after.1.UpdateStarboardRenderingMode mode).1).2 =
          []) := by
  obtain ⟨id, old_mode, playing, started, cb, initialized, old_status, frame⟩ := s
  simp only at hcb hmode hinit
  subst hcb hmode hinit
  constructor
  · have hret : ∃ after,
        (UpdateStarboardRenderingMode mode
          ⟨id, StarboardRenderingMode.kInvalid, playing, started, true, false, old_status,
            frame⟩).1.OnMojoRendererInitialized status = some after ∧
          init_cb_runs (UpdateStarboardRenderingMode mode
            ⟨id, StarboardRenderingMode.kInvalid, playing, started, true, false, old_status,
              frame⟩).2 = [] ∧
          init_cb_runs after.2 = [status] ∧ ClientEffect.DcheckFailed ∉ after.2 ∧
          after.1.init_cb_ = false := by
      cases mode <;> cases playing <;> cases started <;>
        first
        | (simp at hm; done)
        | exact ⟨_, by
            simp [UpdateStarboardRenderingMode, OnMojoRendererInitialized,
              StartVideoRendererSink, StopVideoRendererSink]; rfl,
            by simp [UpdateStarboardRenderingMode, StartVideoRendererSink,
              StopVideoRendererSink, init_cb_runs],
            by simp [init_cb_runs], by simp, rfl⟩
    obtain ⟨after, h1, h2, h3, h4, h5⟩ := hret
    exact ⟨after, h1, h2, h3, h4, h5, (run_actions_init_cb_null later _ h5).2⟩
  · refine ⟨(⟨id, StarboardRenderingMode.kInvalid, playing, started, true, true, status,
        frame⟩, []), by simp [OnMojoRendererInitialized], by simp [init_cb_runs], ?_,
      by simp, ?_, ?_⟩
    · cases mode <;> cases playing <;> cases started <;>
        first
        | (simp at hm; done)
        | simp [UpdateStarboardRenderingMode, StartVideoRendererSink, StopVideoRendererSink,
            init_cb_runs]
    · cases mode <;> cases playing <;> cases started <;>
        first
        | (simp at hm; done)
        | simp [UpdateStarboardRenderingMode, StartVideoRendererSink, StopVideoRendererSink]
    · apply (run_actions_init_cb_null later _ _).2
      cases mode <;> cases playing <;> cases started <;>
        first
        | (simp at hm; done)
        | simp [UpdateStarboardRenderingMode, StartVideoRendererSink, StopVideoRendererSink]

/-- C28 at a concrete input: a new client after `Initialize`, mode
`kPunchOut`, status 3, followed by the sample run. -/
theorem init_cb_runs_once_after_both_witness :
    ((init 7).Initialize).1.init_cb_ = true ∧
    ((init 7).Initialize).1.rendering_mode_ = StarboardRenderingMode.kInvalid ∧
    ((init 7).Initialize).1.is_mojo_renderer_initialized_ = false ∧
    (∃ after,
      (((init 7).Initialize).1.UpdateStarboardRenderingMode
        StarboardRenderingMode.kPunchOut).1.OnMojoRendererInitialized 3 = some after ∧
        init_cb_runs after.2 = [3] ∧
        init_cb_runs (run_actions sample_actions after.1).2 = []) ∧
    (∃ after,
      ((init 7).Initialize).1.OnMojoRendererInitialized 3 = some after ∧
        init_cb_runs after.2 = [] ∧
        init_cb_runs
          (after.1.UpdateStarboardRenderingMode StarboardRenderingMode.kPunchOut).2 = [3]) :=
  ⟨by decide, by decide, by decide,
    (init_cb_runs_once_after_both ((init 7).Initialize).1 StarboardRenderingMode.kPunchOut 3
      sample_actions (by decide) (by decide) (by decide) (by decide)).1.imp
      (fun _ h => ⟨h.1, h.2.2.1, h.2.2.2.2.2⟩),
    (init_cb_runs_once_after_both ((init 7).Initialize).1 StarboardRenderingMode.kPunchOut 3
      sample_actions (by decide) (by decide) (by decide) (by decide)).2.imp
      (fun _ h => ⟨h.1, h.2.1, h.2.2.1⟩)⟩

end media

namespace starboard.android.shared

open VideoSurfaceHolder

/-- C29: in every state in which consumer `X` holds the surface, a
surface-changed notification that supplies a new non-null surface (for which
`NewGlobalRef` returns a handle) first calls `X.OnSurfaceDestroyed()`, clears
the holder and installs the new handle.  Afterwards
`IsVideoSurfaceAvailable()` is true and `AcquireVideoSurface()` by another
consumer `Y` returns the new handle and records `Y`, although no
`ReleaseVideoSurface()` was called; a later `X.ReleaseVideoSurface()` changes
nothing and leaves `Y` as holder. -/
theorem surface_change_evicts_holder (env : JNIEnv) (g : Globals)
    (X Y : VideoSurfaceHolder) (new_surface handle : jobject)
    (hh : g.g_video_surface_holder = some X)
    (hnew : env.NewGlobalRef new_surface = some handle) (hxy : X ≠ Y) :
    (nativeOnVideoSurfaceChanged env (some new_surface) g).2 =
        SurfaceEffect.OnSurfaceDestroyed X ::
          ((g.g_j_video_surface.map SurfaceEffect.DeleteGlobalRef).toList ++
            (g.g_native_video_window.map SurfaceEffect.ANativeWindow_release).toList) ∧
      (nativeOnVideoSurfaceChanged env (some new_surface) g).1 =
        { g_j_video_surface := some handle,
          g_native_video_window := env.ANativeWindow_fromSurface new_surface,
          g_video_surface_holder := none,
          g_reset_surface_on_clear_window := g.g_reset_surface_on_clear_window } ∧
      IsVideoSurfaceAvailable (nativeOnVideoSurfaceChanged env (some new_surface) g).1 = true ∧
      (AcquireVideoSurface Y (nativeOnVideoSurfaceChanged env (some new_surface) g).1).1 =
        some handle ∧
      (AcquireVideoSurface Y
        (nativeOnVideoSurfaceChanged env (some new_surface) g).1).2.g_video_surface_holder =
          some Y ∧
      ReleaseVideoSurface X
          (AcquireVideoSurface Y (nativeOnVideoSurfaceChanged env (some new_surface) g).1).2 =
        (AcquireVideoSurface Y (nativeOnVideoSurfaceChanged env (some new_surface) g).1).2 := by
  obtain ⟨surface, window, holder, flag⟩ := g
  simp only at hh
  subst hh
  have hyx : ¬ Y = X := fun h => hxy h.symm
  cases surface <;> cases window <;>
    simp [nativeOnVideoSurfaceChanged, IsVideoSurfaceAvailable, AcquireVideoSurface,
      ReleaseVideoSurface, Option.toList, hnew, hyx]

/-- C29 at a concrete input: consumer 1 holds surface 5, surface 9 arrives,
consumer 2 acquires it. -/
theorem surface_change_evicts_holder_witness :
    sample_held_surface.g_video_surface_holder = some 1 ∧
    sample_jni.NewGlobalRef 9 = some 9 ∧
    (nativeOnVideoSurfaceChanged sample_jni (some 9) sample_held_surface).2 =
      [SurfaceEffect.OnSurfaceDestroyed 1, SurfaceEffect.DeleteGlobalRef 5,
       SurfaceEffect.ANativeWindow_release 6] ∧
    (AcquireVideoSurface 2
      (nativeOnVideoSurfaceChanged sample_jni (some 9) sample_held_surface).1).1 = some 9 ∧
    (ReleaseVideoSurface 1
      (AcquireVideoSurface 2
        (nativeOnVideoSurfaceChanged sample_jni (some 9)
          sample_held_surface).1).2).g_video_surface_holder = some 2 :=
  ⟨by decide, by decide,
    (surface_change_evicts_holder sample_jni sample_held_surface 1 2 9 9 (by decide)
      (by decide) (by decide)).1.trans (by decide),
    (surface_change_evicts_holder sample_jni sample_held_surface 1 2 9 9 (by decide)
      (by decide) (by decide)).2.2.2.1,
    by
      rw [(surface_change_evicts_holder sample_jni sample_held_surface 1 2 9 9 (by decide)
        (by decide) (by decide)).2.2.2.2.2]
      exact (surface_change_evicts_holder sample_jni sample_held_surface 1 2 9 9 (by decide)
        (by decide) (by decide)).2.2.2.2.1⟩

/-- Every call keeps a holder recorded only while a surface handle exists. -/
theorem exec_holder_has_surface (env : JNIEnv) (call : ArbiterCall) (g : Globals)
    (hg : g.g_video_surface_holder.isSome = true → g.g_j_video_surface.isSome = true) :
    (call.exec env g).g_video_surface_holder.isSome = true →
      (call.exec env g).g_j_video_surface.isSome = true := by
  obtain ⟨surface, window, holder, flag⟩ := g
  cases call with
  | nativeOnVideoSurfaceChanged new_surface =>
    cases new_surface <;> cases surface <;> cases window <;> cases holder <;>
      simp [ArbiterCall.exec, nativeOnVideoSurfaceChanged]
  | AcquireVideoSurface this =>
    cases surface <;> cases holder <;> simp [ArbiterCall.exec, AcquireVideoSurface] at hg ⊢
  | ReleaseVideoSurface this =>
    cases surface <;> cases holder <;>
      simp only [ArbiterCall.exec, ReleaseVideoSurface] at hg ⊢ <;> split <;> simp_all

theorem run_calls_holder_has_surface (env : JNIEnv) (calls : List ArbiterCall) (g : Globals)
    (hg : g.g_video_surface_holder.isSome = true → g.g_j_video_surface.isSome = true) :
    (run_calls env calls g).g_video_surface_holder.isSome = true →
      (run_calls env calls g).g_j_video_surface.isSome = true := by
  induction calls generalizing g with
  | nil => exact hg
  | cons call rest ih => exact ih (call.exec env g) (exec_holder_has_surface env call g hg)

/-- A call that leaves the recorded holder in place leaves the surface handle
in place. -/
theorem exec_keeps_held_surface (env : JNIEnv) (call : ArbiterCall) (g : Globals)
    (holder : VideoSurfaceHolder) (hb : g.g_video_surface_holder = some holder)
    (ha : (call.exec env g).g_video_surface_holder = some holder) :
    (call.exec env g).g_j_video_surface = g.g_j_video_surface := by
  obtain ⟨surface, window, old_holder, flag⟩ := g
  simp only at hb
  subst hb
  cases call with
  | nativeOnVideoSurfaceChanged new_surface =>
    cases new_surface <;> cases surface <;> cases window <;>
      simp [ArbiterCall.exec, nativeOnVideoSurfaceChanged] at ha
  | AcquireVideoSurface this => simp [ArbiterCall.exec, AcquireVideoSurface]
  | ReleaseVideoSurface this =>
    simp only [ArbiterCall.exec, ReleaseVideoSurface] at ha ⊢
    split <;> rfl

/-- C30: in every state reached from the initial globals (no surface, no
holder) by any sequence of surface-changed notifications (new surface or
null), `AcquireVideoSurface` and `ReleaseVideoSurface` calls by any consumers,
a recorded holder implies a surface handle.  In such a state a successful
`AcquireVideoSurface` returns the surface handle of the globals, and every
further call that leaves the recorded holder in place leaves that handle in
place, so the handle is not invalidated while its holder is recorded. -/
theorem holder_implies_surface (env : JNIEnv) (calls : List ArbiterCall) :
    ((run_calls env calls Globals.init).g_video_surface_holder.isSome = true →
        (run_calls env calls Globals.init).g_j_video_surface.isSome = true) ∧
      (∀ (this : VideoSurfaceHolder) (handle : jobject),
        (AcquireVideoSurface this (run_calls env calls Globals.init)).1 = some handle →
          (AcquireVideoSurface this (run_calls env calls Globals.init)).2.g_j_video_surface =
              some handle ∧
            (AcquireVideoSurface this
              (run_calls env calls Globals.init)).2.g_video_surface_holder = some this) ∧
      (∀ (call : ArbiterCall) (holder : VideoSurfaceHolder),
        (run_calls env calls Globals.init).g_video_surface_holder = some holder →
          (call.exec env (run_calls env calls Globals.init)).g_video_surface_holder =
            some holder →
          (call.exec env (run_calls env calls Globals.init)).g_j_video_surface =
            (run_calls env calls Globals.init).g_j_video_surface) := by
  refine ⟨run_calls_holder_has_surface env calls Globals.init (by simp [Globals.init]), ?_, ?_⟩
  · intro this handle h
    generalize run_calls env calls Globals.init = g at h ⊢
    obtain ⟨surface, window, holder, flag⟩ := g
    cases surface <;> cases holder <;> simp [AcquireVideoSurface] at h ⊢
    exact h
  · intro call holder hb ha
    exact exec_keeps_held_surface env call _ holder hb ha

end starboard.android.shared

namespace viz

open base gfx mojo OverlayStrategyUnderlayStarboard

/-- The loop of `Propose` over two lists in a row. -/
theorem Propose_scan_append (env : Collaborators) (front back : List DrawQuad)
    (position : Nat) (state : OverlayCandidate × Option Nat) :
    Propose_scan env (front ++ back) position state =
      Propose_scan env back (position + front.length) (Propose_scan env front position state) := by
  induction front generalizing position state with
  | nil => simp [Propose_scan]
  | cons quad rest ih =>
    have hpos : position + 1 + rest.length = position + (rest.length + 1) := by omega
    simp only [List.cons_append, Propose_scan, List.length_cons]
    split
    · rw [← hpos]; exact ih _ _
    · split
      · split
        · rw [← hpos]; exact ih _ _
        · rw [← hpos]; exact ih _ _
      · rw [← hpos]; exact ih _ _

/-- The iterator `Propose` ends with when one more quad follows the list. -/
theorem Propose_scan_snoc (env : Collaborators) (pre : List DrawQuad) (quad : DrawQuad)
    (position : Nat) (state : OverlayCandidate × Option Nat) :
    (Propose_scan env (pre ++ [quad]) position state).2 =
      (if env.eligible quad = true then some (position + pre.length)
        else (Propose_scan env pre position state).2) := by
  rw [Propose_scan_append]
  obtain ⟨next, hnext⟩ := Propose_scan_cons env quad [] (position + pre.length)
    (Propose_scan env pre position state).1 (Propose_scan env pre position state).2
  rw [show Propose_scan env pre position state =
    ((Propose_scan env pre position state).1, (Propose_scan env pre position state).2) from rfl,
    hnext]
  simp [Propose_scan]

/-- The marked reverse loop carries the state of the reverse loop. -/
theorem Attempt_mark_state (env : Collaborators) (quads : List DrawQuad)
    (state : (Bool × Rect) × Option Nat) :
    (Attempt_mark env quads state).1 = quads.foldl (Attempt_step env) state.1 := by
  induction quads generalizing state with
  | nil => rfl
  | cons quad before ih => simp only [Attempt_mark, List.foldl_cons]; rw [ih]

/-- Once `found_underlay` is set the mark is not moved. -/
theorem Attempt_mark_found (env : Collaborators) (quads : List DrawQuad)
    (state : (Bool × Rect) × Option Nat) (hf : state.1.1 = true) :
    (Attempt_mark env quads state).2 = state.2 := by
  induction quads generalizing state with
  | nil => rfl
  | cons quad before ih =>
    simp only [Attempt_mark]
    rw [ih _ (by simp [Attempt_step_found, hf])]
    simp [hf]

/-- The reverse loop of `Attempt` first sets `found_underlay` at the quad the
loop of `Propose` ends at. -/
theorem Attempt_mark_eq_Propose_scan (env : Collaborators) (quad_list : List DrawQuad)
    (content_rect : Rect) (candidate : OverlayCandidate) :
    (Attempt_mark env quad_list.reverse ((false, content_rect), none)).2 =
      (Propose_scan env quad_list 0 (candidate, none)).2 := by
  induction quad_list using List.reverseRecOn generalizing content_rect with
  | nil => rfl
  | append_singleton pre quad ih =>
    rw [Propose_scan_snoc, List.reverse_append, List.reverse_singleton, List.singleton_append]
    simp only [Attempt_mark]
    have hfound := Attempt_step_found env (false, content_rect) quad
    by_cases he : env.eligible quad = true
    · rw [Attempt_mark_found env _ _ (by simp [hfound, he])]
      simp [hfound, he]
    · have hfalse : (Attempt_step env (false, content_rect) quad).1 = false := by
        simp [hfound, he]
      have hstate :
          ((Attempt_step env (false, content_rect) quad,
            if (!(false, content_rect).1 && (Attempt_step env (false, content_rect) quad).1) =
                true then some pre.reverse.length else none) :
              (Bool × Rect) × Option Nat) =
            ((false, (Attempt_step env (false, content_rect) quad).2), none) :=
        Prod.ext (Prod.ext hfalse rfl) (by simp [hfalse])
      rw [if_neg he, ← ih (Attempt_step env (false, content_rect) quad).2, hstate]

/-- The loop of `Propose` appends nothing when the list holds no eligible
quad, and one candidate when it holds one. -/
theorem Propose_emits_iff (env : Collaborators) (quad_list : List DrawQuad)
    (candidates : List OverlayProposedCandidate) :
    ((Propose env quad_list candidates).2 = candidates ∧
        quad_list.any env.eligible = false) ∨
      (∃ proposed, (Propose env quad_list candidates).2 = candidates ++ [proposed] ∧
        quad_list.any env.eligible = true) := by
  cases hscan : Propose_scan env quad_list 0 (OverlayCandidate.default, none) with
  | mk candidate overlay_iter =>
    have hsnd : (Propose_scan env quad_list 0 (OverlayCandidate.default, none)).2 =
        overlay_iter := by rw [hscan]
    cases overlay_iter with
    | none =>
      left
      have hnone := (Propose_scan_none env quad_list 0 OverlayCandidate.default none).mp hsnd
      refine ⟨by simp [Propose, hscan], ?_⟩
      rw [Bool.eq_false_iff]
      intro hany
      obtain ⟨quad, hmem, he⟩ := List.any_eq_true.mp hany
      rw [hnone.2 quad hmem] at he
      exact absurd he (by decide)
    | some k =>
      right
      refine ⟨{ quad_iter := k, candidate := candidate }, by simp [Propose, hscan], ?_⟩
      cases hany : quad_list.any env.eligible with
      | true => rfl
      | false =>
        have hall : ∀ quad ∈ quad_list, env.eligible quad = false := by
          intro quad hmem
          cases he : env.eligible quad with
          | false => rfl
          | true =>
            have : quad_list.any env.eligible = true := List.any_eq_true.mpr ⟨quad, hmem, he⟩
            rw [hany] at this
            exact absurd this (by decide)
        have := (Propose_scan_none env quad_list 0 OverlayCandidate.default none).mpr
          ⟨rfl, hall⟩
        rw [hsnd] at this
        exact absurd this (by simp)

/-- C22: for every quad list, the forward loop of `Propose` and the reverse
loop of `Attempt` choose the same underlay.  `Propose` appends a candidate
exactly for the quad at which the reverse loop of `Attempt` first sets
`found_underlay`; that quad is the last visible `kVideoHole` quad in list
order that the candidate factory accepts; and (the setter bound, the
candidates carrying overlay transforms) `Attempt` returns, with true if and
only if `Propose` appends a candidate. -/
theorem Propose_and_Attempt_choose_same_underlay (env : Collaborators) (pipe : MessagePipe)
    (this : OverlayStrategyUnderlayStarboard) (quad_list : List DrawQuad)
    (candidates : List OverlayProposedCandidate) (content_bounds : List Rect)
    (proposed_candidate : OverlayProposedCandidate)
    (ht : env.gives_overlay_transforms quad_list = true) :
    (Attempt_underlay env quad_list).1 = Attempt_walk env quad_list ∧
      (Propose env quad_list candidates).2.map OverlayProposedCandidate.quad_iter =
        candidates.map OverlayProposedCandidate.quad_iter ++
          (Attempt_underlay env quad_list).2.toList ∧
      (∀ k, (Attempt_underlay env quad_list).2 = some k →
        ∃ pre quad post, quad_list = pre ++ quad :: post ∧ k = pre.length ∧
          env.eligible quad = true ∧ ∀ later ∈ post, env.eligible later = false) ∧
      ∃ result,
        Attempt env (some pipe) this quad_list content_bounds proposed_candidate =
          some result ∧
        (result.returned = true ↔
          (Propose env quad_list candidates).2.length = candidates.length + 1) ∧
        (result.returned = false ↔ (Propose env quad_list candidates).2 = candidates) := by
  have hmark : (Attempt_underlay env quad_list).2 =
      (Propose_scan env quad_list 0 (OverlayCandidate.default, none)).2 :=
    Attempt_mark_eq_Propose_scan env quad_list _ OverlayCandidate.default
  refine ⟨?_, ?_, ?_, _, Attempt_eq env pipe this quad_list content_bounds proposed_candidate ht,
    ?_, ?_⟩
  · simp [Attempt_underlay, Attempt_walk, Attempt_mark_state]
  · rw [hmark]
    cases hscan : Propose_scan env quad_list 0 (OverlayCandidate.default, none) with
    | mk candidate overlay_iter => cases overlay_iter <;> simp [Propose, hscan, Option.toList]
  · intro k hk
    rw [hmark] at hk
    rcases Propose_scan_some env quad_list 0 OverlayCandidate.default none k hk with
      ⟨hiter, _⟩ | ⟨pre, quad, post, hlist, hpos, hq, hpost⟩
    · exact absurd hiter (by simp)
    · exact ⟨pre, quad, post, hlist, by simpa using hpos, hq, hpost⟩
  · rcases Propose_emits_iff env quad_list candidates with ⟨hp, hany⟩ | ⟨proposed, hp, hany⟩
    · simp [hp, hany]
    · simp [hp, hany]
  · rcases Propose_emits_iff env quad_list candidates with ⟨hp, hany⟩ | ⟨proposed, hp, hany⟩
    · simp [hp, hany]
    · simp [hp, hany]

/-- C22 at a concrete input: on the sample frame both loops choose the quad
at position 3, the later of the two eligible hole quads, and `Attempt` returns
true. -/
theorem Propose_and_Attempt_choose_same_underlay_witness :
    sample_collaborators.gives_overlay_transforms sample_quad_list = true ∧
    (Attempt_underlay sample_collaborators sample_quad_list).2 = some 3 ∧
    (Propose sample_collaborators sample_quad_list []).2.map
        OverlayProposedCandidate.quad_iter =
      ([] : List OverlayProposedCandidate).map OverlayProposedCandidate.quad_iter ++
        (Attempt_underlay sample_collaborators sample_quad_list).2.toList ∧
    ∃ result,
      Attempt sample_collaborators (some 3) { is_using_overlay_ := false } sample_quad_list []
          { quad_iter := 3, candidate := OverlayCandidate.default } = some result ∧
        (result.returned = true ↔
          (Propose sample_collaborators sample_quad_list []).2.length =
            ([] : List OverlayProposedCandidate).length + 1) ∧
        (result.returned = false ↔
          (Propose sample_collaborators sample_quad_list []).2 = []) :=
  ⟨by decide, by decide,
    (Propose_and_Attempt_choose_same_underlay sample_collaborators 3
      { is_using_overlay_ := false } sample_quad_list [] []
      { quad_iter := 3, candidate := OverlayCandidate.default } (by decide)).2.1,
    (Propose_and_Attempt_choose_same_underlay sample_collaborators 3
      { is_using_overlay_ := false } sample_quad_list [] []
      { quad_iter := 3, candidate := OverlayCandidate.default } (by decide)).2.2.2⟩

end viz

namespace starboard.shared.starboard.QueueApplication

open SbEventType State

/-- C23: `DispatchAndDelete` fills in the missing lifecycle transitions in
order.  A Focus event (any timestamp, data and error level) dispatched in
state Frozen delivers to the event handler exactly Unfreeze, Reveal, Focus in
that order, in Concealed exactly Reveal, Focus, in Blurred exactly Focus, each
time ending in Started; in Started, Unstarted or Stopped it delivers nothing
and leaves the application unchanged.  A Freeze event in Started delivers
exactly Blur, Conceal, Freeze, in Blurred exactly Conceal, Freeze, in
Concealed exactly Freeze, each time ending in Frozen; in Unstarted, Frozen or
Stopped it delivers nothing and leaves the application unchanged.  The call
returns true, changes `error_level_` in no case and fails no state check. -/
theorem DispatchAndDelete_fills_in_transitions (state : State) (timestamp : Int)
    (data : Option Nat) (error_level level : Int) :
    ((DispatchAndDelete
        (some { type := kSbEventTypeFocus, timestamp := timestamp, data := data,
                error_level := error_level })
        { state_ := state, error_level_ := level }).1 = true ∧
      delivered (DispatchAndDelete
        (some { type := kSbEventTypeFocus, timestamp := timestamp, data := data,
                error_level := error_level })
        { state_ := state, error_level_ := level }).2.2 =
        (match state with
          | kStateFrozen => [kSbEventTypeUnfreeze, kSbEventTypeReveal, kSbEventTypeFocus]
          | kStateConcealed => [kSbEventTypeReveal, kSbEventTypeFocus]
          | kStateBlurred => [kSbEventTypeFocus]
          | _ => []) ∧
      (DispatchAndDelete
        (some { type := kSbEventTypeFocus, timestamp := timestamp, data := data,
                error_level := error_level })
        { state_ := state, error_level_ := level }).2.1 =
        { state_ :=
            (match state with
              | kStateFrozen => kStateStarted
              | kStateConcealed => kStateStarted
              | kStateBlurred => kStateStarted
              | unchanged => unchanged),
          error_level_ := level } ∧
      failed_checks (DispatchAndDelete
        (some { type := kSbEventTypeFocus, timestamp := timestamp, data := data,
                error_level := error_level })
        { state_ := state, error_level_ := level }).2.2 = []) ∧
    ((DispatchAndDelete
        (some { type := kSbEventTypeFreeze, timestamp := timestamp, data := data,
                error_level := error_level })
        { state_ := state, error_level_ := level }).1 = true ∧
      delivered (DispatchAndDelete
        (some { type := kSbEventTypeFreeze, timestamp := timestamp, data := data,
                error_level := error_level })
        { state_ := state, error_level_ := level }).2.2 =
        (match state with
          | kStateStarted => [kSbEventTypeBlur, kSbEventTypeConceal, kSbEventTypeFreeze]
          | kStateBlurred => [kSbEventTypeConceal, kSbEventTypeFreeze]
          | kStateConcealed => [kSbEventTypeFreeze]
          | _ => []) ∧
      (DispatchAndDelete
        (some { type := kSbEventTypeFreeze, timestamp := timestamp, data := data,
                error_level := error_level })
        { state_ := state, error_level_ := level }).2.1 =
        { state_ :=
            (match state with
              | kStateStarted => kStateFrozen
              | kStateBlurred => kStateFrozen
              | kStateConcealed => kStateFrozen
              | unchanged => unchanged),
          error_level_ := level } ∧
      failed_checks (DispatchAndDelete
        (some { type := kSbEventTypeFreeze, timestamp := timestamp, data := data,
                error_level := error_level })
        { state_ := state, error_level_ := level }).2.2 = []) := by
  cases state <;>
    simp [DispatchAndDelete, HandleEventAndUpdateState, handle_and_return, handle_in_order,
      check_started, expect_then_set, Event.intermediate, delivered, failed_checks]

end starboard.shared.starboard.QueueApplication

namespace starboard.shared.starboard.QueueApplication

open SbEventType State

/-- C26: for every state and every non-null event, `DispatchAndDelete` returns
false if and only if the event is a Stop event and the state before the call
is Frozen.  In that case the Stop event reaches the event handler, the state
becomes Stopped and `error_level_` is the event's error level.  In state
Stopped every Blur, Focus, Conceal, Reveal, Freeze, Unfreeze or Stop event
returns true with no call to the event handler and no change to the
application. -/
theorem DispatchAndDelete_false_iff_Stop_in_Frozen (event : Event) (app : QueueApplication) :
    ((DispatchAndDelete (some event) app).1 = false ↔
        event.type = kSbEventTypeStop ∧ app.state_ = kStateFrozen) ∧
      (∀ (timestamp : Int) (data : Option Nat) (error_level level : Int),
        DispatchAndDelete
            (some { type := kSbEventTypeStop, timestamp := timestamp, data := data,
                    error_level := error_level })
            { state_ := kStateFrozen, error_level_ := level } =
          (false, { state_ := kStateStopped, error_level_ := error_level },
            [AppEffect.sb_event_handle_callback
              { type := kSbEventTypeStop, timestamp := timestamp, data := data,
                error_level := error_level }])) ∧
      (∀ type ∈ [kSbEventTypeBlur, kSbEventTypeFocus, kSbEventTypeConceal, kSbEventTypeReveal,
            kSbEventTypeFreeze, kSbEventTypeUnfreeze, kSbEventTypeStop],
        ∀ (timestamp : Int) (data : Option Nat) (error_level level : Int),
          DispatchAndDelete
              (some { type := type, timestamp := timestamp, data := data,
                      error_level := error_level })
              { state_ := kStateStopped, error_level_ := level } =
            (true, { state_ := kStateStopped, error_level_ := level }, [])) := by
  refine ⟨?_, ?_, ?_⟩
  · obtain ⟨type, timestamp, data, error_level⟩ := event
    obtain ⟨state, level⟩ := app
    cases type <;> cases state <;>
      simp [DispatchAndDelete, HandleEventAndUpdateState, handle_and_return, handle_in_order,
        check_started, expect_then_set, Event.intermediate]
  · intro timestamp data error_level level
    simp [DispatchAndDelete, HandleEventAndUpdateState, expect_then_set]
  · intro type hmem timestamp data error_level level
    simp only [List.mem_cons, List.mem_singleton, List.not_mem_nil, or_false] at hmem
    rcases hmem with rfl | rfl | rfl | rfl | rfl | rfl | rfl <;> simp [DispatchAndDelete]

/-- C24, evaluated: a Start event dispatched after a Preload finds the state
Concealed and is turned into a Focus event handled at once, where
`SB_DCHECK_EQ(state_, kStateBlurred)` fails; a Start event dispatched in state
Started is handled as it is, where `SB_DCHECK_EQ(state_, kStateUnstarted)`
fails.  Among the lifecycle events a state check fails exactly for a Start
event in state Started, Concealed, Frozen or Stopped. -/
theorem Start_outside_Unstarted_fails_state_check :
    (DispatchAndDelete (some sample_preload) init).2.1.state_ = kStateConcealed ∧
      failed_checks (DispatchAndDelete (some sample_preload) init).2.2 = [] ∧
      delivered (DispatchAndDelete (some sample_start)
          (DispatchAndDelete (some sample_preload) init).2.1).2.2 = [kSbEventTypeFocus] ∧
      failed_checks (DispatchAndDelete (some sample_start)
          (DispatchAndDelete (some sample_preload) init).2.1).2.2 =
        [AppEffect.DCheckEqFailed kStateConcealed kStateBlurred] ∧
      failed_checks (DispatchAndDelete (some sample_start)
          { state_ := kStateStarted, error_level_ := 0 }).2.2 =
        [AppEffect.DCheckEqFailed kStateStarted kStateUnstarted] ∧
      ∀ (event : Event) (app : QueueApplication), event.type ∈ lifecycle_types →
        (failed_checks (DispatchAndDelete (some event) app).2.2 ≠ [] ↔
          event.type = kSbEventTypeStart ∧
            app.state_ ∈ [kStateStarted, kStateConcealed, kStateFrozen, kStateStopped]) := by
  refine ⟨by decide, by decide, by decide, by decide, by decide, ?_⟩
  intro event app hmem
  obtain ⟨type, timestamp, data, error_level⟩ := event
  obtain ⟨state, level⟩ := app
  simp only [lifecycle_types, List.mem_cons, List.mem_singleton, List.not_mem_nil,
    or_false] at hmem
  rcases hmem with rfl | rfl | rfl | rfl | rfl | rfl | rfl | rfl | rfl <;> cases state <;>
    simp [DispatchAndDelete, HandleEventAndUpdateState, handle_and_return, handle_in_order,
      check_started, expect_then_set, Event.intermediate, failed_checks]

/-- C25, evaluated: a Link event dispatched to a new application reaches the
event handler and leaves the state Unstarted, where
`SB_DCHECK_NE(state_, kStateUnstarted)` fails.  An event is handled with the
state left Unstarted exactly when the state was Unstarted and the event is
neither a lifecycle event nor a Scheduled event. -/
theorem Link_while_unstarted_stays_unstarted :
    DispatchAndDelete (some sample_link) init =
        (true, init,
          [AppEffect.sb_event_handle_callback sample_link,
           AppEffect.DCheckNeFailed kStateUnstarted]) ∧
      ∀ (event : Event) (app : QueueApplication),
        ((delivered (DispatchAndDelete (some event) app).2.2 ≠ [] ∧
            (DispatchAndDelete (some event) app).2.1.state_ = kStateUnstarted) ↔
          app.state_ = kStateUnstarted ∧
            event.type ∉ kSbEventTypeScheduled :: lifecycle_types) ∧
        (AppEffect.DCheckNeFailed kStateUnstarted ∈ (DispatchAndDelete (some event) app).2.2 ↔
          app.state_ = kStateUnstarted ∧
            event.type ∉ kSbEventTypeScheduled :: lifecycle_types) := by
  refine ⟨by decide, ?_⟩
  intro event app
  obtain ⟨type, timestamp, data, error_level⟩ := event
  obtain ⟨state, level⟩ := app
  cases type <;> cases state <;>
    simp [DispatchAndDelete, HandleEventAndUpdateState, handle_and_return, handle_in_order,
      check_started, expect_then_set, Event.intermediate, delivered, lifecycle_types]

end starboard.shared.starboard.QueueApplication

namespace starboard.shared.starboard.QueueApplication

open TimedEventQueue

/-- A difference that fits an `int64_t` is not changed by the wrap. -/
theorem wrap_int64_of_fits (x : Int) (hlow : -9223372036854775808 ≤ x)
    (hhigh : x < 9223372036854775808) : wrap_int64 x = x := by
  unfold wrap_int64
  norm_num
  omega

/-- While the difference of the target times fits an `int64_t`, `IsLess`
orders by target time and then by address. -/
theorem IsLess_of_fits (lhs rhs : TimedEvent)
    (hlow : -9223372036854775808 ≤ lhs.target_time - rhs.target_time)
    (hhigh : lhs.target_time - rhs.target_time < 9223372036854775808) :
    IsLess lhs rhs = true ↔
      lhs.target_time < rhs.target_time ∨
        (lhs.target_time = rhs.target_time ∧ lhs.address < rhs.address) := by
  unfold IsLess
  rw [wrap_int64_of_fits _ hlow hhigh]
  by_cases hz : lhs.target_time - rhs.target_time = 0
  · have heq : lhs.target_time = rhs.target_time := by omega
    simp [heq]
  · have hne : lhs.target_time ≠ rhs.target_time := by omega
    simp only [ne_eq, hz, not_false_eq_true, if_true, decide_eq_true_eq]
    constructor
    · intro h; left; omega
    · rintro (h | ⟨h, _⟩)
      · omega
      · exact absurd h hne

/-- C27, evaluated: for the timed events with target times `INT64_MIN` and 0
the difference wraps, and `IsLess` holds in both directions, so it is not
asymmetric; for target times `INT64_MIN` and 1 it puts the later event first;
and it is not transitive on the events with target times `INT64_MIN`, 0 and
1.  While the difference of the
target times fits an `int64_t`, as it does for any two target times that are
not negative, `IsLess` orders by target time and then by address. -/
theorem IsLess_wraps_at_int64_min :
    (IsLess sample_at_int64_min sample_at_zero = true ∧
        IsLess sample_at_zero sample_at_int64_min = true) ∧
      (sample_at_int64_min.target_time < sample_at_one.target_time ∧
        IsLess sample_at_int64_min sample_at_one = false ∧
        IsLess sample_at_one sample_at_int64_min = true) ∧
      (IsLess sample_at_int64_min sample_at_zero = true ∧
        IsLess sample_at_zero sample_at_one = true ∧
        IsLess sample_at_int64_min sample_at_one = false) ∧
      (∀ lhs rhs : TimedEvent, 0 ≤ lhs.target_time → lhs.target_time < 9223372036854775808 →
        0 ≤ rhs.target_time → rhs.target_time < 9223372036854775808 →
        (IsLess lhs rhs = true ↔
          lhs.target_time < rhs.target_time ∨
            (lhs.target_time = rhs.target_time ∧ lhs.address < rhs.address))) := by
  refine ⟨⟨by decide, by decide⟩, ⟨by decide, by decide, by decide⟩,
    ⟨by decide, by decide, by decide⟩, ?_⟩
  intro lhs rhs h1 h2 h3 h4
  exact IsLess_of_fits lhs rhs (by omega) (by omega)

end starboard.shared.starboard.QueueApplication
